import Mathlib

/-!
# Platform-profile lifecycle and authentication (Arpita21ti/ING)

A shallow embedding of

* `internal/common/errors/domain_errors.go` (error taxonomy),
* `internal/domain/platform_profile/model.go` (records),
* `internal/infrastructure/database/postgres/repositories/platform_profile_repo.go`
  (the PostgreSQL store),
* `internal/domain/platform_profile/service.go` (the lifecycle service), and
* `internal/common/utils/security.go` (the argon2id password utilities).

Modelling conventions.

* A Go `error` result is `Option GoError` (`none` is `nil`); a Go `(*T, error)` result is
  `Except GoError T`.
* The database is a value of type `Store`: one list of rows per table.  A statement
  `UPDATE t SET .. WHERE c` rewrites every row satisfying `c` and reports their number as
  `RowsAffected`; `QueryRow(..).Scan` yields the first row satisfying the condition and
  `pgx.ErrNoRows` when there is none.  The names `platform_profiles` and
  `profile_schema.platform_profiles` both denote the one active-profiles table.
* What the code obtains from outside (the driver reporting a failure, `time.Now()`, random
  bytes, the mail collaborator) is an explicit argument: an `EngineCall` per repository call
  and a "world" record per service call.
* The table declarations (the migration files) are not part of the source.  A write to
  `platform_profiles` checks the arbiter of `ON CONFLICT (id)` and the two unique constraints
  the repository code names (`platform_profiles_username_key`,
  `platform_profiles_email_key`); these two are modelled from the spec (`uniqueKeyTaken`,
  `uniqueKeyHolds`).  A constraint the other tables may carry is a driver failure.
* `RegisterProfile` is written over the methods of the Go interface `Repository` it calls;
  `NewPostgresProfileRepository` gives the PostgreSQL implementation of them.
* Logging has no effect on results or on the store and is left out, except where evaluating
  the arguments of a log call dereferences a nil pointer (`RestoreProfile`).
* The library functions the password utilities call (`strings.Split`, `fmt.Sscanf`,
  `base64.RawStdEncoding`, `subtle.ConstantTimeCompare`) are written out on byte strings;
  `argon2.IDKey` is an argument: any function that returns bytes or panics.
-/

namespace ING

/-! ## `internal/common/errors/domain_errors.go` -/

/-- The Go type `ErrorType` (a string type) with its declared constants. -/
inductive ErrorType where
  | NotFoundError
  | ValidationError
  | UnauthorizedError
  | ForbiddenError
  | ConflictError
  | DatabaseError
  | NetworkError
  | IntegrationError
  | BadInputError
  | BusinessError
  | UnknownError
  deriving DecidableEq, Repr

/-- Go `error` values as far as the code builds or receives them: `errors.New(text)`,
`fmt.Errorf("text: %w", wrapped)`, `*DomainError` without and with a `Cause`, and an error
value handed over by the database driver (by its text).  A driver error is a value of
another package: it is never one of the repository's sentinels, whatever its text.
The free-form `Details` map of `DomainError` is read by no modelled function and is left out. -/
inductive GoError where
  | errorsNew (text : String)
  | driverError (text : String)
  | fmtErrorf (text : String) (wrapped : GoError)
  | domainError (errType : ErrorType) (message : String) (code : String)
  | domainErrorCaused (errType : ErrorType) (message : String) (code : String) (cause : GoError)
  deriving DecidableEq, Repr

/-- Function `NewDomainError` with a nil cause. -/
def NewDomainError (message : String) (errorType : ErrorType) (code : String) : GoError :=
  .domainError errorType message code

/-- Function `NewValidationError(message, details)`. -/
def NewValidationError (message : String) : GoError :=
  NewDomainError message .ValidationError "VALIDATION_FAILED"

/-- Function `NewUnauthorizedError(message)`. -/
def NewUnauthorizedError (message : String) : GoError :=
  NewDomainError (if message = "" then "Authorization required" else message)
    .UnauthorizedError "UNAUTHORIZED"

/-- Function `NewDatabaseError(operation, cause)`; every caller passes a non-nil cause. -/
def NewDatabaseError (operation : String) (cause : GoError) : GoError :=
  .domainErrorCaused .DatabaseError ("Database error during " ++ operation) "DATABASE_ERROR" cause

/-- Function `NewBusinessError(code, message, details)`. -/
def NewBusinessError (code : String) (message : String) : GoError :=
  NewDomainError message .BusinessError code

/-- Function `ErrorTypeOf`: `errors.As(err, &de)` walks the `Unwrap` chain to the first `*DomainError`;
without one the result is `UnknownError`. -/
def ErrorTypeOf : GoError → ErrorType
  | .errorsNew _ => .UnknownError
  | .driverError _ => .UnknownError
  | .fmtErrorf _ wrapped => ErrorTypeOf wrapped
  | .domainError t _ _ => t
  | .domainErrorCaused t _ _ _ => t

/-- Function `IsNotFoundErrorDomain`. -/
def IsNotFoundErrorDomain (err : GoError) : Bool :=
  ErrorTypeOf err == .NotFoundError

/-- Function `IsDomainError`: some error of the `Unwrap` chain is a `*DomainError`. -/
def IsDomainError : GoError → Bool
  | .errorsNew _ => false
  | .driverError _ => false
  | .fmtErrorf _ wrapped => IsDomainError wrapped
  | .domainError _ _ _ => true
  | .domainErrorCaused _ _ _ _ => true

/-! ## `internal/domain/platform_profile/model.go` -/

/-- Type `uuid.UUID`, as a number. -/
abbrev UUID := Nat

/-- Type `time.Time`, as a number of clock ticks. -/
abbrev Time := Nat

/-- The Go type `Status` (a string type) with its five declared constants
`"activated"`, `"deactivated"`, `"suspended"`, `"pending"`, `"locked"`. -/
inductive Status where
  | StatusActivated
  | StatusDeactivated
  | StatusSuspended
  | StatusPending
  | StatusLocked
  deriving DecidableEq, Repr

/-- Type `PlatformProfile`; `FailedLoginAttempts` is a Go `int`. -/
structure PlatformProfile where
  ID : UUID
  Username : String
  Email : String
  PasswordHash : String
  Status : Status
  VerifiedAt : Option Time
  LastLoginAt : Option Time
  FailedLoginAttempts : Int
  CreatedAt : Time
  UpdatedByUserAt : Time
  UpdatedBySystemAt : Time
  deriving DecidableEq, Repr

/-- Type `LoginRequest`. -/
structure LoginRequest where
  Username : String
  Email : String
  Password : String
  deriving DecidableEq, Repr

/-- Type `PasswordResetRequest`. -/
structure PasswordResetRequest where
  Email : String
  deriving DecidableEq, Repr

/-- Type `PasswordResetToken`, also the row type of `profile_schema.password_reset_tokens`
(its `updated_at` column is written by one statement and read by none; it is left out). -/
structure PasswordResetToken where
  ProfileID : UUID
  Token : String
  ExpiresAt : Time
  IsUsed : Bool
  CreatedAt : Time
  deriving DecidableEq, Repr

/-- Type `PasswordResetConfirmation`. -/
structure PasswordResetConfirmation where
  Token : String
  NewPassword : String
  deriving DecidableEq, Repr

/-- Type `ProfilePreference`. -/
structure ProfilePreference where
  ID : UUID
  ProfileID : UUID
  NotificationsEmail : Bool
  CreatedAt : Time
  UpdatedAt : Time
  deriving DecidableEq, Repr

/-- A row of `profile_schema.profile_roles`. -/
structure ProfileRole where
  ProfileID : UUID
  RoleID : UUID
  AssignedAt : Time
  deriving DecidableEq, Repr

/-- A row of `profile_schema.deleted_profiles`: the profile columns plus `deleted_at`. -/
structure DeletedProfile where
  profile : PlatformProfile
  deleted_at : Time
  deriving DecidableEq, Repr

/-! ## The PostgreSQL store (`platform_profile_repo.go`) -/

/-- The tables the repository reads and writes. -/
structure Store where
  platform_profiles : List PlatformProfile
  deleted_profiles : List DeletedProfile
  password_reset_tokens : List PasswordResetToken
  profile_preferences : List ProfilePreference
  profile_roles : List ProfileRole
  deriving DecidableEq, Repr

/-- What one repository call gets from outside: the reading of `time.Now()` it takes, and the
error the driver reports for its statement (`none` when the statement ran; "no rows" is not
a driver failure here, it follows from the table contents). -/
structure EngineCall where
  now : Time
  failure : Option String
  deriving DecidableEq, Repr

/-- The sentinel `ErrProfileNotFound`. -/
def ErrProfileNotFound : GoError := .errorsNew "profile not found"

/-- The sentinel `ErrResetTokenNotFound`. -/
def ErrResetTokenNotFound : GoError := .errorsNew "reset token not found"

/-- The sentinel `ErrResetTokenExpired`; no repository function returns it. -/
def ErrResetTokenExpired : GoError := .errorsNew "reset token expired"

/-- The sentinel `ErrResetTokenUsed`; no repository function returns it. -/
def ErrResetTokenUsed : GoError := .errorsNew "reset token already used"

/-- Statement `UPDATE .. SET .. WHERE cond`: every row satisfying `cond` is rewritten. -/
def updateWhere {α : Type} (cond : α → Bool) (set : α → α) (rows : List α) : List α :=
  rows.map (fun r => if cond r then set r else r)

/-- Result `commandTag.RowsAffected()` of an `UPDATE`/`DELETE` with condition `cond`. -/
def rowsAffected {α : Type} (cond : α → Bool) (rows : List α) : Nat :=
  rows.countP cond

/-- Function `GetProfileByUsername`: `SELECT .. FROM platform_profiles WHERE username = $1`. -/
def GetProfileByUsername (s : Store) (engine : Option String) (username : String) :
    Except GoError PlatformProfile :=
  match engine with
  | some e => .error (.fmtErrorf "failed to get profile by username" (.driverError e))
  | none =>
    match s.platform_profiles.find? (fun r => r.Username == username) with
    | none => .error ErrProfileNotFound
    | some profile => .ok profile

/-- Function `GetProfileByEmail`: `SELECT .. FROM platform_profiles WHERE email = $1`. -/
def GetProfileByEmail (s : Store) (engine : Option String) (email : String) :
    Except GoError PlatformProfile :=
  match engine with
  | some e => .error (.fmtErrorf "failed to get profile by email" (.driverError e))
  | none =>
    match s.platform_profiles.find? (fun r => r.Email == email) with
    | none => .error ErrProfileNotFound
    | some profile => .ok profile

/-- Function `GetProfileByID`: `SELECT .. FROM platform_profiles WHERE id = $1`. -/
def GetProfileByID (s : Store) (engine : Option String) (id : UUID) :
    Except GoError PlatformProfile :=
  match engine with
  | some e => .error (.fmtErrorf "failed to get profile by ID" (.driverError e))
  | none =>
    match s.platform_profiles.find? (fun r => r.ID == id) with
    | none => .error ErrProfileNotFound
    | some profile => .ok profile

/-- Function `UpdateStatus`: sets `status`, `updated_by_user_at` and `updated_by_system_at`
of the rows with the given id. -/
def UpdateStatus (s : Store) (c : EngineCall) (id : UUID) (status : Status) :
    Option GoError × Store :=
  match c.failure with
  | some e => (some (.fmtErrorf "failed to update profile status" (.driverError e)), s)
  | none =>
    if rowsAffected (fun r : PlatformProfile => r.ID == id) s.platform_profiles = 0 then
      (some ErrProfileNotFound, s)
    else
      let rows := updateWhere (fun r => r.ID == id)
        (fun r => { r with Status := status, UpdatedByUserAt := c.now,
                           UpdatedBySystemAt := c.now })
        s.platform_profiles
      (none, { s with platform_profiles := rows })

/-- Function `UpdatePassword`: sets `password_hash` and both update timestamps. -/
def UpdatePassword (s : Store) (c : EngineCall) (id : UUID) (passwordHash : String) :
    Option GoError × Store :=
  match c.failure with
  | some e => (some (.fmtErrorf "failed to update password" (.driverError e)), s)
  | none =>
    if rowsAffected (fun r : PlatformProfile => r.ID == id) s.platform_profiles = 0 then
      (some ErrProfileNotFound, s)
    else
      let rows := updateWhere (fun r => r.ID == id)
        (fun r => { r with PasswordHash := passwordHash, UpdatedByUserAt := c.now,
                           UpdatedBySystemAt := c.now })
        s.platform_profiles
      (none, { s with platform_profiles := rows })

/-- Function `RecordLogin`: sets `last_login_at`, `updated_by_system_at` and zeroes the counter. -/
def RecordLogin (s : Store) (c : EngineCall) (id : UUID) : Option GoError × Store :=
  match c.failure with
  | some e => (some (.fmtErrorf "failed to record login" (.driverError e)), s)
  | none =>
    if rowsAffected (fun r : PlatformProfile => r.ID == id) s.platform_profiles = 0 then
      (some ErrProfileNotFound, s)
    else
      let rows := updateWhere (fun r => r.ID == id)
        (fun r => { r with LastLoginAt := some c.now, UpdatedBySystemAt := c.now,
                           FailedLoginAttempts := 0 })
        s.platform_profiles
      (none, { s with platform_profiles := rows })

/-- Function `IncrementFailedLoginAttempts`: `failed_login_attempts = failed_login_attempts + 1`. -/
def IncrementFailedLoginAttempts (s : Store) (c : EngineCall) (id : UUID) :
    Option GoError × Store :=
  match c.failure with
  | some e => (some (.fmtErrorf "failed to increment failed login attempts" (.driverError e)), s)
  | none =>
    if rowsAffected (fun r : PlatformProfile => r.ID == id) s.platform_profiles = 0 then
      (some ErrProfileNotFound, s)
    else
      let rows := updateWhere (fun r => r.ID == id)
        (fun r => { r with FailedLoginAttempts := r.FailedLoginAttempts + 1,
                           UpdatedBySystemAt := c.now })
        s.platform_profiles
      (none, { s with platform_profiles := rows })

/-- Function `ResetFailedLoginAttempts`: `failed_login_attempts = 0`. -/
def ResetFailedLoginAttempts (s : Store) (c : EngineCall) (id : UUID) :
    Option GoError × Store :=
  match c.failure with
  | some e => (some (.fmtErrorf "failed to reset failed login attempts" (.driverError e)), s)
  | none =>
    if rowsAffected (fun r : PlatformProfile => r.ID == id) s.platform_profiles = 0 then
      (some ErrProfileNotFound, s)
    else
      let rows := updateWhere (fun r => r.ID == id)
        (fun r => { r with FailedLoginAttempts := 0, UpdatedBySystemAt := c.now })
        s.platform_profiles
      (none, { s with platform_profiles := rows })

/-- Function `CreatePasswordResetToken`: `INSERT INTO profile_schema.password_reset_tokens`.
A constraint violation reaches the caller as a driver failure. -/
def CreatePasswordResetToken (s : Store) (engine : Option String)
    (resetToken : PasswordResetToken) : Option GoError × Store :=
  match engine with
  | some e => (some (.fmtErrorf "failed to create password reset token" (.driverError e)), s)
  | none => (none, { s with password_reset_tokens := s.password_reset_tokens ++ [resetToken] })

/-- Function `GetPasswordResetToken`: `SELECT .. WHERE token = $1`; neither `expires_at` nor `is_used`
takes part in the condition, and the row is returned as read. -/
def GetPasswordResetToken (s : Store) (engine : Option String) (token : String) :
    Except GoError PasswordResetToken :=
  match engine with
  | some e => .error (.fmtErrorf "failed to get password reset token" (.driverError e))
  | none =>
    match s.password_reset_tokens.find? (fun r => r.Token == token) with
    | none => .error ErrResetTokenNotFound
    | some resetToken => .ok resetToken

/-- Function `MarkPasswordResetTokenUsed`: `UPDATE .. SET is_used = true WHERE token = $1 AND
is_used = false`. -/
def MarkPasswordResetTokenUsed (s : Store) (engine : Option String) (token : String) :
    Option GoError × Store :=
  match engine with
  | some e => (some (.fmtErrorf "failed to mark password reset token as used" (.driverError e)), s)
  | none =>
    if rowsAffected (fun r : PasswordResetToken => r.Token == token && r.IsUsed == false)
        s.password_reset_tokens = 0 then
      (some ErrResetTokenNotFound, s)
    else
      let rows := updateWhere (fun r => r.Token == token && r.IsUsed == false)
        (fun r => { r with IsUsed := true })
        s.password_reset_tokens
      (none, { s with password_reset_tokens := rows })

/-- Function `DeleteOtherPasswordResetTokens`: `DELETE FROM profile_schema.password_reset_tokens
WHERE profile_id = $1`; the number of deleted rows is only logged. -/
def DeleteOtherPasswordResetTokens (s : Store) (engine : Option String) (profileID : UUID) :
    Option GoError × Store :=
  match engine with
  | some e => (some (.fmtErrorf "failed to delete other password reset tokens" (.driverError e)), s)
  | none =>
    let rows := s.password_reset_tokens.filter (fun r => !(r.ProfileID == profileID))
    (none, { s with password_reset_tokens := rows })

/-! ## The lifecycle service (`service.go`) -/

/-- The two functions of `golang.org/x/crypto/bcrypt` the service calls.
`GenerateFromPassword password cost entropy` is `none` when the library reports an error;
`CompareHashAndPassword hash password` is `true` when the library returns a nil error. -/
structure Bcrypt where
  GenerateFromPassword : String → Nat → Nat → Option String
  CompareHashAndPassword : String → String → Bool

/-- The constant `bcrypt.DefaultCost`. -/
def DefaultCost : Nat := 10

/-- Go `int` arithmetic: a result is reduced into the 64-bit two's-complement range. -/
def goInt (x : Int) : Int := (x + 2 ^ 63) % 2 ^ 64 - 2 ^ 63

/-- The constant `time.Hour`, in nanoseconds (the unit of `Time`). -/
def Hour : Nat := 3600000000000

/-- What one `AuthenticateProfile` call gets from outside: one `EngineCall` for each
repository call it can make. -/
structure AuthWorld where
  lookup : EngineCall
  increment : EngineCall
  suspend : EngineCall
  reset : EngineCall
  record : EngineCall
  activate : EngineCall
  deriving DecidableEq, Repr

/-- Function `AuthenticateProfile`. -/
def AuthenticateProfile (bc : Bcrypt) (w : AuthWorld) (s : Store) (req : LoginRequest) :
    Except GoError PlatformProfile × Store :=
  let found : Option (Except GoError PlatformProfile) :=
    if req.Username ≠ "" then some (GetProfileByUsername s w.lookup.failure req.Username)
    else if req.Email ≠ "" then some (GetProfileByEmail s w.lookup.failure req.Email)
    else none
  match found with
  | none => (.error (NewValidationError "username or email is required"), s)
  | some (.error err) =>
    if IsNotFoundErrorDomain err then (.error (NewUnauthorizedError "invalid credentials"), s)
    else (.error (NewDatabaseError "error fetching profile" err), s)
  | some (.ok profile) =>
    if profile.Status = .StatusDeactivated ∨ profile.Status = .StatusSuspended then
      (.error (NewUnauthorizedError "account is not active"), s)
    else if bc.CompareHashAndPassword profile.PasswordHash req.Password = false then
      let s1 := (IncrementFailedLoginAttempts s w.increment profile.ID).2
      if goInt (profile.FailedLoginAttempts + 1) ≥ 5 then
        let s2 := (UpdateStatus s1 w.suspend profile.ID .StatusSuspended).2
        (.error (NewUnauthorizedError
          "account suspended due to too many failed login attempts"), s2)
      else
        (.error (NewUnauthorizedError "invalid credentials"), s1)
    else
      let s1 :=
        if profile.FailedLoginAttempts > 0 then
          (ResetFailedLoginAttempts s w.reset profile.ID).2
        else s
      let s2 := (RecordLogin s1 w.record profile.ID).2
      if profile.Status = .StatusPending then
        let s3 := (UpdateStatus s2 w.activate profile.ID .StatusActivated).2
        (.ok { profile with Status := .StatusActivated, PasswordHash := "" }, s3)
      else
        (.ok { profile with PasswordHash := "" }, s2)

/-- What one `RequestPasswordReset` call gets from outside: the driver outcome of the lookup
and of the insert, the token generator's result (`none` when it reports an error), the two
readings of `time.Now()`, and the mail collaborator's result (`none` when it returns nil). -/
structure RequestWorld where
  lookup : Option String
  token : Option String
  expiresNow : Time
  createdNow : Time
  create : Option String
  mail : Option String
  deriving DecidableEq, Repr

/-- Function `RequestPasswordReset`.  The third component lists the calls made to
`mailer.SendPasswordResetEmail` as (address, token) pairs. -/
def RequestPasswordReset (w : RequestWorld) (s : Store) (req : PasswordResetRequest) :
    Option GoError × Store × List (String × String) :=
  match GetProfileByEmail s w.lookup req.Email with
  | .error _ => (none, s, [])
  | .ok profile =>
    match w.token with
    | none =>
      (some (NewBusinessError "RESET_TOKEN_GENERATION_FAILED"
        "failed to initiate password reset"), s, [])
    | some token =>
      let passwordResetToken : PasswordResetToken :=
        { ProfileID := profile.ID, Token := token, ExpiresAt := w.expiresNow + 1 * Hour,
          IsUsed := false, CreatedAt := w.createdNow }
      match CreatePasswordResetToken s w.create passwordResetToken with
      | (some _, s1) =>
        (some (NewBusinessError "RESET_TOKEN_SAVE_FAILED"
          "failed to initiate password reset"), s1, [])
      | (none, s1) =>
        match w.mail with
        | some _ =>
          (some (NewBusinessError "EMAIL_SEND_FAILED" "failed to send password reset email"),
            s1, [(profile.Email, token)])
        | none => (none, s1, [(profile.Email, token)])

/-- What one `ConfirmPasswordReset` call gets from outside: the driver outcome of each
repository call, the clock reading of `UpdatePassword`, and the random bytes drawn by
`bcrypt.GenerateFromPassword`. -/
structure ConfirmWorld where
  fetch : Option String
  entropy : Nat
  update : EngineCall
  markUsed : Option String
  deleteOthers : Option String
  deriving DecidableEq, Repr

/-- Function `ConfirmPasswordReset`. -/
def ConfirmPasswordReset (bc : Bcrypt) (w : ConfirmWorld) (s : Store)
    (req : PasswordResetConfirmation) : Option GoError × Store :=
  match GetPasswordResetToken s w.fetch req.Token with
  | .error err => (some (NewDatabaseError "fetching reset token" err), s)
  | .ok profile =>
    match bc.GenerateFromPassword req.NewPassword DefaultCost w.entropy with
    | none => (some (NewBusinessError "PASSWORD_HASH_FAILED" "failed to update password"), s)
    | some passwordHash =>
      match UpdatePassword s w.update profile.ProfileID passwordHash with
      | (some _, s1) =>
        (some (NewBusinessError "PASSWORD_UPDATE_FAILED" "failed to update password"), s1)
      | (none, s1) =>
        let s2 := (MarkPasswordResetTokenUsed s1 w.markUsed req.Token).2
        let s3 := (DeleteOtherPasswordResetTokens s2 w.deleteOthers profile.ProfileID).2
        (none, s3)

/-! ## Soft delete, restore and hard delete (`platform_profile_repo.go`) -/

/-- Function `NewNotFoundError(entity, id)`; `id` is passed as the text that `%v` prints. -/
def NewNotFoundError (entity : String) (id : String) : GoError :=
  NewDomainError (entity ++ " with ID " ++ id ++ " not found") .NotFoundError "ENTITY_NOT_FOUND"

/-- Function `NewConflictError(entity, details)`. -/
def NewConflictError (entity : String) : GoError :=
  NewDomainError ("Conflict with existing " ++ entity) .ConflictError "ENTITY_CONFLICT"

/-- The sentinel `ErrUsernameAlreadyExists`. -/
def ErrUsernameAlreadyExists : GoError := .errorsNew "username already exists"

/-- The sentinel `ErrEmailAlreadyExists`. -/
def ErrEmailAlreadyExists : GoError := .errorsNew "email already exists"

/-- What one `SoftDeleteProfile` call of the repository gets from outside: the driver outcome
of `Begin`, of the archiving `INSERT .. SELECT` (with the reading of `NOW()` it stamps), of
the `DELETE`, and of `Commit`. -/
structure SoftDeleteCall where
  begin : Option String
  archive : EngineCall
  delete : Option String
  commit : Option String
  deriving DecidableEq, Repr

/-- What one `RestoreSoftDeletedProfile` call gets from outside: the driver outcome of
`Begin`, of the restoring `INSERT .. SELECT`, of the `DELETE`, and of `Commit`. -/
structure RestoreCall where
  begin : Option String
  restore : Option String
  delete : Option String
  commit : Option String
  deriving DecidableEq, Repr

/-- Function `SoftDeleteProfile` of the repository.  Inside one transaction: copy the active
rows with the id into `deleted_profiles` stamped with `NOW()`, then delete them from
`platform_profiles`.  Every early return rolls the transaction back (`defer tx.Rollback`),
so the store is then the one before the call.  The schema of `deleted_profiles` is not part
of the source; a constraint it may carry reaches the caller as a driver failure of the
archiving statement. -/
def SoftDeleteProfile (s : Store) (c : SoftDeleteCall) (id : UUID) : Option GoError × Store :=
  match c.begin with
  | some e =>
    (some (.fmtErrorf "failed to start transaction for soft delete" (.driverError e)), s)
  | none =>
    match c.archive.failure with
    | some e =>
      (some (.fmtErrorf "failed to archive profile before soft delete" (.driverError e)), s)
    | none =>
      let archived : List DeletedProfile :=
        (s.platform_profiles.filter (fun r => r.ID == id)).map
          (fun r => { profile := r, deleted_at := c.archive.now })
      if archived.length = 0 then (some ErrProfileNotFound, s)
      else
        match c.delete with
        | some e =>
          (some (.fmtErrorf "failed to delete profile after archiving" (.driverError e)), s)
        | none =>
          if rowsAffected (fun r : PlatformProfile => r.ID == id) s.platform_profiles = 0 then
            (some ErrProfileNotFound, s)
          else
            match c.commit with
            | some e =>
              (some (.fmtErrorf "failed to commit transaction for soft delete"
                (.driverError e)), s)
            | none =>
              let active := s.platform_profiles.filter (fun r => !(r.ID == id))
              (none, { s with platform_profiles := active,
                              deleted_profiles := s.deleted_profiles ++ archived })

/-- Modelled from the spec: the unique constraints `platform_profiles_username_key` and
`platform_profiles_email_key` of table `platform_profiles`, as an `INSERT` meets them.  The
table is declared in the migration files (`migrations/postgres`), which are not part of the
source; the spec has username and email "each globally unique among active profiles" and
"enforced by the storage layer's constraints", and the repository code names the two
constraints.  For the column `key` (username or email), adding the row `c` to a table
holding `rows` violates the constraint when a row of the table carries the key of `c`. -/
def uniqueKeyTaken (key : PlatformProfile → String) (rows : List PlatformProfile)
    (c : PlatformProfile) : Bool :=
  rows.any (fun r => key r == key c)

/-- Modelled from the spec: the same two unique constraints (of the table declaration in the
migration files, which are not part of the source), as an `UPDATE` meets them.  For the
column `key` (username or email), table contents satisfy the constraint when no two rows
carry one key; a statement that would leave other contents is rejected. -/
def uniqueKeyHolds (key : PlatformProfile → String) (rows : List PlatformProfile) : Prop :=
  (rows.map key).Nodup

instance (key : PlatformProfile → String) (rows : List PlatformProfile) :
    Decidable (uniqueKeyHolds key rows) := by
  unfold uniqueKeyHolds; infer_instance

/-- Statement `INSERT INTO platform_profiles (..) SELECT .. ON CONFLICT (id) DO NOTHING
RETURNING id`, row by row: a candidate whose id is already in the table is skipped; one whose
username or email is already there violates the unique constraint the repository knows as
`platform_profiles_username_key` or `platform_profiles_email_key` (`uniqueKeyTaken`) and
aborts the statement (`error` with the constraint name); otherwise the row is added and its
id returned. -/
def insertOnConflictDoNothing :
    List PlatformProfile → List PlatformProfile → Except String (List PlatformProfile × List UUID)
  | [], rows => .ok (rows, [])
  | c :: cs, rows =>
    if rows.any (fun r => r.ID == c.ID) then insertOnConflictDoNothing cs rows
    else if uniqueKeyTaken (fun r => r.Username) rows c then
      .error "platform_profiles_username_key"
    else if uniqueKeyTaken (fun r => r.Email) rows c then
      .error "platform_profiles_email_key"
    else
      match insertOnConflictDoNothing cs (rows ++ [c]) with
      | .error name => .error name
      | .ok (rows', ids) => .ok (rows', c.ID :: ids)

/-- Function `RestoreSoftDeletedProfile`.  Inside one transaction: copy the archive rows with
the id into `platform_profiles` (`ON CONFLICT (id) DO NOTHING RETURNING id`), scan the first
returned id (`pgx.ErrNoRows` when nothing was inserted), then delete the archive rows.
Every early return rolls the transaction back. -/
def RestoreSoftDeletedProfile (s : Store) (c : RestoreCall) (id : UUID) :
    Option GoError × Store :=
  match c.begin with
  | some e =>
    (some (.fmtErrorf "failed to start transaction for profile restoration" (.driverError e)), s)
  | none =>
    match c.restore with
    | some e => (some (.fmtErrorf "failed to restore profile" (.driverError e)), s)
    | none =>
      let candidates : List PlatformProfile :=
        (s.deleted_profiles.filter (fun d => d.profile.ID == id)).map (fun d => d.profile)
      match insertOnConflictDoNothing candidates s.platform_profiles with
      | .error name =>
        (some (.fmtErrorf "failed to restore profile"
          (.driverError ("duplicate key value violates unique constraint " ++ name))), s)
      | .ok (_, []) => (some ErrProfileNotFound, s)
      | .ok (active, _ :: _) =>
        match c.delete with
        | some e =>
          (some (.fmtErrorf "failed to delete restored profile from deleted_profiles"
            (.driverError e)), s)
        | none =>
          if rowsAffected (fun d : DeletedProfile => d.profile.ID == id)
              s.deleted_profiles = 0 then
            (some ErrProfileNotFound, s)
          else
            match c.commit with
            | some e =>
              (some (.fmtErrorf "failed to commit transaction for profile restoration"
                (.driverError e)), s)
            | none =>
              let archive := s.deleted_profiles.filter (fun d => !(d.profile.ID == id))
              (none, { s with platform_profiles := active, deleted_profiles := archive })

/-- Function `HardDeleteProfile` of the repository:
`DELETE FROM profile_schema.deleted_profiles WHERE id = $1`. -/
def HardDeleteProfile (s : Store) (engine : Option String) (id : UUID) :
    Option GoError × Store :=
  match engine with
  | some e =>
    (some (.fmtErrorf "failed to delete profile from deleted_profiles" (.driverError e)), s)
  | none =>
    if rowsAffected (fun d : DeletedProfile => d.profile.ID == id) s.deleted_profiles = 0 then
      (some ErrProfileNotFound, s)
    else
      let archive := s.deleted_profiles.filter (fun d => !(d.profile.ID == id))
      (none, { s with deleted_profiles := archive })

/-- Function `GetSoftDeletedProfileByEmail`: the first archive row with the email; every
failure, also a driver failure, is reported as `ErrProfileNotFound`. -/
def GetSoftDeletedProfileByEmail (s : Store) (engine : Option String) (email : String) :
    Except GoError PlatformProfile :=
  match engine with
  | some _ => .error ErrProfileNotFound
  | none =>
    match s.deleted_profiles.find? (fun d => d.profile.Email == email) with
    | none => .error ErrProfileNotFound
    | some d => .ok d.profile

/-- Function `GetSoftDeletedProfileByUsername`: the first archive row with the username;
every failure is reported as `ErrProfileNotFound`. -/
def GetSoftDeletedProfileByUsername (s : Store) (engine : Option String) (username : String) :
    Except GoError PlatformProfile :=
  match engine with
  | some _ => .error ErrProfileNotFound
  | none =>
    match s.deleted_profiles.find? (fun d => d.profile.Username == username) with
    | none => .error ErrProfileNotFound
    | some d => .ok d.profile

/-! ## Registration: the repository side -/

/-- Function `UsernameExists`: `SELECT EXISTS(SELECT 1 FROM platform_profiles WHERE
username = $1)`; the Go result pair `(bool, error)`. -/
def UsernameExists (s : Store) (engine : Option String) (username : String) :
    Bool × Option GoError :=
  match engine with
  | some e => (false, some (.fmtErrorf "failed to check username existence" (.driverError e)))
  | none => (s.platform_profiles.any (fun r => r.Username == username), none)

/-- Function `EmailExists`: `SELECT EXISTS(SELECT 1 FROM platform_profiles WHERE email = $1)`;
the Go result pair `(bool, error)`. -/
def EmailExists (s : Store) (engine : Option String) (email : String) :
    Bool × Option GoError :=
  match engine with
  | some e => (false, some (.fmtErrorf "failed to check email existence" (.driverError e)))
  | none => (s.platform_profiles.any (fun r => r.Email == email), none)

/-- The target columns named by the `INSERT` of `CreateProfile`. -/
def CreateProfile.columns : List String :=
  ["id", "username", "email", "password_hash", "status", "verified_at", "last_login_at",
   "failed_login_attempts", "created_at", "updated_by_user_at", "updated_by_system_at"]

/-- The value expressions of the `INSERT` of `CreateProfile`, the placeholders `$1` to
`$12`, by their numbers. -/
def CreateProfile.values : List Nat := [1, 2, 3, 4, 5, 6, 7, 8, 9, 10, 11, 12]

/-- Function `CreateProfile`.  PostgreSQL rejects an `INSERT` whose `VALUES` list has more
expressions than the statement names target columns; that error carries no constraint name,
so the function wraps it.  With matching lists the row is added unless its id, username or
email is already in the table; the unique constraints on username and email are mapped to
the two sentinels, any other violation is wrapped.  On success the profile is returned with
the id the statement returned. -/
def CreateProfile (s : Store) (engine : Option String) (profile : PlatformProfile) :
    Except GoError PlatformProfile × Store :=
  match engine with
  | some e => (.error (.fmtErrorf "failed to create profile" (.driverError e)), s)
  | none =>
    if CreateProfile.values.length ≠ CreateProfile.columns.length then
      (.error (.fmtErrorf "failed to create profile"
        (.driverError "INSERT has more expressions than target columns")), s)
    else if s.platform_profiles.any (fun r => r.ID == profile.ID) then
      (.error (.fmtErrorf "failed to create profile"
        (.driverError "duplicate key value violates unique constraint platform_profiles_pkey")), s)
    else if uniqueKeyTaken (fun r => r.Username) s.platform_profiles profile then
      (.error ErrUsernameAlreadyExists, s)
    else if uniqueKeyTaken (fun r => r.Email) s.platform_profiles profile then
      (.error ErrEmailAlreadyExists, s)
    else
      (.ok profile, { s with platform_profiles := s.platform_profiles ++ [profile] })

/-- Function `errors.Is(err, target)` for a sentinel `target`: some error of the `Unwrap`
chain of `err` is `target`.  Go compares by identity; the sentinels of the repository are
told apart by their texts, and a driver error is none of them. -/
def errorsIs : GoError → GoError → Bool
  | .errorsNew text, target => GoError.errorsNew text == target
  | .driverError text, target => GoError.driverError text == target
  | .fmtErrorf text wrapped, target =>
    GoError.fmtErrorf text wrapped == target || errorsIs wrapped target
  | .domainError t m c, target => GoError.domainError t m c == target
  | .domainErrorCaused t m c cause, target =>
    GoError.domainErrorCaused t m c cause == target || errorsIs cause target

/-- Function `GetPreferences`: the first row of `profile_preferences` for the profile. -/
def GetPreferences (s : Store) (engine : Option String) (profileID : UUID) :
    Except GoError ProfilePreference :=
  match engine with
  | some e => .error (.fmtErrorf "failed to get profile preferences" (.driverError e))
  | none =>
    match s.profile_preferences.find? (fun r => r.ProfileID == profileID) with
    | none => .error ErrProfileNotFound
    | some prefs => .ok prefs

/-- What one `SavePreferences` call gets from outside: the driver outcome of the read, the
driver outcome and clock reading of the write, and the id `uuid.New()` would draw. -/
structure SavePreferencesCall where
  get : Option String
  write : EngineCall
  newID : UUID
  deriving DecidableEq, Repr

/-- Function `SavePreferences`: update the existing row of the profile, or insert a new one
(with a fresh id when the given id is `uuid.Nil`, the number 0 here).  A constraint violation
of the insert reaches the caller as a driver failure. -/
def SavePreferences (s : Store) (c : SavePreferencesCall) (prefs : ProfilePreference) :
    Option GoError × Store :=
  match GetPreferences s c.get prefs.ProfileID with
  | .ok _ =>
    match c.write.failure with
    | some e => (some (.fmtErrorf "failed to save profile preferences" (.driverError e)), s)
    | none =>
      let rows := updateWhere (fun r : ProfilePreference => r.ProfileID == prefs.ProfileID)
        (fun r => { r with NotificationsEmail := prefs.NotificationsEmail,
                           UpdatedAt := c.write.now })
        s.profile_preferences
      (none, { s with profile_preferences := rows })
  | .error err =>
    if !errorsIs err ErrProfileNotFound then (some err, s)
    else
      match c.write.failure with
      | some e => (some (.fmtErrorf "failed to save profile preferences" (.driverError e)), s)
      | none =>
        let row : ProfilePreference :=
          { ID := if prefs.ID = 0 then c.newID else prefs.ID, ProfileID := prefs.ProfileID,
            NotificationsEmail := prefs.NotificationsEmail, CreatedAt := c.write.now,
            UpdatedAt := c.write.now }
        (none, { s with profile_preferences := s.profile_preferences ++ [row] })

/-- Function `AssignRoleToProfile`: `INSERT INTO profile_schema.profile_roles .. ON CONFLICT
(profile_id, role_id) DO NOTHING`, stamped with `time.Now()`. -/
def AssignRoleToProfile (s : Store) (c : EngineCall) (profileID roleID : UUID) :
    Option GoError × Store :=
  match c.failure with
  | some e => (some (.fmtErrorf "failed to assign role to profile" (.driverError e)), s)
  | none =>
    if s.profile_roles.any (fun r => r.ProfileID == profileID && r.RoleID == roleID) then
      (none, s)
    else
      let row : ProfileRole := { ProfileID := profileID, RoleID := roleID, AssignedAt := c.now }
      (none, { s with profile_roles := s.profile_roles ++ [row] })

/-! ## Registration, deletion and retrieval: the service side -/

/-- Type `CreateProfileRequest`. -/
structure CreateProfileRequest where
  Username : String
  Email : String
  Password : String
  deriving DecidableEq, Repr

/-- Type `GetProfileRequest`; a nil pointer is `none`. -/
structure GetProfileRequest where
  ID : Option UUID
  Username : Option String
  Email : Option String
  deriving DecidableEq, Repr

/-- Type `GetSoftDeletedProfileRequest`; a nil pointer is `none`. -/
structure GetSoftDeletedProfileRequest where
  Username : Option String
  Email : Option String
  deriving DecidableEq, Repr

/-- How a Go call ends: it returns a value, or the goroutine panics. -/
inductive Completion (α : Type) where
  | returns (value : α)
  | panics (reason : String)
  deriving DecidableEq, Repr

/-- The methods of the Go interface `Repository` that `RegisterProfile` calls, over a store
type `σ`.  The service holds a value of the interface, not the PostgreSQL type.
`CreateProfile` yields the profile as the callee leaves it (it may set the id). -/
structure Repository (σ : Type) where
  UsernameExists : σ → String → Bool × Option GoError
  EmailExists : σ → String → Bool × Option GoError
  CreateProfile : σ → PlatformProfile → Except GoError PlatformProfile × σ
  SavePreferences : σ → ProfilePreference → Option GoError × σ
  AssignRoleToProfile : σ → UUID → UUID → Option GoError × σ

/-- What the repository calls of one `RegisterProfile` call get from outside. -/
structure RegisterEngine where
  usernameExists : Option String
  emailExists : Option String
  create : Option String
  savePreferences : SavePreferencesCall
  assignRole : EngineCall
  deriving DecidableEq, Repr

/-- Function `NewPostgresProfileRepository`: the PostgreSQL repository as a `Repository`. -/
def NewPostgresProfileRepository (e : RegisterEngine) : Repository Store where
  UsernameExists := fun s username => UsernameExists s e.usernameExists username
  EmailExists := fun s email => EmailExists s e.emailExists email
  CreateProfile := fun s profile => CreateProfile s e.create profile
  SavePreferences := fun s prefs => SavePreferences s e.savePreferences prefs
  AssignRoleToProfile := fun s profileID roleID => AssignRoleToProfile s e.assignRole profileID roleID

/-- What one `RegisterProfile` call gets from outside apart from its repository: the random
bytes of bcrypt, the reading of `time.Now()`, the two ids drawn by `uuid.New()`, and the
answer of `roleService.GetDefaultRoleID`. -/
structure RegisterWorld where
  entropy : Nat
  now : Time
  profileID : UUID
  preferenceID : UUID
  defaultRole : Except GoError UUID

/-- Function `RegisterProfile`.  The variable `err` of the function body is the one assigned
by `GetDefaultRoleID` and by `AssignRoleToProfile`, and it is tested once more after them. -/
def RegisterProfile {σ : Type} (repo : Repository σ) (bc : Bcrypt) (w : RegisterWorld)
    (s : σ) (req : CreateProfileRequest) : Except GoError PlatformProfile × σ :=
  let existingUser := repo.UsernameExists s req.Username
  match existingUser.2.filter (fun err => !IsNotFoundErrorDomain err) with
  | some err => (.error (NewDatabaseError "fetching username" err), s)
  | none =>
    if existingUser.1 then (.error (NewConflictError "username"), s)
    else
      let existingEmail := repo.EmailExists s req.Email
      match existingEmail.2.filter (fun err => !IsNotFoundErrorDomain err) with
      | some err => (.error (NewDatabaseError "fetching email" err), s)
      | none =>
        if existingEmail.1 then (.error (NewConflictError "email"), s)
        else
          match bc.GenerateFromPassword req.Password DefaultCost w.entropy with
          | none =>
            (.error (NewBusinessError "PASSWORD_HASHING_FAILED" "password hashing failed"), s)
          | some passwordHash =>
            let fresh : PlatformProfile :=
              { ID := w.profileID, Username := req.Username, Email := req.Email,
                PasswordHash := passwordHash, Status := .StatusPending, VerifiedAt := none,
                LastLoginAt := none, FailedLoginAttempts := 0, CreatedAt := w.now,
                UpdatedByUserAt := w.now, UpdatedBySystemAt := w.now }
            match repo.CreateProfile s fresh with
            | (.error _, s1) =>
              (.error (NewBusinessError "PROFILE_CREATION_FAILED" "failed to create profile"),
                s1)
            | (.ok profile, s1) =>
              let prefs : ProfilePreference :=
                { ID := w.preferenceID, ProfileID := profile.ID, NotificationsEmail := true,
                  CreatedAt := w.now, UpdatedAt := w.now }
              let s2 := (repo.SavePreferences s1 prefs).2
              match w.defaultRole with
              | .error err => (.error (NewDatabaseError "transaction commit" err), s2)
              | .ok defaultRoleID =>
                match repo.AssignRoleToProfile s2 profile.ID defaultRoleID with
                | (some err, s3) => (.error (NewDatabaseError "transaction commit" err), s3)
                | (none, s3) => (.ok { profile with PasswordHash := "" }, s3)

/-- Function `SoftDeleteProfile` of the service. -/
def service.SoftDeleteProfile (s : Store) (c : SoftDeleteCall) (id : UUID) :
    Option GoError × Store :=
  match ING.SoftDeleteProfile s c id with
  | (some err, s1) => (some (NewDatabaseError "soft delete profile" err), s1)
  | (none, s1) => (none, s1)

/-- Function `RestoreProfile`.  Its local `profile` pointer is declared and never assigned;
the success path evaluates `profile.ID` for the log call, a nil dereference. -/
def RestoreProfile (s : Store) (c : RestoreCall) (id : UUID) :
    Completion (Option GoError) × Store :=
  match RestoreSoftDeletedProfile s c id with
  | (some err, s1) =>
    if IsNotFoundErrorDomain err then
      (.returns (some (NewNotFoundError "profile" ("map[id:" ++ toString id ++ "]"))), s1)
    else
      (.returns (some (NewBusinessError "PROFILE_RESTORE_FAILED" "failed to restore profile")),
        s1)
  | (none, s1) =>
    (.panics "runtime error: invalid memory address or nil pointer dereference", s1)

/-- Function `HardDeleteProfile` of the service. -/
def service.HardDeleteProfile (s : Store) (engine : Option String) (id : UUID) :
    Option GoError × Store :=
  match ING.HardDeleteProfile s engine id with
  | (some _, s1) =>
    (some (NewBusinessError "PROFILE_HARD_DELETE_FAILED" "failed to hard delete profile"), s1)
  | (none, s1) => (none, s1)

/-- Function `GetSoftDeletedProfile`: by email when one is given and found, else by username;
the profile read from the archive is returned as read.  `shown` is the text `%v` prints for
the details map of the not-found error (it holds pointers). -/
def GetSoftDeletedProfile (s : Store) (byEmail byUsername : Option String) (shown : String)
    (req : GetSoftDeletedProfileRequest) : Except GoError PlatformProfile :=
  let first : Option PlatformProfile :=
    match req.Email with
    | none => none
    | some email =>
      match GetSoftDeletedProfileByEmail s byEmail email with
      | .ok profile => some profile
      | .error _ => none
  match first with
  | some profile => .ok profile
  | none =>
    let second : Option PlatformProfile :=
      match req.Username with
      | none => none
      | some username =>
        match GetSoftDeletedProfileByUsername s byUsername username with
        | .ok profile => some profile
        | .error _ => none
    match second with
    | some profile => .ok profile
    | none => .error (NewNotFoundError "SoftDeletedProfile" shown)

/-- Function `GetProfile`: by id, else by username, else by email; a repository error is
returned as it is; the hash is blanked before the profile is returned. -/
def GetProfile (s : Store) (engine : Option String) (req : GetProfileRequest) :
    Except GoError PlatformProfile :=
  let fetched : Except GoError PlatformProfile :=
    match req.ID, req.Username, req.Email with
    | some id, _, _ => GetProfileByID s engine id
    | none, some username, _ => GetProfileByUsername s engine username
    | none, none, some email => GetProfileByEmail s engine email
    | none, none, none =>
      .error (NewValidationError "no valid identifier provided for profile retrieval")
  match fetched with
  | .error err => .error err
  | .ok profile => .ok { profile with PasswordHash := "" }

/-! ## Profile update, password change and status transitions -/

/-- Type `UpdateProfileRequest`; a nil pointer is `none`. -/
structure UpdateProfileRequest where
  Username : Option String
  Email : Option String
  deriving DecidableEq, Repr

/-- Type `PasswordChangeRequest`. -/
structure PasswordChangeRequest where
  CurrentPassword : String
  NewPassword : String
  deriving DecidableEq, Repr

/-- Function `UpdateProfile` of the repository: `UPDATE platform_profiles SET username, email,
updated_by_user_at, updated_by_system_at WHERE id = $5`.  The statement is aborted when the
table it would leave breaks the unique constraint on usernames or on emails
(`uniqueKeyHolds`); the code maps the two constraint names to its sentinels. -/
def UpdateProfile (s : Store) (engine : Option String) (profile : PlatformProfile) :
    Option GoError × Store :=
  match engine with
  | some e => (some (.fmtErrorf "failed to update profile" (.driverError e)), s)
  | none =>
    let rows := updateWhere (fun r : PlatformProfile => r.ID == profile.ID)
      (fun r => { r with Username := profile.Username, Email := profile.Email,
                         UpdatedByUserAt := profile.UpdatedByUserAt,
                         UpdatedBySystemAt := profile.UpdatedBySystemAt })
      s.platform_profiles
    if ¬ uniqueKeyHolds (fun r => r.Username) rows then (some ErrUsernameAlreadyExists, s)
    else if ¬ uniqueKeyHolds (fun r => r.Email) rows then (some ErrEmailAlreadyExists, s)
    else if rowsAffected (fun r : PlatformProfile => r.ID == profile.ID)
        s.platform_profiles = 0 then
      (some ErrProfileNotFound, s)
    else (none, { s with platform_profiles := rows })

/-- Function `VerifyProfile` of the repository: sets the status to `activated` and stamps
`verified_at` and both update timestamps. -/
def VerifyProfile (s : Store) (c : EngineCall) (id : UUID) : Option GoError × Store :=
  match c.failure with
  | some e => (some (.fmtErrorf "failed to verify profile" (.driverError e)), s)
  | none =>
    if rowsAffected (fun r : PlatformProfile => r.ID == id) s.platform_profiles = 0 then
      (some ErrProfileNotFound, s)
    else
      let rows := updateWhere (fun r => r.ID == id)
        (fun r => { r with Status := .StatusActivated, VerifiedAt := some c.now,
                           UpdatedByUserAt := c.now, UpdatedBySystemAt := c.now })
        s.platform_profiles
      (none, { s with platform_profiles := rows })

/-- What one `UpdateProfile` call of the service gets from outside: the driver outcome of the
fetch, of the two availability lookups and of the update, and the reading of `time.Now()`. -/
structure UpdateWorld where
  fetch : Option String
  checkUsername : Option String
  checkEmail : Option String
  now : Time
  update : Option String
  deriving DecidableEq, Repr

/-- Function `UpdateProfile` of the service.  A failed fetch is returned as the repository
gave it; an availability lookup that fails for any reason lets the change through. -/
def service.UpdateProfile (w : UpdateWorld) (s : Store) (id : UUID)
    (req : UpdateProfileRequest) : Except GoError PlatformProfile × Store :=
  match GetProfileByID s w.fetch id with
  | .error err => (.error err, s)
  | .ok profile =>
    let usernameTaken : Bool :=
      match req.Username with
      | none => false
      | some username =>
        if username ≠ profile.Username then
          match GetProfileByUsername s w.checkUsername username with
          | .ok _ => true
          | .error _ => false
        else false
    if usernameTaken then
      (.error (NewDomainError "username already taken" .ValidationError "USERNAME_TAKEN"), s)
    else
      let profile1 : PlatformProfile :=
        match req.Username with
        | none => profile
        | some username => { profile with Username := username }
      let emailTaken : Bool :=
        match req.Email with
        | none => false
        | some email =>
          if email ≠ profile1.Email then
            match GetProfileByEmail s w.checkEmail email with
            | .ok _ => true
            | .error _ => false
          else false
      if emailTaken then
        (.error (NewDomainError "email already registered" .ValidationError
          "EMAIL_REGISTERED"), s)
      else
        let profile2 : PlatformProfile :=
          match req.Email with
          | none => profile1
          | some email => { profile1 with Email := email }
        let profile3 : PlatformProfile :=
          { profile2 with UpdatedByUserAt := w.now, UpdatedBySystemAt := w.now }
        match ING.UpdateProfile s w.update profile3 with
        | (some err, s1) => (.error (NewDatabaseError "updating profile" err), s1)
        | (none, s1) => (.ok { profile3 with PasswordHash := "" }, s1)

/-- What one `ChangePassword` call gets from outside: the driver outcome of the fetch, the
random bytes of bcrypt, and the outcome and clock reading of the update. -/
structure ChangePasswordWorld where
  fetch : Option String
  entropy : Nat
  update : EngineCall
  deriving DecidableEq, Repr

/-- Function `ChangePassword`.  A failed fetch is returned as the repository gave it. -/
def ChangePassword (bc : Bcrypt) (w : ChangePasswordWorld) (s : Store) (id : UUID)
    (req : PasswordChangeRequest) : Option GoError × Store :=
  match GetProfileByID s w.fetch id with
  | .error err => (some err, s)
  | .ok profile =>
    if bc.CompareHashAndPassword profile.PasswordHash req.CurrentPassword = false then
      (some (NewUnauthorizedError "current password is incorrect"), s)
    else if req.CurrentPassword = req.NewPassword then
      (some (NewValidationError "new password must be different from current password"), s)
    else
      match bc.GenerateFromPassword req.NewPassword DefaultCost w.entropy with
      | none => (some (NewBusinessError "PASSWORD_HASHING_FAILED" "failed to update password"), s)
      | some passwordHash =>
        match UpdatePassword s w.update id passwordHash with
        | (some err, s1) => (some (NewDatabaseError "updating password" err), s1)
        | (none, s1) => (none, s1)

/-- Function `ActivateProfile`: one `UpdateStatus` call; a domain not-found error is passed on as
`NotFound`, any other error is wrapped as a `DatabaseError`. -/
def ActivateProfile (s : Store) (c : EngineCall) (id : UUID) : Option GoError × Store :=
  match UpdateStatus s c id .StatusActivated with
  | (some err, s1) =>
    if IsNotFoundErrorDomain err then
      (some (NewNotFoundError "profile" ("map[id:" ++ toString id ++ "]")), s1)
    else (some (NewDatabaseError "profile activation" err), s1)
  | (none, s1) => (none, s1)

/-- Function `SuspendProfile`: one `UpdateStatus` call; a domain not-found error is passed on as
`NotFound`, any other error is wrapped as a `DatabaseError`. -/
def SuspendProfile (s : Store) (c : EngineCall) (id : UUID) : Option GoError × Store :=
  match UpdateStatus s c id .StatusSuspended with
  | (some err, s1) =>
    if IsNotFoundErrorDomain err then
      (some (NewNotFoundError "profile" ("map[id:" ++ toString id ++ "]")), s1)
    else (some (NewDatabaseError "profile suspension" err), s1)
  | (none, s1) => (none, s1)

/-- Function `DeactivateProfile`: one `UpdateStatus` call; a domain not-found error is passed on as
`NotFound`, any other error is wrapped as a `DatabaseError`. -/
def DeactivateProfile (s : Store) (c : EngineCall) (id : UUID) : Option GoError × Store :=
  match UpdateStatus s c id .StatusDeactivated with
  | (some err, s1) =>
    if IsNotFoundErrorDomain err then
      (some (NewNotFoundError "profile" ("map[id:" ++ toString id ++ "]")), s1)
    else (some (NewDatabaseError "profile deactivation" err), s1)
  | (none, s1) => (none, s1)

/-- Function `VerifyProfile` of the service: the repository's `VerifyProfile`, then
`UpdateStatus(id, activated)`. -/
def service.VerifyProfile (s : Store) (verify activate : EngineCall) (id : UUID) :
    Option GoError × Store :=
  match ING.VerifyProfile s verify id with
  | (some err, s1) =>
    if IsNotFoundErrorDomain err then
      (some (NewNotFoundError "profile" ("map[id:" ++ toString id ++ "]")), s1)
    else (some (NewDatabaseError "profile verification" err), s1)
  | (none, s1) =>
    match UpdateStatus s1 activate id .StatusActivated with
    | (some err, s2) => (some (NewDatabaseError "status update" err), s2)
    | (none, s2) => (none, s2)

/-! ## Password hashing utilities (`internal/common/utils/security.go`)

Go strings are byte sequences; the functions of this file read them byte by byte (or, in
`fmt.Sscanf`, rune by rune through their UTF-8 encoding), so a string is a list of bytes
here. -/

/-- Type `byte`. -/
abbrev Byte := Fin 256

/-- The byte of an ASCII character. -/
def ascii (c : Char) : Byte := ⟨c.toNat % 256, Nat.mod_lt _ (by decide)⟩

/-- The bytes of a Go string literal made of ASCII characters. -/
def bytes (literal : String) : List Byte := literal.data.map ascii

/-- Library function `strings.Split(s, sep)` for a separator of one byte: the pieces of `s`
between the occurrences of the separator, one more than there are occurrences. -/
def stringsSplit (s : List Byte) (sep : Byte) : List (List Byte) :=
  match s with
  | [] => [[]]
  | c :: cs =>
    if c = sep then [] :: stringsSplit cs sep
    else
      match stringsSplit cs sep with
      | [] => [[c]]
      | piece :: pieces => (c :: piece) :: pieces

/-- Method `SkipSpace` of the scanner of package `fmt`, as `Sscanf` runs it (newlines are not
space there): a newline is the error "unexpected newline" (`none`); every rune of the table
`space` is skipped, here by its UTF-8 encoding (U+0009..U+000D, U+0020, U+0085, U+00A0,
U+1680, U+2000..U+200A, U+2028, U+2029, U+202F, U+205F, U+3000); the rest of the input from
the first other rune on is returned. -/
def SkipSpace : List Byte → Option (List Byte)
  | [] => some []
  | b :: rest =>
    if b = 0x0a then none
    else if (0x09 ≤ b ∧ b ≤ 0x0d) ∨ b = 0x20 then SkipSpace rest
    else
      match rest with
      | [] => some [b]
      | b1 :: rest1 =>
        if b = 0xc2 ∧ (b1 = 0x85 ∨ b1 = 0xa0) then SkipSpace rest1
        else
          match rest1 with
          | [] => some [b, b1]
          | b2 :: rest2 =>
            if (b = 0xe1 ∧ b1 = 0x9a ∧ b2 = 0x80) ∨
                (b = 0xe2 ∧ b1 = 0x80 ∧
                  ((0x80 ≤ b2 ∧ b2 ≤ 0x8a) ∨ b2 = 0xa8 ∨ b2 = 0xa9 ∨ b2 = 0xaf)) ∨
                (b = 0xe2 ∧ b1 = 0x81 ∧ b2 = 0x9f) ∨
                (b = 0xe3 ∧ b1 = 0x80 ∧ b2 = 0x80) then SkipSpace rest2
            else some (b :: b1 :: b2 :: rest2)

/-- Library call `fmt.Sscanf(str, "%d", &val)` with `val` of type `int` (64 bits): the value
stored into `val`, or `none` when the call fails and leaves `val` as it was.  The scanner
skips leading space, takes one optional sign and the longest run of the decimal digits
`0123456789` (for the verb `%d` an underscore is no digit character), and hands the token to
`strconv.ParseInt(tok, 10, 64)`, which rejects a value outside the 64-bit range; what
follows the token is not read.  The scanner's read limit of 2^30 runes is not modelled. -/
def fmtSscanfD (str : List Byte) : Option Int :=
  match SkipSpace str with
  | none => none
  | some [] => none
  | some (c :: cs) =>
    let afterSign : List Byte := if c = ascii '+' ∨ c = ascii '-' then cs else c :: cs
    let digits : List Byte := afterSign.takeWhile (fun d => ascii '0' ≤ d ∧ d ≤ ascii '9')
    if digits = [] then none
    else
      let magnitude : Nat := digits.foldl (fun n d => n * 10 + (d.val - 48)) 0
      if c = ascii '-' then
        if magnitude > 2 ^ 63 then none else some (-(magnitude : Int))
      else
        if magnitude ≥ 2 ^ 63 then none else some (magnitude : Int)

/-- Conversion `uint32(val)` of an `int`. -/
def uint32 (val : Int) : Nat := (val % 4294967296).toNat

/-- Conversion `uint8(val)` of an `int`. -/
def uint8 (val : Int) : Nat := (val % 256).toNat

/-- The alphabet `encodeStd` of package `encoding/base64`. -/
def encodeStd : List Byte :=
  bytes "ABCDEFGHIJKLMNOPQRSTUVWXYZabcdefghijklmnopqrstuvwxyz0123456789+/"

/-- Table `enc.encode` of `base64.RawStdEncoding`: the character of a 6-bit value. -/
def RawStdEncoding.encode (value : Nat) : Byte := encodeStd.getD value 0

/-- Table `enc.decodeMap` of `base64.RawStdEncoding`: the 6-bit value of a character of the
alphabet, `none` (0xff in Go) for every other byte. -/
def RawStdEncoding.decodeMap (c : Byte) : Option Nat :=
  if encodeStd.indexOf c < 64 then some (encodeStd.indexOf c) else none

/-- Library function `base64.RawStdEncoding.EncodeToString`: three bytes give four
characters, a rest of two bytes gives three and a rest of one byte gives two; no padding.
Go's `a<<16 | b<<8 | c` is written as a sum and `val>>k & 0x3F` as `val / 2^k % 64`. -/
def RawStdEncoding.EncodeToString : List Byte → List Byte
  | a :: b :: c :: rest =>
    let val := a.val * 65536 + b.val * 256 + c.val
    RawStdEncoding.encode (val / 262144 % 64) :: RawStdEncoding.encode (val / 4096 % 64) ::
      RawStdEncoding.encode (val / 64 % 64) :: RawStdEncoding.encode (val % 64) ::
      RawStdEncoding.EncodeToString rest
  | [a, b] =>
    let val := a.val * 65536 + b.val * 256
    [RawStdEncoding.encode (val / 262144 % 64), RawStdEncoding.encode (val / 4096 % 64),
      RawStdEncoding.encode (val / 64 % 64)]
  | [a] =>
    let val := a.val * 65536
    [RawStdEncoding.encode (val / 262144 % 64), RawStdEncoding.encode (val / 4096 % 64)]
  | [] => []

/-- First half of the decoder of `base64.RawStdEncoding`: the 6-bit values of the input
characters.  Carriage returns and newlines are skipped; any other byte outside the alphabet
(the padding character too: this encoding has none) stops the decoder with the offset of
that byte. -/
def RawStdEncoding.sextets : Nat → List Byte → Except Nat (List Nat)
  | _, [] => .ok []
  | offset, c :: cs =>
    match RawStdEncoding.decodeMap c with
    | some value =>
      match RawStdEncoding.sextets (offset + 1) cs with
      | .error bad => .error bad
      | .ok values => .ok (value :: values)
    | none =>
      if c = 0x0a ∨ c = 0x0d then RawStdEncoding.sextets (offset + 1) cs
      else .error offset

/-- Second half of the decoder: four 6-bit values give three bytes, a rest of three gives two
bytes and a rest of two gives one (the bits left over are not checked: the encoding is not
strict); a rest of one value is an error (`none`).  Go's `byte(val >> k)` is
`val / 2^k % 256`. -/
def RawStdEncoding.assemble : List Nat → Option (List Byte)
  | a :: b :: c :: d :: rest =>
    let val := a * 262144 + b * 4096 + c * 64 + d
    match RawStdEncoding.assemble rest with
    | none => none
    | some out =>
      some (⟨val / 65536 % 256, Nat.mod_lt _ (by decide)⟩ ::
        ⟨val / 256 % 256, Nat.mod_lt _ (by decide)⟩ ::
        ⟨val % 256, Nat.mod_lt _ (by decide)⟩ :: out)
  | [a, b, c] =>
    let val := a * 262144 + b * 4096 + c * 64
    some [⟨val / 65536 % 256, Nat.mod_lt _ (by decide)⟩,
      ⟨val / 256 % 256, Nat.mod_lt _ (by decide)⟩]
  | [a, b] =>
    let val := a * 262144 + b * 4096
    some [⟨val / 65536 % 256, Nat.mod_lt _ (by decide)⟩]
  | [_] => none
  | [] => some []

/-- Error type `base64.CorruptInputError`. -/
def CorruptInputError (offset : Nat) : GoError :=
  .errorsNew ("illegal base64 data at input byte " ++ toString offset)

/-- Library function `base64.RawStdEncoding.DecodeString`; the bytes decoded before an error
are dropped, as `decodeHash` drops them. -/
def RawStdEncoding.DecodeString (s : List Byte) : Except GoError (List Byte) :=
  match RawStdEncoding.sextets 0 s with
  | .error offset => .error (CorruptInputError offset)
  | .ok values =>
    match RawStdEncoding.assemble values with
    | none => .error (CorruptInputError (s.length - 1))
    | some out => .ok out

/-- Library function `subtle.ConstantTimeCompare`: 1 when the two slices have the same
length and the same bytes, else 0. -/
def ConstantTimeCompare (x y : List Byte) : Nat :=
  if x.length ≠ y.length then 0 else if x = y then 1 else 0

/-- Library function `argon2.IDKey(password, salt, time, memory, threads, keyLen)`, left
open: any deterministic function of its six arguments that returns bytes or panics. -/
structure Argon2 where
  IDKey : List Byte → List Byte → Nat → Nat → Nat → Nat → Completion (List Byte)

/-- Type `ArgonParams`. -/
structure ArgonParams where
  Memory : Nat
  Iterations : Nat
  Parallelism : Nat
  SaltLength : Nat
  KeyLength : Nat
  deriving DecidableEq, Repr

/-- Constant `ArgonTime`. -/
def ArgonTime : Nat := 1

/-- Constant `ArgonMemory`. -/
def ArgonMemory : Nat := 64 * 1024

/-- Constant `ArgonThreads`. -/
def ArgonThreads : Nat := 4

/-- Constant `ArgonKeyLen`. -/
def ArgonKeyLen : Nat := 32

/-- Constant `ArgonSaltLen`. -/
def ArgonSaltLen : Nat := 16

/-- Function `DefaultArgonParams`. -/
def DefaultArgonParams : ArgonParams :=
  { Memory := ArgonMemory, Iterations := ArgonTime, Parallelism := ArgonThreads,
    SaltLength := ArgonSaltLen, KeyLength := ArgonKeyLen }

/-- Function `GenerateRandomBytes`; `rand` is `crypto/rand.Read` on a buffer of the given
length: the bytes it fills in, or its error. -/
def GenerateRandomBytes (rand : Nat → Except GoError (List Byte)) (length : Nat) :
    Except GoError (List Byte) :=
  match rand length with
  | .error err => .error err
  | .ok filled => .ok filled

/-- Function `HashPassword`.  The `%d` of `fmt.Sprintf` writes a number in decimal, the `%s`
the string as it is. -/
def HashPassword (kdf : Argon2) (rand : Nat → Except GoError (List Byte))
    (password : List Byte) : Completion (Except GoError (List Byte)) :=
  let params := DefaultArgonParams
  match GenerateRandomBytes rand params.SaltLength with
  | .error err => .returns (.error err)
  | .ok salt =>
    match kdf.IDKey password salt params.Iterations params.Memory params.Parallelism
        params.KeyLength with
    | .panics reason => .panics reason
    | .returns hash =>
      let b64Salt := RawStdEncoding.EncodeToString salt
      let b64Hash := RawStdEncoding.EncodeToString hash
      .returns (.ok (bytes "$argon2id$v=19$m=" ++ bytes (toString params.Memory) ++
        bytes ",t=" ++ bytes (toString params.Iterations) ++
        bytes ",p=" ++ bytes (toString params.Parallelism) ++
        bytes "$" ++ b64Salt ++ bytes "$" ++ b64Hash))

/-- The loop of `decodeHash` over the comma-separated parameters: each must split on `=`
into two pieces; the keys `m`, `t` and `p` store the scanned value (0 when the scan fails),
any other key is passed over. -/
def decodeHash.parameters : List (List Byte) → ArgonParams → Except GoError ArgonParams
  | [], params => .ok params
  | part :: rest, params =>
    let param := stringsSplit part (ascii '=')
    if param.length ≠ 2 then .error (.errorsNew "invalid parameter format")
    else
      let val : Int := (fmtSscanfD (param.getD 1 [])).getD 0
      if param.getD 0 [] = bytes "m" then
        decodeHash.parameters rest { params with Memory := uint32 val }
      else if param.getD 0 [] = bytes "t" then
        decodeHash.parameters rest { params with Iterations := uint32 val }
      else if param.getD 0 [] = bytes "p" then
        decodeHash.parameters rest { params with Parallelism := uint8 val }
      else decodeHash.parameters rest params

/-- Function `decodeHash`.  The third field, the version, is read by nothing. -/
def decodeHash (encodedHash : List Byte) :
    Except GoError (ArgonParams × List Byte × List Byte) :=
  let parts := stringsSplit encodedHash (ascii '$')
  if parts.length ≠ 6 then .error (.errorsNew "invalid hash format")
  else if parts.getD 1 [] ≠ bytes "argon2id" then .error (.errorsNew "unsupported algorithm")
  else
    match decodeHash.parameters (stringsSplit (parts.getD 3 []) (ascii ','))
        { Memory := 0, Iterations := 0, Parallelism := 0, SaltLength := 0, KeyLength := 0 } with
    | .error err => .error err
    | .ok params =>
      match RawStdEncoding.DecodeString (parts.getD 4 []) with
      | .error err => .error err
      | .ok salt =>
        match RawStdEncoding.DecodeString (parts.getD 5 []) with
        | .error err => .error err
        | .ok hash =>
          .ok ({ params with SaltLength := salt.length % 4294967296,
                             KeyLength := hash.length % 4294967296 }, salt, hash)

/-- Function `VerifyPassword`; the Go result pair `(bool, error)`. -/
def VerifyPassword (kdf : Argon2) (password encodedHash : List Byte) :
    Completion (Bool × Option GoError) :=
  match decodeHash encodedHash with
  | .error err => .returns (false, some err)
  | .ok (params, salt, hash) =>
    match kdf.IDKey password salt params.Iterations params.Memory params.Parallelism
        params.KeyLength with
    | .panics reason => .panics reason
    | .returns otherHash => .returns (ConstantTimeCompare hash otherHash == 1, none)

/-! ## Vocabulary of the statements -/

/-- The row that the lookup of `AuthenticateProfile` reads for a request when the driver
reports no failure: by username when one is supplied, otherwise by email. -/
def lookupProfile (s : Store) (req : LoginRequest) : Option PlatformProfile :=
  if req.Username ≠ "" then s.platform_profiles.find? (fun r => r.Username == req.Username)
  else if req.Email ≠ "" then s.platform_profiles.find? (fun r => r.Email == req.Email)
  else none

/-- Every repository call of an `AuthenticateProfile` call runs without a driver failure. -/
def AuthWorld.succeeding (w : AuthWorld) : Prop :=
  w.lookup.failure = none ∧ w.increment.failure = none ∧ w.suspend.failure = none ∧
  w.reset.failure = none ∧ w.record.failure = none ∧ w.activate.failure = none

instance (w : AuthWorld) : Decidable w.succeeding := by
  unfold AuthWorld.succeeding; infer_instance

/-- Every repository call of a `ConfirmPasswordReset` call runs without a driver failure. -/
def ConfirmWorld.succeeding (w : ConfirmWorld) : Prop :=
  w.fetch = none ∧ w.update.failure = none ∧ w.markUsed = none ∧ w.deleteOthers = none

instance (w : ConfirmWorld) : Decidable w.succeeding := by
  unfold ConfirmWorld.succeeding; infer_instance

/-- A stand-in for the bcrypt library at concrete inputs: the hash of a password is the
password behind a fixed marker, and comparison recomputes it. -/
def demoBcrypt : Bcrypt where
  GenerateFromPassword := fun password _ _ => some ("$2a$" ++ password)
  CompareHashAndPassword := fun hash password => hash == "$2a$" ++ password

/-- A world in which every repository call of `AuthenticateProfile` succeeds at time `t`. -/
def demoAuthWorld (t : Time) : AuthWorld :=
  { lookup := ⟨t, none⟩, increment := ⟨t, none⟩, suspend := ⟨t, none⟩,
    reset := ⟨t, none⟩, record := ⟨t, none⟩, activate := ⟨t, none⟩ }

/-- A sample profile: user `alice`, password `secret`, with the given status and counter. -/
def demoProfile (status : Status) (failed : Int) : PlatformProfile :=
  { ID := 1, Username := "alice", Email := "alice@example.org", PasswordHash := "$2a$secret",
    Status := status, VerifiedAt := none, LastLoginAt := none, FailedLoginAttempts := failed,
    CreatedAt := 100, UpdatedByUserAt := 100, UpdatedBySystemAt := 100 }

/-- A store holding the given profiles and reset tokens and nothing else. -/
def demoStore (profiles : List PlatformProfile) (tokens : List PasswordResetToken) : Store :=
  { platform_profiles := profiles, deleted_profiles := [], password_reset_tokens := tokens,
    profile_preferences := [], profile_roles := [] }

/-- A store holding `alice` (activated, counter 0) and one reset token of hers, the string
`tok`, issued at time 900 and expiring at time 1000. -/
def demoTokenStore : Store :=
  demoStore [demoProfile .StatusActivated 0] [⟨1, "tok", 1000, false, 900⟩]

/-- A world for `ConfirmPasswordReset` at time `t` in which the fetch, the password update
and the used-marking succeed and the final clean-up has the given driver outcome. -/
def demoConfirmWorld (t : Time) (deleteOthers : Option String) : ConfirmWorld :=
  { fetch := none, entropy := 0, update := ⟨t, none⟩, markUsed := none,
    deleteOthers := deleteOthers }

/-- A world for the repository's `SoftDeleteProfile` in which every driver call succeeds and
`NOW()` reads `t`. -/
def demoSoftDeleteCall (t : Time) : SoftDeleteCall :=
  { begin := none, archive := ⟨t, none⟩, delete := none, commit := none }

/-- A world for `RestoreSoftDeletedProfile` in which every driver call succeeds. -/
def demoRestoreCall : RestoreCall :=
  { begin := none, restore := none, delete := none, commit := none }

/-- A store whose archive holds `alice` (deleted at time 150) next to the given active rows. -/
def demoArchiveStore (active : List PlatformProfile) : Store :=
  { platform_profiles := active,
    deleted_profiles := [{ profile := demoProfile .StatusActivated 0, deleted_at := 150 }],
    password_reset_tokens := [], profile_preferences := [], profile_roles := [] }

/-- Driver outcomes for the repository calls of `RegisterProfile`: all succeed at time `t`,
apart from the given outcomes of the preference write and of the role assignment. -/
def demoRegisterEngine (t : Time) (prefs assign : Option String) : RegisterEngine :=
  { usernameExists := none, emailExists := none, create := none,
    savePreferences := { get := none, write := ⟨t, prefs⟩, newID := 70 },
    assignRole := ⟨t, assign⟩ }

/-- A world for `RegisterProfile` at time 300 drawing the ids 7 and 8, with the given answer
of the role service. -/
def demoRegisterWorld (defaultRole : Except GoError UUID) : RegisterWorld :=
  { entropy := 0, now := 300, profileID := 7, preferenceID := 8, defaultRole := defaultRole }

/-- A registration request of user `bob`. -/
def demoRegistration : CreateProfileRequest :=
  { Username := "bob", Email := "bob@example.org", Password := "hunter22" }

/-- A repository that differs from the PostgreSQL one in `CreateProfile` alone: the row is
added to the active table and the call returns nil. -/
def demoRepository (e : RegisterEngine) : Repository Store :=
  { NewPostgresProfileRepository e with
    CreateProfile := fun s profile =>
      (.ok profile, { s with platform_profiles := s.platform_profiles ++ [profile] }) }

/-- Every driver call of a repository `SoftDeleteProfile` call runs without a failure. -/
def SoftDeleteCall.succeeding (c : SoftDeleteCall) : Prop :=
  c.begin = none ∧ c.archive.failure = none ∧ c.delete = none ∧ c.commit = none

instance (c : SoftDeleteCall) : Decidable c.succeeding := by
  unfold SoftDeleteCall.succeeding; infer_instance

/-- Every driver call of a `RestoreSoftDeletedProfile` call runs without a failure. -/
def RestoreCall.succeeding (c : RestoreCall) : Prop :=
  c.begin = none ∧ c.restore = none ∧ c.delete = none ∧ c.commit = none

instance (c : RestoreCall) : Decidable c.succeeding := by
  unfold RestoreCall.succeeding; infer_instance

/-- A world for the service's `UpdateProfile` at time `t` in which every driver call
succeeds. -/
def demoUpdateWorld (t : Time) : UpdateWorld :=
  { fetch := none, checkUsername := none, checkEmail := none, now := t, update := none }

/-- A world for `ChangePassword` at time `t` in which every driver call succeeds. -/
def demoChangePasswordWorld (t : Time) : ChangePasswordWorld :=
  { fetch := none, entropy := 0, update := ⟨t, none⟩ }

/-- The store with every table empty. -/
def emptyStore : Store :=
  { platform_profiles := [], deleted_profiles := [], password_reset_tokens := [],
    profile_preferences := [], profile_roles := [] }

/-- No two rows of the active table share a username, and no two share an email. -/
def UniqueNames (s : Store) : Prop :=
  (s.platform_profiles.map (fun r => r.Username)).Nodup ∧
  (s.platform_profiles.map (fun r => r.Email)).Nodup

instance (s : Store) : Decidable (UniqueNames s) := by
  unfold UniqueNames; infer_instance

/-- The active table of `s'` carries, row by row, the usernames and emails of that of `s`. -/
def SameNames (s s' : Store) : Prop :=
  s'.platform_profiles.map (fun r => r.Username) = s.platform_profiles.map (fun r => r.Username) ∧
  s'.platform_profiles.map (fun r => r.Email) = s.platform_profiles.map (fun r => r.Email)

/-- The store states reachable from the store `start` by calls of the lifecycle service over
the PostgreSQL repository, with any arguments and any answers from outside: registration,
profile update, authentication, the four status transitions, password change, password
reset request and confirmation, soft delete, restore and hard delete. -/
inductive ReachableFrom (start : Store) : Store → Prop where
  | start : ReachableFrom start start
  | register {s : Store} (e : RegisterEngine) (bc : Bcrypt) (w : RegisterWorld)
      (req : CreateProfileRequest) :
      ReachableFrom start s → ReachableFrom start (RegisterProfile (NewPostgresProfileRepository e) bc w s req).2
  | update {s : Store} (w : UpdateWorld) (id : UUID) (req : UpdateProfileRequest) :
      ReachableFrom start s → ReachableFrom start (service.UpdateProfile w s id req).2
  | authenticate {s : Store} (bc : Bcrypt) (w : AuthWorld) (req : LoginRequest) :
      ReachableFrom start s → ReachableFrom start (AuthenticateProfile bc w s req).2
  | verify {s : Store} (verify activate : EngineCall) (id : UUID) :
      ReachableFrom start s → ReachableFrom start (service.VerifyProfile s verify activate id).2
  | activate {s : Store} (c : EngineCall) (id : UUID) :
      ReachableFrom start s → ReachableFrom start (ActivateProfile s c id).2
  | suspend {s : Store} (c : EngineCall) (id : UUID) :
      ReachableFrom start s → ReachableFrom start (SuspendProfile s c id).2
  | deactivate {s : Store} (c : EngineCall) (id : UUID) :
      ReachableFrom start s → ReachableFrom start (DeactivateProfile s c id).2
  | changePassword {s : Store} (bc : Bcrypt) (w : ChangePasswordWorld) (id : UUID)
      (req : PasswordChangeRequest) :
      ReachableFrom start s → ReachableFrom start (ChangePassword bc w s id req).2
  | requestReset {s : Store} (w : RequestWorld) (req : PasswordResetRequest) :
      ReachableFrom start s → ReachableFrom start (RequestPasswordReset w s req).2.1
  | confirmReset {s : Store} (bc : Bcrypt) (w : ConfirmWorld)
      (req : PasswordResetConfirmation) :
      ReachableFrom start s → ReachableFrom start (ConfirmPasswordReset bc w s req).2
  | softDelete {s : Store} (c : SoftDeleteCall) (id : UUID) :
      ReachableFrom start s → ReachableFrom start (service.SoftDeleteProfile s c id).2
  | restore {s : Store} (c : RestoreCall) (id : UUID) :
      ReachableFrom start s → ReachableFrom start (RestoreProfile s c id).2
  | hardDelete {s : Store} (engine : Option String) (id : UUID) :
      ReachableFrom start s → ReachableFrom start (service.HardDeleteProfile s engine id).2

/-- A stand-in for argon2id that returns `keyLen` bytes: the password, then the salt, then
zeros. -/
def demoArgon2 : Argon2 where
  IDKey := fun password salt _ _ _ keyLen =>
    .returns ((password ++ salt ++ List.replicate keyLen 0).take keyLen)

/-- The salt of sixteen bytes 0, 1, .., 15. -/
def demoSalt : List Byte := [0, 1, 2, 3, 4, 5, 6, 7, 8, 9, 10, 11, 12, 13, 14, 15]

/-- A stand-in for the bcrypt library that, as `bcrypt.GenerateFromPassword` does, refuses
a password longer than 72 bytes (`bcrypt.ErrPasswordTooLong`), and is `demoBcrypt` on any
other. -/
def demoBcrypt72 : Bcrypt where
  GenerateFromPassword := fun password _ _ =>
    if password.utf8ByteSize > 72 then none else some ("$2a$" ++ password)
  CompareHashAndPassword := fun hash password => hash == "$2a$" ++ password

/-- A password of 73 bytes: 73 times the letter `x`. -/
def demoLongPassword : String := String.mk (List.replicate 73 'x')

/-- A sample activated profile with the given id and name; its email is the name at
`example.org`. -/
def demoUser (id : UUID) (name : String) : PlatformProfile :=
  { ID := id, Username := name, Email := name ++ "@example.org",
    PasswordHash := "$2a$" ++ name, Status := .StatusActivated, VerifiedAt := none,
    LastLoginAt := none, FailedLoginAttempts := 0, CreatedAt := 100, UpdatedByUserAt := 100,
    UpdatedBySystemAt := 100 }

/-- A store whose active table holds `alice` (id 1), `bob` (id 2) and `carol` (id 3). -/
def demoThreeUsers : Store :=
  demoStore [demoUser 1 "alice", demoUser 2 "bob", demoUser 3 "carol"] []

/-- A world for the service's `UpdateProfile` at time `t` whose username availability lookup
fails in the driver, every other call succeeding. -/
def demoUpdateWorldLookupDown (t : Time) : UpdateWorld :=
  { fetch := none, checkUsername := some "connection lost", checkEmail := none, now := t,
    update := none }

/-- The store after `bob` asks for the username `alice` on `demoThreeUsers` while the
availability lookup is down. -/
def demoAfterTakenRename : Store :=
  (service.UpdateProfile (demoUpdateWorldLookupDown 300) demoThreeUsers 2
    ⟨some "alice", none⟩).2

/-- The store after three calls on `demoThreeUsers`: `alice` is soft-deleted, `bob` takes
the username `alice`, and `alice` is restored. -/
def demoAfterDeleteRenameRestore : Store :=
  (RestoreProfile
    (service.UpdateProfile (demoUpdateWorld 300)
      (service.SoftDeleteProfile demoThreeUsers (demoSoftDeleteCall 200) 1).2 2
      ⟨some "alice", none⟩).2
    demoRestoreCall 1).2

end ING

/-! ## Facts about the statement semantics -/

namespace ING

theorem find?_updateWhere {α : Type} (q cond : α → Bool) (set : α → α) (rows : List α)
    (hq : ∀ r, q (set r) = q r) :
    (updateWhere cond set rows).find? q
      = (rows.find? q).map (fun r => if cond r then set r else r) := by
  unfold updateWhere
  rw [List.find?_map]
  congr 2
  funext r
  by_cases h : cond r = true <;> simp [h, hq]

theorem rowsAffected_ne_zero {α : Type} (cond : α → Bool) (rows : List α) (r : α)
    (hr : r ∈ rows) (hc : cond r = true) : rowsAffected cond rows ≠ 0 := by
  unfold rowsAffected
  have h : 0 < rows.countP cond := List.countP_pos_iff.mpr ⟨r, hr, hc⟩
  omega

theorem rowsAffected_updateWhere {α : Type} (q cond : α → Bool) (set : α → α) (rows : List α)
    (hq : ∀ r, q (set r) = q r) :
    rowsAffected q (updateWhere cond set rows) = rowsAffected q rows := by
  unfold rowsAffected updateWhere
  rw [List.countP_map]
  congr 1
  funext r
  by_cases h : cond r = true <;> simp [h, hq]

theorem updateWhere_updateWhere {α : Type} (cond : α → Bool) (f g : α → α) (rows : List α)
    (hf : ∀ r, cond (f r) = cond r) :
    updateWhere cond g (updateWhere cond f rows) = updateWhere cond (fun r => g (f r)) rows := by
  unfold updateWhere
  rw [List.map_map]
  apply List.map_congr_left
  intro r _
  by_cases h : cond r = true <;> simp [h, hf]

theorem lookupProfile_mem {s : Store} {req : LoginRequest} {p : PlatformProfile}
    (h : lookupProfile s req = some p) : p ∈ s.platform_profiles := by
  unfold lookupProfile at h
  split_ifs at h
  · exact List.mem_of_find?_eq_some h
  · exact List.mem_of_find?_eq_some h

theorem lookupProfile_updateWhere (s : Store) (req : LoginRequest)
    (cond : PlatformProfile → Bool) (set : PlatformProfile → PlatformProfile)
    (hu : ∀ r, (set r).Username = r.Username) (he : ∀ r, (set r).Email = r.Email) :
    lookupProfile { s with platform_profiles := updateWhere cond set s.platform_profiles } req
      = (lookupProfile s req).map (fun r => if cond r then set r else r) := by
  unfold lookupProfile
  split_ifs
  · exact find?_updateWhere _ _ _ _ (fun r => by simp [hu])
  · exact find?_updateWhere _ _ _ _ (fun r => by simp [he])
  · rfl


/-- The lookup step of `AuthenticateProfile` when the driver reports no failure. -/
theorem found_of_lookupProfile {s : Store} {req : LoginRequest} {p : PlatformProfile}
    (engine : Option String) (he : engine = none) (h : lookupProfile s req = some p) :
    (if req.Username ≠ "" then some (GetProfileByUsername s engine req.Username)
      else if req.Email ≠ "" then some (GetProfileByEmail s engine req.Email)
      else none) = some (.ok p) := by
  subst he
  unfold lookupProfile at h
  unfold GetProfileByUsername GetProfileByEmail
  split_ifs at h ⊢ <;> simp [h]

/-- One wrong-password attempt against a profile that is neither deactivated nor suspended:
the call reports `Unauthorized`, the stored counter grows by one, the hash is untouched, and
the stored status becomes `suspended` exactly when the counter read plus one reaches 5. -/
theorem AuthenticateProfile_wrong_password (bc : Bcrypt) (w : AuthWorld) (s : Store)
    (req : LoginRequest) (p : PlatformProfile)
    (hfound : lookupProfile s req = some p)
    (hd : p.Status ≠ .StatusDeactivated) (hs : p.Status ≠ .StatusSuspended)
    (hw : w.succeeding)
    (hpw : bc.CompareHashAndPassword p.PasswordHash req.Password = false) :
    (∃ e, (AuthenticateProfile bc w s req).1 = .error e ∧
        ErrorTypeOf e = .UnauthorizedError) ∧
    ∃ q, lookupProfile (AuthenticateProfile bc w s req).2 req = some q ∧
      q.FailedLoginAttempts = p.FailedLoginAttempts + 1 ∧
      q.PasswordHash = p.PasswordHash ∧
      q.Status = (if goInt (p.FailedLoginAttempts + 1) ≥ 5 then .StatusSuspended
                  else p.Status) := by
  obtain ⟨hl, hi, hsu, -, -, -⟩ := hw
  have hmem := lookupProfile_mem hfound
  have hrows : rowsAffected (fun r : PlatformProfile => r.ID == p.ID) s.platform_profiles ≠ 0 :=
    rowsAffected_ne_zero _ _ p hmem (by simp)
  unfold AuthenticateProfile
  rw [found_of_lookupProfile _ hl hfound]
  simp only [hd, hs, or_self, if_false, hpw, if_true]
  unfold IncrementFailedLoginAttempts
  simp only [hi, hrows, if_false]
  by_cases h5 : goInt (p.FailedLoginAttempts + 1) ≥ 5
  · simp only [h5, if_true]
    unfold UpdateStatus
    have hrows2 : rowsAffected (fun r : PlatformProfile => r.ID == p.ID)
        (updateWhere (fun r => r.ID == p.ID)
          (fun r => { r with FailedLoginAttempts := r.FailedLoginAttempts + 1,
                             UpdatedBySystemAt := w.increment.now })
          s.platform_profiles) ≠ 0 := by
      rw [rowsAffected_updateWhere]
      · exact hrows
      · intro r; rfl
    simp only [hsu, hrows2, if_false]
    refine ⟨⟨_, rfl, rfl⟩, ?_⟩
    rw [updateWhere_updateWhere, lookupProfile_updateWhere, hfound]
    · simp
    all_goals intro r; rfl
  · simp only [h5, if_false]
    refine ⟨⟨_, rfl, rfl⟩, ?_⟩
    rw [lookupProfile_updateWhere, hfound]
    · simp
    all_goals intro r; rfl


/-! ## C1 - lockout after five wrong passwords -/

/-- C1. Lockout: a profile found by the login lookup with status `activated` and failed-login
counter 0 receives five consecutive `AuthenticateProfile` calls, each with a password the
stored hash rejects and each with all store calls succeeding.  Every call returns an error of
kind `Unauthorized`; the stored status is still `activated` after each of the first four
calls; after the fifth the stored status is `suspended`. -/
theorem C1_lockout_after_five_wrong_passwords (bc : Bcrypt) (w : Fin 5 → AuthWorld)
    (pw : Fin 5 → String) (s0 : Store) (req : LoginRequest) (p : PlatformProfile)
    (hfound : lookupProfile s0 req = some p)
    (hstatus : p.Status = .StatusActivated)
    (hcount : p.FailedLoginAttempts = 0)
    (hw : ∀ i, (w i).succeeding)
    (hpw : ∀ i, bc.CompareHashAndPassword p.PasswordHash (pw i) = false) :
    let r1 := AuthenticateProfile bc (w 0) s0 { req with Password := pw 0 }
    let r2 := AuthenticateProfile bc (w 1) r1.2 { req with Password := pw 1 }
    let r3 := AuthenticateProfile bc (w 2) r2.2 { req with Password := pw 2 }
    let r4 := AuthenticateProfile bc (w 3) r3.2 { req with Password := pw 3 }
    let r5 := AuthenticateProfile bc (w 4) r4.2 { req with Password := pw 4 }
    (∀ r ∈ [r1.1, r2.1, r3.1, r4.1, r5.1],
        ∃ e, r = .error e ∧ ErrorTypeOf e = .UnauthorizedError) ∧
    (∀ t ∈ [r1.2, r2.2, r3.2, r4.2],
        (lookupProfile t req).map (fun q => q.Status) = some .StatusActivated) ∧
    (lookupProfile r5.2 req).map (fun q => q.Status) = some .StatusSuspended := by
  intro r1 r2 r3 r4 r5
  have key : ∀ (i : Fin 5) (s : Store) (q : PlatformProfile),
      lookupProfile s req = some q → q.Status = .StatusActivated →
      q.PasswordHash = p.PasswordHash →
      (∃ e, (AuthenticateProfile bc (w i) s { req with Password := pw i }).1 = .error e ∧
          ErrorTypeOf e = .UnauthorizedError) ∧
      ∃ q', lookupProfile (AuthenticateProfile bc (w i) s { req with Password := pw i }).2 req
            = some q' ∧
        q'.FailedLoginAttempts = q.FailedLoginAttempts + 1 ∧
        q'.PasswordHash = p.PasswordHash ∧
        q'.Status = (if goInt (q.FailedLoginAttempts + 1) ≥ 5 then .StatusSuspended
                     else .StatusActivated) := by
    intro i s q hq hqs hqh
    have h := AuthenticateProfile_wrong_password bc (w i) s { req with Password := pw i } q
      hq (by rw [hqs]; decide) (by rw [hqs]; decide) (hw i) (by rw [hqh]; exact hpw i)
    rw [hqh, hqs] at h
    exact h
  obtain ⟨e1, q1, hq1, hc1, hh1, hs1⟩ := key 0 s0 p hfound hstatus rfl
  rw [hcount] at hc1 hs1
  have hs1' : q1.Status = .StatusActivated := by rw [hs1]; decide
  obtain ⟨e2, q2, hq2, hc2, hh2, hs2⟩ := key 1 r1.2 q1 hq1 hs1' hh1
  rw [hc1] at hc2 hs2
  have hs2' : q2.Status = .StatusActivated := by rw [hs2]; decide
  obtain ⟨e3, q3, hq3, hc3, hh3, hs3⟩ := key 2 r2.2 q2 hq2 hs2' hh2
  rw [hc2] at hc3 hs3
  have hs3' : q3.Status = .StatusActivated := by rw [hs3]; decide
  obtain ⟨e4, q4, hq4, hc4, hh4, hs4⟩ := key 3 r3.2 q3 hq3 hs3' hh3
  rw [hc3] at hc4 hs4
  have hs4' : q4.Status = .StatusActivated := by rw [hs4]; decide
  obtain ⟨e5, q5, hq5, hc5, hh5, hs5⟩ := key 4 r4.2 q4 hq4 hs4' hh4
  rw [hc4] at hc5 hs5
  have hs5' : q5.Status = .StatusSuspended := by rw [hs5]; decide
  refine ⟨?_, ?_, ?_⟩
  · intro r hr
    simp only [List.mem_cons, List.mem_singleton, List.not_mem_nil, or_false] at hr
    rcases hr with h | h | h | h | h <;> subst h
    · exact e1
    · exact e2
    · exact e3
    · exact e4
    · exact e5
  · intro t ht
    simp only [List.mem_cons, List.mem_singleton, List.not_mem_nil, or_false] at ht
    rcases ht with h | h | h | h <;> subst h
    · show Option.map _ (lookupProfile r1.2 req) = _
      rw [hq1]; simp [hs1']
    · show Option.map _ (lookupProfile r2.2 req) = _
      rw [hq2]; simp [hs2']
    · show Option.map _ (lookupProfile r3.2 req) = _
      rw [hq3]; simp [hs3']
    · show Option.map _ (lookupProfile r4.2 req) = _
      rw [hq4]; simp [hs4']
  · show Option.map _ (lookupProfile r5.2 req) = _
    rw [hq5]; simp [hs5']


/-- C1 at a concrete input: user `alice` (activated, counter 0) and five attempts with the
password `bad`. -/
theorem C1_lockout_after_five_wrong_passwords_witness :
    let bc := demoBcrypt
    let w : Fin 5 → AuthWorld := fun _ => demoAuthWorld 200
    let s0 := demoStore [demoProfile .StatusActivated 0] []
    let req : LoginRequest := ⟨"alice", "", "bad"⟩
    let r1 := AuthenticateProfile bc (w 0) s0 { req with Password := "bad" }
    let r2 := AuthenticateProfile bc (w 1) r1.2 { req with Password := "bad" }
    let r3 := AuthenticateProfile bc (w 2) r2.2 { req with Password := "bad" }
    let r4 := AuthenticateProfile bc (w 3) r3.2 { req with Password := "bad" }
    let r5 := AuthenticateProfile bc (w 4) r4.2 { req with Password := "bad" }
    (∀ r ∈ [r1.1, r2.1, r3.1, r4.1, r5.1],
        ∃ e, r = .error e ∧ ErrorTypeOf e = .UnauthorizedError) ∧
    (∀ t ∈ [r1.2, r2.2, r3.2, r4.2],
        (lookupProfile t req).map (fun q => q.Status) = some .StatusActivated) ∧
    (lookupProfile r5.2 req).map (fun q => q.Status) = some .StatusSuspended :=
  C1_lockout_after_five_wrong_passwords demoBcrypt (fun _ => demoAuthWorld 200)
    (fun _ => "bad") (demoStore [demoProfile .StatusActivated 0] []) ⟨"alice", "", "bad"⟩
    (demoProfile .StatusActivated 0) (by decide) rfl rfl
    (fun _ => (by decide : (demoAuthWorld 200).succeeding))
    (fun _ => (by decide : demoBcrypt.CompareHashAndPassword
      (demoProfile .StatusActivated 0).PasswordHash "bad" = false))

/-! ## C2 - suspended and deactivated accounts are rejected without side effects -/

/-- C2. For a profile found by the login lookup (the lookup itself running without a driver
failure) whose stored status is `suspended` or `deactivated`, and for every supplied
password, `AuthenticateProfile` returns an error of kind `Unauthorized` and the store after
the call equals the store before it: no status change, no counter change, no login
timestamp. -/
theorem C2_inactive_account_rejected_store_unchanged (bc : Bcrypt) (w : AuthWorld)
    (s : Store) (req : LoginRequest) (p : PlatformProfile)
    (hfound : lookupProfile s req = some p)
    (hstatus : p.Status = .StatusSuspended ∨ p.Status = .StatusDeactivated)
    (hlookup : w.lookup.failure = none) :
    (∃ e, (AuthenticateProfile bc w s req).1 = .error e ∧
        ErrorTypeOf e = .UnauthorizedError) ∧
    (AuthenticateProfile bc w s req).2 = s := by
  unfold AuthenticateProfile
  rw [found_of_lookupProfile _ hlookup hfound]
  have h : p.Status = .StatusDeactivated ∨ p.Status = .StatusSuspended := hstatus.symm
  simp only [h, if_true]
  exact ⟨⟨_, rfl, rfl⟩, trivial⟩

/-- C2 at a concrete input: the suspended user `alice` supplies her correct password. -/
theorem C2_inactive_account_rejected_store_unchanged_witness :
    (∃ e, (AuthenticateProfile demoBcrypt (demoAuthWorld 200)
        (demoStore [demoProfile .StatusSuspended 5] []) ⟨"alice", "", "secret"⟩).1 = .error e ∧
        ErrorTypeOf e = .UnauthorizedError) ∧
    (AuthenticateProfile demoBcrypt (demoAuthWorld 200)
        (demoStore [demoProfile .StatusSuspended 5] []) ⟨"alice", "", "secret"⟩).2
      = demoStore [demoProfile .StatusSuspended 5] [] :=
  C2_inactive_account_rejected_store_unchanged demoBcrypt (demoAuthWorld 200)
    (demoStore [demoProfile .StatusSuspended 5] []) ⟨"alice", "", "secret"⟩
    (demoProfile .StatusSuspended 5) (by decide) (Or.inl rfl) rfl


/-! ## C3 - a login naming nobody -/

/-- The store's "profile not found" sentinel is a plain `errors.New` value: its `Unwrap`
chain holds no `*DomainError`, so `IsNotFoundErrorDomain` answers `false` for it. -/
theorem IsNotFoundErrorDomain_ErrProfileNotFound :
    IsNotFoundErrorDomain ErrProfileNotFound = false := rfl

/-- Whatever the store holds, a login whose lookup finds no row (driver reporting no failure)
is answered with a `DatabaseError` wrapping the store's sentinel. -/
theorem AuthenticateProfile_unknown_login (bc : Bcrypt) (w : AuthWorld) (s : Store)
    (req : LoginRequest) (hkey : req.Username ≠ "" ∨ req.Email ≠ "")
    (hnone : lookupProfile s req = none) (hlookup : w.lookup.failure = none) :
    AuthenticateProfile bc w s req
      = (.error (NewDatabaseError "error fetching profile" ErrProfileNotFound), s) := by
  unfold AuthenticateProfile
  unfold lookupProfile at hnone
  unfold GetProfileByUsername GetProfileByEmail
  rw [hlookup]
  by_cases hu : req.Username = ""
  · have he : req.Email ≠ "" := by
      rcases hkey with h | h
      · exact absurd hu h
      · exact h
    simp only [hu, ne_eq, not_true_eq_false, if_false, he, not_false_eq_true, if_true] at hnone ⊢
    rw [hnone]
    rfl
  · simp only [ne_eq, hu, not_false_eq_true, if_true] at hnone ⊢
    rw [hnone]
    rfl

/-- C3 (the code at the failing input). With only `alice` stored, a login as `ghost` is
answered with an error of kind `DatabaseError` whose cause is the store's "profile not found"
sentinel, while a login as `alice` with a wrong password is answered with `Unauthorized`:
the two kinds differ. -/
theorem C3_unknown_username_reports_database_error :
    (AuthenticateProfile demoBcrypt (demoAuthWorld 200)
        (demoStore [demoProfile .StatusActivated 0] []) ⟨"ghost", "", "secret"⟩).1
      = .error (NewDatabaseError "error fetching profile" ErrProfileNotFound) ∧
    ErrorTypeOf (NewDatabaseError "error fetching profile" ErrProfileNotFound)
      = .DatabaseError ∧
    (AuthenticateProfile demoBcrypt (demoAuthWorld 200)
        (demoStore [demoProfile .StatusActivated 0] []) ⟨"alice", "", "bad"⟩).1
      = .error (NewUnauthorizedError "invalid credentials") ∧
    ErrorTypeOf (NewUnauthorizedError "invalid credentials") = .UnauthorizedError :=
  ⟨rfl, rfl, rfl, rfl⟩


/-! ## C4, C5 - a successful login -/

/-- An `UPDATE .. WHERE id = $1` on the active table keeps the number of rows with a given
id when the assignment leaves the id alone. -/
theorem rowsAffected_id_updateWhere (id : UUID) (cond : PlatformProfile → Bool)
    (set : PlatformProfile → PlatformProfile) (rows : List PlatformProfile)
    (hid : ∀ r, (set r).ID = r.ID) :
    rowsAffected (fun r : PlatformProfile => r.ID == id) (updateWhere cond set rows)
      = rowsAffected (fun r : PlatformProfile => r.ID == id) rows :=
  rowsAffected_updateWhere _ _ _ _ (fun r => by simp [hid])

/-- A successful login (correct password, all store calls succeeding) of a profile that is
neither deactivated nor suspended: the returned profile is the row read, with the hash
blanked and `pending` replaced by `activated`; in the store, the rows with the profile's id
get counter 0 and the login timestamp, and a `pending` profile gets status `activated`. -/
theorem AuthenticateProfile_correct_password (bc : Bcrypt) (w : AuthWorld) (s : Store)
    (req : LoginRequest) (p : PlatformProfile)
    (hfound : lookupProfile s req = some p)
    (hd : p.Status ≠ .StatusDeactivated) (hs : p.Status ≠ .StatusSuspended)
    (hw : w.succeeding)
    (hpw : bc.CompareHashAndPassword p.PasswordHash req.Password = true) :
    AuthenticateProfile bc w s req =
      (.ok { p with Status := (if p.Status = .StatusPending then .StatusActivated
                               else p.Status),
                    PasswordHash := "" },
       { s with
          platform_profiles := updateWhere (fun r => r.ID == p.ID)
            (fun r =>
              if p.Status = .StatusPending then
                { r with LastLoginAt := some w.record.now, FailedLoginAttempts := 0,
                         Status := .StatusActivated, UpdatedByUserAt := w.activate.now,
                         UpdatedBySystemAt := w.activate.now }
              else
                { r with LastLoginAt := some w.record.now, FailedLoginAttempts := 0,
                         UpdatedBySystemAt := w.record.now })
            s.platform_profiles }) := by
  obtain ⟨hl, -, -, hre, hrc, hac⟩ := hw
  have hmem := lookupProfile_mem hfound
  have hrows : rowsAffected (fun r : PlatformProfile => r.ID == p.ID) s.platform_profiles ≠ 0 :=
    rowsAffected_ne_zero _ _ p hmem (by simp)
  unfold AuthenticateProfile
  rw [found_of_lookupProfile _ hl hfound]
  simp only [hd, hs, or_self, if_false, hpw, Bool.true_eq_false]
  unfold ResetFailedLoginAttempts RecordLogin UpdateStatus
  by_cases hpos : p.FailedLoginAttempts > 0 <;> by_cases hpend : p.Status = .StatusPending <;>
    simp [hpos, hpend, hre, hrc, hac, hrows, rowsAffected_id_updateWhere,
      updateWhere_updateWhere]


/-- Reading by id after an `UPDATE .. WHERE id = $1` that leaves the id alone yields the
updated form of the row read before. -/
theorem find?_id_updateWhere (id : UUID) (set : PlatformProfile → PlatformProfile)
    (rows : List PlatformProfile) (hid : ∀ r, (set r).ID = r.ID) :
    (updateWhere (fun r => r.ID == id) set rows).find? (fun r => r.ID == id)
      = (rows.find? (fun r => r.ID == id)).map set := by
  rw [find?_updateWhere _ _ _ _ (fun r => by simp [hid])]
  cases h : rows.find? (fun r => r.ID == id) with
  | none => rfl
  | some r =>
    have hr := List.find?_some h
    simp only [Option.map_some', hr, if_true]

/-- A row with the wanted id is in the table, so a read by id finds one. -/
theorem find?_id_isSome (rows : List PlatformProfile) (p : PlatformProfile) (hp : p ∈ rows) :
    ∃ r, rows.find? (fun r => r.ID == p.ID) = some r := by
  have h : (rows.find? (fun r => r.ID == p.ID)).isSome = true :=
    List.find?_isSome.mpr ⟨p, hp, by simp⟩
  exact Option.isSome_iff_exists.mp h

/-- C4. For a profile found by the login lookup with stored status `pending`,
`AuthenticateProfile` with a password the stored hash accepts (all store calls succeeding)
returns the profile with no error and status `activated`, and a subsequent fetch from the
store, by id or by the login's own username/email lookup, shows status `activated`. -/
theorem C4_pending_login_returns_and_stores_activated (bc : Bcrypt) (w : AuthWorld)
    (s : Store) (req : LoginRequest) (p : PlatformProfile)
    (hfound : lookupProfile s req = some p)
    (hstatus : p.Status = .StatusPending)
    (hw : w.succeeding)
    (hpw : bc.CompareHashAndPassword p.PasswordHash req.Password = true) :
    (∃ q, (AuthenticateProfile bc w s req).1 = .ok q ∧ q.ID = p.ID ∧
        q.Status = .StatusActivated) ∧
    (∃ q, GetProfileByID (AuthenticateProfile bc w s req).2 none p.ID = .ok q ∧
        q.Status = .StatusActivated) ∧
    (lookupProfile (AuthenticateProfile bc w s req).2 req).map (fun q => q.Status)
      = some .StatusActivated := by
  rw [AuthenticateProfile_correct_password bc w s req p hfound (by rw [hstatus]; decide)
    (by rw [hstatus]; decide) hw hpw]
  simp only [hstatus, if_true]
  refine ⟨⟨_, rfl, rfl, rfl⟩, ?_, ?_⟩
  · obtain ⟨r, hr⟩ := find?_id_isSome s.platform_profiles p (lookupProfile_mem hfound)
    unfold GetProfileByID
    simp only []
    rw [find?_id_updateWhere _ _ _ (fun r => by rfl), hr]
    exact ⟨_, rfl, rfl⟩
  · rw [lookupProfile_updateWhere, hfound]
    · simp
    all_goals intro r; rfl

/-- C4 at a concrete input: the pending user `alice` logs in with her password. -/
theorem C4_pending_login_returns_and_stores_activated_witness :
    (∃ q, (AuthenticateProfile demoBcrypt (demoAuthWorld 200)
        (demoStore [demoProfile .StatusPending 0] []) ⟨"alice", "", "secret"⟩).1 = .ok q ∧
        q.ID = (demoProfile .StatusPending 0).ID ∧ q.Status = .StatusActivated) ∧
    (∃ q, GetProfileByID (AuthenticateProfile demoBcrypt (demoAuthWorld 200)
        (demoStore [demoProfile .StatusPending 0] []) ⟨"alice", "", "secret"⟩).2 none
          (demoProfile .StatusPending 0).ID = .ok q ∧ q.Status = .StatusActivated) ∧
    (lookupProfile (AuthenticateProfile demoBcrypt (demoAuthWorld 200)
        (demoStore [demoProfile .StatusPending 0] []) ⟨"alice", "", "secret"⟩).2
        ⟨"alice", "", "secret"⟩).map (fun q => q.Status) = some .StatusActivated :=
  C4_pending_login_returns_and_stores_activated demoBcrypt (demoAuthWorld 200)
    (demoStore [demoProfile .StatusPending 0] []) ⟨"alice", "", "secret"⟩
    (demoProfile .StatusPending 0) (by decide) rfl (by decide) (by decide)

/-- C5. For a profile found by the login lookup with status `pending` or `activated` and a
failed-login counter `n` with `1 ≤ n`, a successful `AuthenticateProfile` (password accepted
by the stored hash, all store calls succeeding) returns the profile with no error and leaves
the stored failed-login counter equal to 0, whether the row is then read by id or by the
login's own lookup. -/
theorem C5_successful_login_resets_counter (bc : Bcrypt) (w : AuthWorld)
    (s : Store) (req : LoginRequest) (p : PlatformProfile)
    (hfound : lookupProfile s req = some p)
    (hstatus : p.Status = .StatusPending ∨ p.Status = .StatusActivated)
    (_hcount : 1 ≤ p.FailedLoginAttempts)
    (hw : w.succeeding)
    (hpw : bc.CompareHashAndPassword p.PasswordHash req.Password = true) :
    (∃ q, (AuthenticateProfile bc w s req).1 = .ok q ∧ q.ID = p.ID) ∧
    (∃ q, GetProfileByID (AuthenticateProfile bc w s req).2 none p.ID = .ok q ∧
        q.FailedLoginAttempts = 0) ∧
    (lookupProfile (AuthenticateProfile bc w s req).2 req).map
        (fun q => q.FailedLoginAttempts) = some 0 := by
  have hd : p.Status ≠ .StatusDeactivated := by rcases hstatus with h | h <;> rw [h] <;> decide
  have hs : p.Status ≠ .StatusSuspended := by rcases hstatus with h | h <;> rw [h] <;> decide
  rw [AuthenticateProfile_correct_password bc w s req p hfound hd hs hw hpw]
  refine ⟨⟨_, rfl, rfl⟩, ?_, ?_⟩
  · obtain ⟨r, hr⟩ := find?_id_isSome s.platform_profiles p (lookupProfile_mem hfound)
    unfold GetProfileByID
    simp only []
    rw [find?_id_updateWhere _ _ _ (fun r => by split_ifs <;> rfl), hr]
    refine ⟨_, rfl, ?_⟩
    split_ifs <;> rfl
  · rw [lookupProfile_updateWhere, hfound]
    · simp only [Option.map_some', beq_self_eq_true, if_true]
      split_ifs <;> rfl
    all_goals intro r; split_ifs <;> rfl

/-- C5 at a concrete input: the activated user `alice`, three failures on record, logs in
with her password. -/
theorem C5_successful_login_resets_counter_witness :
    (∃ q, (AuthenticateProfile demoBcrypt (demoAuthWorld 200)
        (demoStore [demoProfile .StatusActivated 3] []) ⟨"alice", "", "secret"⟩).1 = .ok q ∧
        q.ID = (demoProfile .StatusActivated 3).ID) ∧
    (∃ q, GetProfileByID (AuthenticateProfile demoBcrypt (demoAuthWorld 200)
        (demoStore [demoProfile .StatusActivated 3] []) ⟨"alice", "", "secret"⟩).2 none
          (demoProfile .StatusActivated 3).ID = .ok q ∧ q.FailedLoginAttempts = 0) ∧
    (lookupProfile (AuthenticateProfile demoBcrypt (demoAuthWorld 200)
        (demoStore [demoProfile .StatusActivated 3] []) ⟨"alice", "", "secret"⟩).2
        ⟨"alice", "", "secret"⟩).map (fun q => q.FailedLoginAttempts) = some 0 :=
  C5_successful_login_resets_counter demoBcrypt (demoAuthWorld 200)
    (demoStore [demoProfile .StatusActivated 3] []) ⟨"alice", "", "secret"⟩
    (demoProfile .StatusActivated 3) (by decide) (Or.inr rfl) (by decide) (by decide)
    (by decide)


/-! ## C6 - C9 - confirming a password reset -/

/-- Function `MarkPasswordResetTokenUsed` touches the token table only. -/
theorem MarkPasswordResetTokenUsed_platform_profiles (s : Store) (engine : Option String)
    (token : String) :
    (MarkPasswordResetTokenUsed s engine token).2.platform_profiles = s.platform_profiles := by
  unfold MarkPasswordResetTokenUsed
  cases engine with
  | some e => rfl
  | none => simp only []; split_ifs <;> rfl

/-- Function `MarkPasswordResetTokenUsed` changes neither the token string nor the owner of a row,
and adds no row. -/
theorem MarkPasswordResetTokenUsed_rows (s : Store) (engine : Option String) (token : String)
    (x : PasswordResetToken)
    (hx : x ∈ (MarkPasswordResetTokenUsed s engine token).2.password_reset_tokens) :
    ∃ r ∈ s.password_reset_tokens, r.Token = x.Token ∧ r.ProfileID = x.ProfileID := by
  unfold MarkPasswordResetTokenUsed at hx
  cases engine with
  | some e => exact ⟨x, hx, rfl, rfl⟩
  | none =>
    simp only [] at hx
    split_ifs at hx
    · exact ⟨x, hx, rfl, rfl⟩
    · simp only [updateWhere, List.mem_map] at hx
      obtain ⟨r, hr, hrx⟩ := hx
      refine ⟨r, hr, ?_⟩
      split_ifs at hrx <;> subst hrx <;> exact ⟨rfl, rfl⟩

/-- A confirm whose token is found, whose owner is an active profile, whose hashing succeeds
and whose store calls all succeed: it returns nil, rewrites the hash (and both update
timestamps) of the owner's rows, and leaves no token row of the owner; every token row left
stems from a row held before, with the same token string and owner. -/
theorem ConfirmPasswordReset_success (bc : Bcrypt) (w : ConfirmWorld) (s : Store)
    (req : PasswordResetConfirmation) (tk : PasswordResetToken) (p : PlatformProfile)
    (h : String)
    (htok : s.password_reset_tokens.find? (fun r => r.Token == req.Token) = some tk)
    (hp : p ∈ s.platform_profiles) (hown : p.ID = tk.ProfileID)
    (hw : w.succeeding)
    (hhash : bc.GenerateFromPassword req.NewPassword DefaultCost w.entropy = some h) :
    (ConfirmPasswordReset bc w s req).1 = none ∧
    (ConfirmPasswordReset bc w s req).2.platform_profiles
      = updateWhere (fun r => r.ID == tk.ProfileID)
          (fun r => { r with PasswordHash := h, UpdatedByUserAt := w.update.now,
                             UpdatedBySystemAt := w.update.now })
          s.platform_profiles ∧
    ∀ x ∈ (ConfirmPasswordReset bc w s req).2.password_reset_tokens,
      x.ProfileID ≠ tk.ProfileID ∧
      ∃ r ∈ s.password_reset_tokens, r.Token = x.Token ∧ r.ProfileID = x.ProfileID := by
  obtain ⟨hf, hu, -, hdel⟩ := hw
  have hrows : rowsAffected (fun r : PlatformProfile => r.ID == tk.ProfileID)
      s.platform_profiles ≠ 0 :=
    rowsAffected_ne_zero _ _ p hp (by simp [hown])
  unfold ConfirmPasswordReset
  unfold GetPasswordResetToken
  simp only [hf, htok, hhash]
  unfold UpdatePassword
  simp only [hu, hrows, if_false]
  unfold DeleteOtherPasswordResetTokens
  simp only [hdel]
  refine ⟨trivial, ?_, ?_⟩
  · exact MarkPasswordResetTokenUsed_platform_profiles _ _ _
  · intro x hx
    simp only [List.mem_filter, Bool.not_eq_true', beq_eq_false_iff_ne, ne_eq] at hx
    refine ⟨hx.2, ?_⟩
    have hrow := MarkPasswordResetTokenUsed_rows _ _ _ x hx.1
    exact hrow

/-- A confirm whose token string no stored row carries (the fetch running without a driver
failure) fails with a `DatabaseError` wrapping `ErrResetTokenNotFound` and leaves the store
as it was. -/
theorem ConfirmPasswordReset_no_token (bc : Bcrypt) (w : ConfirmWorld) (s : Store)
    (req : PasswordResetConfirmation)
    (hno : ∀ x ∈ s.password_reset_tokens, x.Token ≠ req.Token) (hf : w.fetch = none) :
    ConfirmPasswordReset bc w s req
      = (some (NewDatabaseError "fetching reset token" ErrResetTokenNotFound), s) := by
  have hnone : s.password_reset_tokens.find? (fun r => r.Token == req.Token) = none := by
    rw [List.find?_eq_none]
    intro x hx
    simpa using hno x hx
  unfold ConfirmPasswordReset GetPasswordResetToken
  simp only [hf, hnone]


/-- C6 (the code at the failing input). User `alice` holds a reset token that expired at
time 1000; `ConfirmPasswordReset` with it at time 5000 returns nil and the stored hash is
replaced: `GetPasswordResetToken` selects on the token string alone and the service never
reads `ExpiresAt`. -/
theorem C6_expired_token_still_changes_password :
    (ConfirmPasswordReset demoBcrypt (demoConfirmWorld 5000 none) demoTokenStore
        ⟨"tok", "changed"⟩).1 = none ∧
    demoTokenStore.password_reset_tokens.map (fun r => r.ExpiresAt) = [1000] ∧
    (demoConfirmWorld 5000 none).update.now = 5000 ∧
    demoTokenStore.platform_profiles.map (fun q => q.PasswordHash) = ["$2a$secret"] ∧
    (ConfirmPasswordReset demoBcrypt (demoConfirmWorld 5000 none) demoTokenStore
        ⟨"tok", "changed"⟩).2.platform_profiles.map (fun q => q.PasswordHash)
      = ["$2a$changed"] := by
  decide

/-- C7 (the code at the failing input). A first confirm whose best-effort clean-up
(`DeleteOtherPasswordResetTokens`) fails leaves the token stored with `used = true`; a second
confirm with that used token returns nil and replaces the stored hash again. -/
theorem C7_used_token_still_changes_password :
    (ConfirmPasswordReset demoBcrypt (demoConfirmWorld 950 (some "connection lost"))
        demoTokenStore ⟨"tok", "first"⟩).1 = none ∧
    (ConfirmPasswordReset demoBcrypt (demoConfirmWorld 950 (some "connection lost"))
        demoTokenStore ⟨"tok", "first"⟩).2
      = demoStore [{ demoProfile .StatusActivated 0 with
            PasswordHash := "$2a$first", UpdatedByUserAt := 950, UpdatedBySystemAt := 950 }]
          [⟨1, "tok", 1000, true, 900⟩] ∧
    (ConfirmPasswordReset demoBcrypt (demoConfirmWorld 960 none)
        (demoStore [{ demoProfile .StatusActivated 0 with
            PasswordHash := "$2a$first", UpdatedByUserAt := 950, UpdatedBySystemAt := 950 }]
          [⟨1, "tok", 1000, true, 900⟩]) ⟨"tok", "second"⟩).1 = none ∧
    (ConfirmPasswordReset demoBcrypt (demoConfirmWorld 960 none)
        (demoStore [{ demoProfile .StatusActivated 0 with
            PasswordHash := "$2a$first", UpdatedByUserAt := 950, UpdatedBySystemAt := 950 }]
          [⟨1, "tok", 1000, true, 900⟩])
        ⟨"tok", "second"⟩).2.platform_profiles.map (fun q => q.PasswordHash)
      = ["$2a$second"] := by
  decide

/-- With token strings unique in the table, a row carrying the string that the fetch found
is the row the fetch found. -/
theorem token_row_unique (tokens : List PasswordResetToken) (t : String)
    (tk r : PasswordResetToken)
    (huniq : (tokens.map (fun x => x.Token)).Nodup)
    (htok : tokens.find? (fun x => x.Token == t) = some tk)
    (hr : r ∈ tokens) (hrt : r.Token = t) : r = tk := by
  have htk := List.mem_of_find?_eq_some htok
  have htt : tk.Token = t := by simpa using List.find?_some htok
  exact List.inj_on_of_nodup_map huniq hr htk (by rw [hrt, htt])

/-- A confirm with a token found by its (unique) token string whose hashing and store calls,
the clean-up of the owner's token rows included, succeed, followed by a second confirm with
the same token string: the first returns nil and stores the generated hash, the second
returns an error and leaves the store unchanged. -/
theorem ConfirmPasswordReset_twice_same_token (bc : Bcrypt) (w1 w2 : ConfirmWorld)
    (s : Store) (req : PasswordResetConfirmation) (secondPassword : String)
    (tk : PasswordResetToken) (p : PlatformProfile) (h : String)
    (htok : s.password_reset_tokens.find? (fun r => r.Token == req.Token) = some tk)
    (huniq : (s.password_reset_tokens.map (fun r => r.Token)).Nodup)
    (hp : p ∈ s.platform_profiles) (hown : tk.ProfileID = p.ID)
    (_hunused : tk.IsUsed = false) (_hunexpired : w1.update.now < tk.ExpiresAt)
    (hw1 : w1.succeeding)
    (hhash : bc.GenerateFromPassword req.NewPassword DefaultCost w1.entropy = some h)
    (hw2 : w2.succeeding) :
    let r1 := ConfirmPasswordReset bc w1 s req
    let r2 := ConfirmPasswordReset bc w2 r1.2 ⟨req.Token, secondPassword⟩
    r1.1 = none ∧
    (∃ q, GetProfileByID r1.2 none p.ID = .ok q ∧ q.PasswordHash = h) ∧
    (∃ e, r2.1 = some e) ∧
    r2.2 = r1.2 := by
  intro r1 r2
  obtain ⟨hnil, hrows, hleft⟩ :=
    ConfirmPasswordReset_success bc w1 s req tk p h htok hp hown.symm hw1 hhash
  have hno : ∀ x ∈ r1.2.password_reset_tokens, x.Token ≠ req.Token := by
    intro x hx hxt
    obtain ⟨hne, r, hr, hrt, hrp⟩ := hleft x hx
    have hrtk : r = tk := token_row_unique _ req.Token tk r huniq htok hr (by rw [hrt, hxt])
    exact hne (by rw [← hrp, hrtk])
  have hsecond := ConfirmPasswordReset_no_token bc w2 r1.2 ⟨req.Token, secondPassword⟩ hno hw2.1
  have h21 : r2.1 = some (NewDatabaseError "fetching reset token" ErrResetTokenNotFound) :=
    congrArg Prod.fst hsecond
  have h22 : r2.2 = r1.2 := by
    show (ConfirmPasswordReset bc w2 r1.2 ⟨req.Token, secondPassword⟩).2 = r1.2
    rw [hsecond]
  refine ⟨hnil, ?_, ⟨_, h21⟩, h22⟩
  obtain ⟨r, hr⟩ := find?_id_isSome s.platform_profiles p hp
  unfold GetProfileByID
  simp only []
  show ∃ q, (match r1.2.platform_profiles.find? (fun r => r.ID == p.ID) with
    | none => Except.error ErrProfileNotFound
    | some profile => Except.ok profile) = .ok q ∧ q.PasswordHash = h
  rw [hrows, hown, find?_id_updateWhere _ _ _ (fun r => by rfl), hr]
  exact ⟨_, rfl, rfl⟩

/-- C8 (the claim at the failing input). `alice` holds the reset token `tok`, unused and
valid until time 1000; at time 950 she confirms with it and a new password of 73 bytes, and
every store call would succeed.  The bcrypt library refuses a password of more than 72
bytes, so `ConfirmPasswordReset` returns the business error `PASSWORD_HASH_FAILED` and
leaves the store, with it the hash of `secret`, as it was: the confirm does not succeed. -/
theorem C8_confirm_fails_when_bcrypt_refuses :
    GetPasswordResetToken demoTokenStore (demoConfirmWorld 950 none).fetch "tok"
      = .ok ⟨1, "tok", 1000, false, 900⟩ ∧
    (demoConfirmWorld 950 none).succeeding ∧
    (demoConfirmWorld 950 none).update.now < 1000 ∧
    demoLongPassword.utf8ByteSize = 73 ∧
    demoTokenStore.platform_profiles.map (fun q => q.PasswordHash) = ["$2a$secret"] ∧
    ConfirmPasswordReset demoBcrypt72 (demoConfirmWorld 950 none) demoTokenStore
        ⟨"tok", demoLongPassword⟩
      = (some (NewBusinessError "PASSWORD_HASH_FAILED" "failed to update password"),
         demoTokenStore) := by
  refine ⟨rfl, by decide, by decide, by decide, rfl, by decide⟩

/-- C8 (amended). For an active profile `p` and a reset token of it that is found by its
(unique) token string, unused and unexpired at the time of the call, with the store calls of
the confirm all succeeding: when bcrypt hashes the new password to `h`,
`ConfirmPasswordReset` returns nil and the stored hash of `p` is `h`, and a second
`ConfirmPasswordReset` with the same token string (store calls succeeding, any new password)
returns an error and leaves the store, hence the hash set by the first confirm, unchanged;
when bcrypt refuses the new password, `ConfirmPasswordReset` returns an error of kind
`BusinessError` and leaves the store as it was. -/
theorem C8_confirm_then_same_token_fails_unless_hashing_refused (bc : Bcrypt)
    (w1 w2 : ConfirmWorld) (s : Store) (req : PasswordResetConfirmation)
    (secondPassword : String) (tk : PasswordResetToken) (p : PlatformProfile)
    (htok : s.password_reset_tokens.find? (fun r => r.Token == req.Token) = some tk)
    (huniq : (s.password_reset_tokens.map (fun r => r.Token)).Nodup)
    (hp : p ∈ s.platform_profiles) (hown : tk.ProfileID = p.ID)
    (hunused : tk.IsUsed = false) (hunexpired : w1.update.now < tk.ExpiresAt)
    (hw1 : w1.succeeding) (hw2 : w2.succeeding) :
    (∀ h, bc.GenerateFromPassword req.NewPassword DefaultCost w1.entropy = some h →
      (ConfirmPasswordReset bc w1 s req).1 = none ∧
      (∃ q, GetProfileByID (ConfirmPasswordReset bc w1 s req).2 none p.ID = .ok q ∧
        q.PasswordHash = h) ∧
      (∃ e, (ConfirmPasswordReset bc w2 (ConfirmPasswordReset bc w1 s req).2
        ⟨req.Token, secondPassword⟩).1 = some e) ∧
      (ConfirmPasswordReset bc w2 (ConfirmPasswordReset bc w1 s req).2
        ⟨req.Token, secondPassword⟩).2 = (ConfirmPasswordReset bc w1 s req).2) ∧
    (bc.GenerateFromPassword req.NewPassword DefaultCost w1.entropy = none →
      (∃ e, (ConfirmPasswordReset bc w1 s req).1 = some e ∧
        ErrorTypeOf e = .BusinessError) ∧
      (ConfirmPasswordReset bc w1 s req).2 = s) := by
  constructor
  · intro h hhash
    exact ConfirmPasswordReset_twice_same_token bc w1 w2 s req secondPassword tk p h htok
      huniq hp hown hunused hunexpired hw1 hhash hw2
  · intro hrefused
    unfold ConfirmPasswordReset GetPasswordResetToken
    simp only [hw1.1, htok, hrefused]
    exact ⟨⟨_, rfl, rfl⟩, trivial⟩

/-- C8 at concrete inputs: `alice` confirms with her one token and the password `fresh`, then
tries the token again; and she confirms with a password of 73 bytes, which bcrypt refuses. -/
theorem C8_confirm_then_same_token_fails_unless_hashing_refused_witness :
    ((ConfirmPasswordReset demoBcrypt (demoConfirmWorld 950 none) demoTokenStore
        ⟨"tok", "fresh"⟩).1 = none ∧
      (∃ q, GetProfileByID (ConfirmPasswordReset demoBcrypt (demoConfirmWorld 950 none)
          demoTokenStore ⟨"tok", "fresh"⟩).2 none (demoProfile .StatusActivated 0).ID = .ok q ∧
        q.PasswordHash = "$2a$fresh") ∧
      (∃ e, (ConfirmPasswordReset demoBcrypt (demoConfirmWorld 960 none)
          (ConfirmPasswordReset demoBcrypt (demoConfirmWorld 950 none) demoTokenStore
            ⟨"tok", "fresh"⟩).2 ⟨"tok", "again"⟩).1 = some e) ∧
      (ConfirmPasswordReset demoBcrypt (demoConfirmWorld 960 none)
          (ConfirmPasswordReset demoBcrypt (demoConfirmWorld 950 none) demoTokenStore
            ⟨"tok", "fresh"⟩).2 ⟨"tok", "again"⟩).2
        = (ConfirmPasswordReset demoBcrypt (demoConfirmWorld 950 none) demoTokenStore
            ⟨"tok", "fresh"⟩).2) ∧
    ((∃ e, (ConfirmPasswordReset demoBcrypt72 (demoConfirmWorld 950 none) demoTokenStore
        ⟨"tok", demoLongPassword⟩).1 = some e ∧ ErrorTypeOf e = .BusinessError) ∧
      (ConfirmPasswordReset demoBcrypt72 (demoConfirmWorld 950 none) demoTokenStore
        ⟨"tok", demoLongPassword⟩).2 = demoTokenStore) :=
  ⟨(C8_confirm_then_same_token_fails_unless_hashing_refused demoBcrypt
      (demoConfirmWorld 950 none) (demoConfirmWorld 960 none) demoTokenStore ⟨"tok", "fresh"⟩
      "again" ⟨1, "tok", 1000, false, 900⟩ (demoProfile .StatusActivated 0)
      (by decide) (by decide) (by decide) rfl rfl (by decide) (by decide) (by decide)).1
      "$2a$fresh" rfl,
   (C8_confirm_then_same_token_fails_unless_hashing_refused demoBcrypt72
      (demoConfirmWorld 950 none) (demoConfirmWorld 960 none) demoTokenStore
      ⟨"tok", demoLongPassword⟩ "again" ⟨1, "tok", 1000, false, 900⟩
      (demoProfile .StatusActivated 0)
      (by decide) (by decide) (by decide) rfl rfl (by decide) (by decide) (by decide)).2
      (by decide)⟩


/-- C9. For an active profile `p` with two outstanding reset tokens `t1` (issued first) and
`t2`, token strings being unique in the table: `ConfirmPasswordReset` with `t2` (hashing and
all store calls succeeding) returns nil and leaves no token row of `p`, and a following
`ConfirmPasswordReset` with `t1` (store calls succeeding) returns an error and leaves the
store, hence the password hash, unchanged. -/
theorem C9_confirm_invalidates_other_tokens (bc : Bcrypt) (w1 w2 : ConfirmWorld)
    (s : Store) (t1 t2 newPassword laterPassword : String)
    (tk1 tk2 : PasswordResetToken) (p : PlatformProfile) (h : String)
    (htok1 : s.password_reset_tokens.find? (fun r => r.Token == t1) = some tk1)
    (htok2 : s.password_reset_tokens.find? (fun r => r.Token == t2) = some tk2)
    (huniq : (s.password_reset_tokens.map (fun r => r.Token)).Nodup)
    (hp : p ∈ s.platform_profiles)
    (hown1 : tk1.ProfileID = p.ID) (hown2 : tk2.ProfileID = p.ID)
    (_hfirst : tk1.CreatedAt < tk2.CreatedAt)
    (_hunused1 : tk1.IsUsed = false) (_hunused2 : tk2.IsUsed = false)
    (hw1 : w1.succeeding)
    (hhash : bc.GenerateFromPassword newPassword DefaultCost w1.entropy = some h)
    (hw2 : w2.succeeding) :
    let r1 := ConfirmPasswordReset bc w1 s ⟨t2, newPassword⟩
    let r2 := ConfirmPasswordReset bc w2 r1.2 ⟨t1, laterPassword⟩
    r1.1 = none ∧
    (∀ x ∈ r1.2.password_reset_tokens, x.ProfileID ≠ p.ID) ∧
    (∃ e, r2.1 = some e) ∧
    r2.2 = r1.2 := by
  intro r1 r2
  obtain ⟨hnil, -, hleft⟩ :=
    ConfirmPasswordReset_success bc w1 s ⟨t2, newPassword⟩ tk2 p h htok2 hp hown2.symm hw1 hhash
  have hgone : ∀ x ∈ r1.2.password_reset_tokens, x.ProfileID ≠ p.ID := by
    intro x hx
    rw [← hown2]
    exact (hleft x hx).1
  have hno : ∀ x ∈ r1.2.password_reset_tokens, x.Token ≠ t1 := by
    intro x hx hxt
    obtain ⟨-, r, hr, hrt, hrp⟩ := hleft x hx
    have hrtk : r = tk1 := token_row_unique _ t1 tk1 r huniq htok1 hr (by rw [hrt, hxt])
    exact hgone x hx (by rw [← hrp, hrtk, hown1])
  have hsecond := ConfirmPasswordReset_no_token bc w2 r1.2 ⟨t1, laterPassword⟩ hno hw2.1
  have h21 : r2.1 = some (NewDatabaseError "fetching reset token" ErrResetTokenNotFound) :=
    congrArg Prod.fst hsecond
  have h22 : r2.2 = r1.2 := by
    show (ConfirmPasswordReset bc w2 r1.2 ⟨t1, laterPassword⟩).2 = r1.2
    rw [hsecond]
  exact ⟨hnil, hgone, ⟨_, h21⟩, h22⟩

/-- C9 at a concrete input: `alice` holds `tok1` and `tok2`, confirms with `tok2`, then
tries `tok1`. -/
theorem C9_confirm_invalidates_other_tokens_witness :
    let s := demoStore [demoProfile .StatusActivated 0]
      [⟨1, "tok1", 1000, false, 900⟩, ⟨1, "tok2", 1100, false, 950⟩]
    let w : ConfirmWorld := ⟨none, 0, ⟨990, none⟩, none, none⟩
    let r1 := ConfirmPasswordReset demoBcrypt w s ⟨"tok2", "fresh"⟩
    let r2 := ConfirmPasswordReset demoBcrypt w r1.2 ⟨"tok1", "again"⟩
    r1.1 = none ∧
    (∀ x ∈ r1.2.password_reset_tokens, x.ProfileID ≠ (demoProfile .StatusActivated 0).ID) ∧
    (∃ e, r2.1 = some e) ∧
    r2.2 = r1.2 :=
  C9_confirm_invalidates_other_tokens demoBcrypt ⟨none, 0, ⟨990, none⟩, none, none⟩
    ⟨none, 0, ⟨990, none⟩, none, none⟩
    (demoStore [demoProfile .StatusActivated 0]
      [⟨1, "tok1", 1000, false, 900⟩, ⟨1, "tok2", 1100, false, 950⟩])
    "tok1" "tok2" "fresh" "again" ⟨1, "tok1", 1000, false, 900⟩ ⟨1, "tok2", 1100, false, 950⟩
    (demoProfile .StatusActivated 0) "$2a$fresh"
    (by decide) (by decide) (by decide) (by decide) rfl rfl (by decide) rfl rfl (by decide)
    rfl (by decide)

/-! ## C10 - a reset request for an unknown email -/

/-- C10. For every email that no row of the active table carries, and whatever the driver,
the token generator and the mail collaborator would answer, `RequestPasswordReset` returns
nil, leaves the store (so also the token table) unchanged, and makes no call to the mail
collaborator. -/
theorem C10_reset_request_for_unknown_email_is_silent (w : RequestWorld) (s : Store)
    (req : PasswordResetRequest)
    (hno : ∀ r ∈ s.platform_profiles, r.Email ≠ req.Email) :
    RequestPasswordReset w s req = (none, s, []) := by
  have hnone : s.platform_profiles.find? (fun r => r.Email == req.Email) = none := by
    rw [List.find?_eq_none]
    intro x hx
    simpa using hno x hx
  unfold RequestPasswordReset GetProfileByEmail
  cases w.lookup with
  | some e => rfl
  | none => simp only [hnone]

/-- C10 at a concrete input: a reset is requested for `bob@example.org` while only `alice`
is stored. -/
theorem C10_reset_request_for_unknown_email_is_silent_witness :
    RequestPasswordReset ⟨none, some "abcdef", 300, 301, none, none⟩
        (demoStore [demoProfile .StatusActivated 0] []) ⟨"bob@example.org"⟩
      = (none, demoStore [demoProfile .StatusActivated 0] [], []) :=
  C10_reset_request_for_unknown_email_is_silent ⟨none, some "abcdef", 300, 301, none, none⟩
    (demoStore [demoProfile .StatusActivated 0] []) ⟨"bob@example.org"⟩ (by decide)

/-! ## C12, C14, C15 - the store's soft delete, restore and hard delete at their edges -/

/-- Filtering by a condition no row meets leaves nothing. -/
theorem filter_eq_nil_of_forall {α : Type} (cond : α → Bool) (rows : List α)
    (h : ∀ r ∈ rows, cond r = false) : rows.filter cond = [] := by
  rw [List.filter_eq_nil_iff]
  intro r hr
  simp [h r hr]

/-- An `UPDATE` or `DELETE` whose condition no row meets affects no row. -/
theorem rowsAffected_eq_zero {α : Type} (cond : α → Bool) (rows : List α)
    (h : ∀ r ∈ rows, cond r = false) : rowsAffected cond rows = 0 := by
  unfold rowsAffected
  rw [List.countP_eq_zero]
  intro r hr
  simp [h r hr]

/-- C12. On the store, with the driver reporting no failure for the statements run:
`SoftDeleteProfile(a)` with no active record for `a`, `RestoreSoftDeletedProfile(b)` with no
archive row for `b`, and `HardDeleteProfile(b)` with no archive row for `b` each return the
store's not-found sentinel `ErrProfileNotFound` and leave the whole store, so both the active
and the archive table, as it was. -/
theorem C12_missing_row_is_reported_and_nothing_changes (s : Store) (a b : UUID)
    (sd : SoftDeleteCall) (rc : RestoreCall)
    (hactive : ∀ r ∈ s.platform_profiles, r.ID ≠ a)
    (harchive : ∀ d ∈ s.deleted_profiles, d.profile.ID ≠ b)
    (hsd : sd.begin = none ∧ sd.archive.failure = none)
    (hrc : rc.begin = none ∧ rc.restore = none) :
    SoftDeleteProfile s sd a = (some ErrProfileNotFound, s) ∧
    RestoreSoftDeletedProfile s rc b = (some ErrProfileNotFound, s) ∧
    HardDeleteProfile s none b = (some ErrProfileNotFound, s) := by
  have hfa : s.platform_profiles.filter (fun r => r.ID == a) = [] :=
    filter_eq_nil_of_forall _ _ (fun r hr => by simpa using hactive r hr)
  have hfb : s.deleted_profiles.filter (fun d => d.profile.ID == b) = [] :=
    filter_eq_nil_of_forall _ _ (fun d hd => by simpa using harchive d hd)
  have hrb : rowsAffected (fun d : DeletedProfile => d.profile.ID == b) s.deleted_profiles = 0 :=
    rowsAffected_eq_zero _ _ (fun d hd => by simpa using harchive d hd)
  refine ⟨?_, ?_, ?_⟩
  · unfold SoftDeleteProfile
    simp only [hsd.1, hsd.2, hfa, List.map_nil, List.length_nil, if_true]
  · unfold RestoreSoftDeletedProfile
    simp only [hrc.1, hrc.2, hfb, List.map_nil, insertOnConflictDoNothing]
  · unfold HardDeleteProfile
    simp only [hrb, if_true]

/-- C12 at a concrete input: the store holds `alice` as an active profile only; id 2 has no
active record and id 1 has no archive row. -/
theorem C12_missing_row_is_reported_and_nothing_changes_witness :
    SoftDeleteProfile (demoStore [demoProfile .StatusActivated 0] []) (demoSoftDeleteCall 150) 2
      = (some ErrProfileNotFound, demoStore [demoProfile .StatusActivated 0] []) ∧
    RestoreSoftDeletedProfile (demoStore [demoProfile .StatusActivated 0] []) demoRestoreCall 1
      = (some ErrProfileNotFound, demoStore [demoProfile .StatusActivated 0] []) ∧
    HardDeleteProfile (demoStore [demoProfile .StatusActivated 0] []) none 1
      = (some ErrProfileNotFound, demoStore [demoProfile .StatusActivated 0] []) :=
  C12_missing_row_is_reported_and_nothing_changes
    (demoStore [demoProfile .StatusActivated 0] []) 2 1 (demoSoftDeleteCall 150)
    demoRestoreCall (by decide) (by decide) (by decide) (by decide)

/-- C14 (the code at the failing input). The archive holds a row for id 1 and the active
table holds a record with id 1.  `RestoreSoftDeletedProfile(1)`, all driver calls succeeding,
returns `ErrProfileNotFound` and changes nothing: the skipped insert returns no id, the scan
reports no rows, and the transaction is rolled back with the archive row still in place. -/
theorem C14_restore_onto_existing_record_reports_not_found :
    RestoreSoftDeletedProfile (demoArchiveStore [demoProfile .StatusSuspended 5])
        demoRestoreCall 1
      = (some ErrProfileNotFound, demoArchiveStore [demoProfile .StatusSuspended 5]) ∧
    (demoArchiveStore [demoProfile .StatusSuspended 5]).deleted_profiles.map
        (fun d => d.profile.ID) = [1] ∧
    (demoArchiveStore [demoProfile .StatusSuspended 5]).platform_profiles.map
        (fun r => r.ID) = [1] := by
  decide

/-- C15. For every store, driver outcome and id, `HardDeleteProfile`, in the repository and
in the service, leaves the active-profiles table as it was; the repository call either
returns nil, and the store then differs from the one before only in that the archive rows
for the id are gone, or returns an error and leaves the store unchanged; the service call
ends in the same store. -/
theorem C15_hard_delete_never_touches_active_table (s : Store) (engine : Option String)
    (id : UUID) :
    (HardDeleteProfile s engine id).2.platform_profiles = s.platform_profiles ∧
    (service.HardDeleteProfile s engine id).2 = (HardDeleteProfile s engine id).2 ∧
    (((HardDeleteProfile s engine id).1 = none ∧
        (HardDeleteProfile s engine id).2
          = { s with deleted_profiles :=
                s.deleted_profiles.filter (fun d => !(d.profile.ID == id)) }) ∨
      ((HardDeleteProfile s engine id).1 ≠ none ∧ (HardDeleteProfile s engine id).2 = s)) := by
  unfold service.HardDeleteProfile HardDeleteProfile
  cases engine with
  | some e => simp
  | none =>
    by_cases h : rowsAffected (fun d : DeletedProfile => d.profile.ID == id)
        s.deleted_profiles = 0
    · simp [h]
    · simp [h]

/-! ## C11 - soft delete followed by restore -/

/-- With ids unique in the table, the rows selected by the id of a row are that row alone. -/
theorem filter_id_eq_singleton (rows : List PlatformProfile) (p : PlatformProfile)
    (hp : p ∈ rows) (hid : (rows.map (fun r => r.ID)).Nodup) :
    rows.filter (fun r => r.ID == p.ID) = [p] := by
  induction rows with
  | nil => simp at hp
  | cons a l ih =>
    rw [List.map_cons, List.nodup_cons] at hid
    obtain ⟨hnot, hnodup⟩ := hid
    rcases List.mem_cons.mp hp with h | h
    · subst h
      have hnone : l.filter (fun r => r.ID == p.ID) = [] := by
        apply filter_eq_nil_of_forall
        intro r hr
        have : r.ID ≠ p.ID := fun heq => hnot (heq ▸ List.mem_map_of_mem (fun r => r.ID) hr)
        simpa using this
      simp [List.filter_cons, hnone]
    · have hne : a.ID ≠ p.ID := fun heq =>
        hnot (heq ▸ List.mem_map_of_mem (fun r => r.ID) h)
      have hb : (a.ID == p.ID) = false := by simpa using hne
      simp only [List.filter_cons, hb]
      exact ih h hnodup

/-- Inserting one candidate that collides with no row on id, username or email adds it at
the end and returns its id. -/
theorem insertOnConflictDoNothing_single (rows : List PlatformProfile) (p : PlatformProfile)
    (hid : ∀ r ∈ rows, r.ID ≠ p.ID) (hun : ∀ r ∈ rows, r.Username ≠ p.Username)
    (hem : ∀ r ∈ rows, r.Email ≠ p.Email) :
    insertOnConflictDoNothing [p] rows = .ok (rows ++ [p], [p.ID]) := by
  have h1 : rows.any (fun r => r.ID == p.ID) = false := by
    rw [List.any_eq_false]; intro r hr; simpa using hid r hr
  have h2 : rows.any (fun r => r.Username == p.Username) = false := by
    rw [List.any_eq_false]; intro r hr; simpa using hun r hr
  have h3 : rows.any (fun r => r.Email == p.Email) = false := by
    rw [List.any_eq_false]; intro r hr; simpa using hem r hr
  simp [insertOnConflictDoNothing, uniqueKeyTaken, h1, h2, h3]

/-- Soft delete of an active profile whose id is unique in the active table, all driver
calls succeeding: the row leaves the active table and is appended to the archive with the
deletion stamp. -/
theorem SoftDeleteProfile_success (s : Store) (p : PlatformProfile) (sd : SoftDeleteCall)
    (hp : p ∈ s.platform_profiles)
    (hid : (s.platform_profiles.map (fun r => r.ID)).Nodup)
    (hsd : sd.succeeding) :
    SoftDeleteProfile s sd p.ID
      = (none, { s with
          platform_profiles := s.platform_profiles.filter (fun r => !(r.ID == p.ID)),
          deleted_profiles :=
            s.deleted_profiles ++ [{ profile := p, deleted_at := sd.archive.now }] }) := by
  obtain ⟨hb, ha, hd, hc⟩ := hsd
  have hrows : rowsAffected (fun r : PlatformProfile => r.ID == p.ID) s.platform_profiles ≠ 0 :=
    rowsAffected_ne_zero _ _ p hp (by simp)
  unfold SoftDeleteProfile
  simp only [hb, ha, hd, hc, filter_id_eq_singleton _ p hp hid, List.map_cons, List.map_nil,
    List.length_singleton, one_ne_zero, if_false, hrows]

/-- Restore of an id whose only archive row holds `p`, while no active row shares the id,
the username or the email of `p`, all driver calls succeeding: `p` is appended to the active
table and the archive loses the row. -/
theorem RestoreSoftDeletedProfile_success (s : Store) (p : PlatformProfile) (t : Time)
    (archive : List DeletedProfile) (rc : RestoreCall)
    (hs : s.deleted_profiles = archive ++ [{ profile := p, deleted_at := t }])
    (harchive : ∀ d ∈ archive, d.profile.ID ≠ p.ID)
    (hid : ∀ r ∈ s.platform_profiles, r.ID ≠ p.ID)
    (hun : ∀ r ∈ s.platform_profiles, r.Username ≠ p.Username)
    (hem : ∀ r ∈ s.platform_profiles, r.Email ≠ p.Email)
    (hrc : rc.succeeding) :
    RestoreSoftDeletedProfile s rc p.ID
      = (none, { s with platform_profiles := s.platform_profiles ++ [p],
                        deleted_profiles := archive }) := by
  obtain ⟨hb, hr, hd, hc⟩ := hrc
  have hnone : archive.filter (fun d => d.profile.ID == p.ID) = [] :=
    filter_eq_nil_of_forall _ _ (fun d hd => by simpa using harchive d hd)
  have hkeep : archive.filter (fun d => !(d.profile.ID == p.ID)) = archive := by
    rw [List.filter_eq_self]
    intro d hd
    simpa using harchive d hd
  have hrows : rowsAffected (fun d : DeletedProfile => d.profile.ID == p.ID)
      s.deleted_profiles ≠ 0 :=
    rowsAffected_ne_zero _ _ { profile := p, deleted_at := t } (by rw [hs]; simp) (by simp)
  unfold RestoreSoftDeletedProfile
  simp only [hb, hr, hd, hc]
  rw [hs] at hrows ⊢
  simp only [List.filter_append, hnone, hkeep, List.nil_append, List.append_nil,
    List.filter_cons, List.filter_nil, beq_self_eq_true, if_true, List.map_cons, List.map_nil,
    insertOnConflictDoNothing_single _ p hid hun hem, hrows, if_false, Bool.not_true,
    Bool.false_eq_true]

/-- C11. Round trip on the store.  Let `p` be an active profile of a store in which ids,
usernames and emails are each unique among the active rows and the archive holds no row for
`p.ID`.  Then `SoftDeleteProfile(p.ID)` followed at once by `RestoreSoftDeletedProfile(p.ID)`,
all driver calls succeeding, both return nil; afterwards the active table holds the same
rows as before (in another order), a read by id returns a record equal to `p` in every
field, and the archive is as before, with no row for `p.ID`. -/
theorem C11_soft_delete_then_restore_gives_back_the_profile (s : Store) (p : PlatformProfile)
    (sd : SoftDeleteCall) (rc : RestoreCall)
    (hp : p ∈ s.platform_profiles)
    (hid : (s.platform_profiles.map (fun r => r.ID)).Nodup)
    (hun : (s.platform_profiles.map (fun r => r.Username)).Nodup)
    (hem : (s.platform_profiles.map (fun r => r.Email)).Nodup)
    (harchive : ∀ d ∈ s.deleted_profiles, d.profile.ID ≠ p.ID)
    (hsd : sd.succeeding) (hrc : rc.succeeding) :
    (SoftDeleteProfile s sd p.ID).1 = none ∧
    (RestoreSoftDeletedProfile (SoftDeleteProfile s sd p.ID).2 rc p.ID).1 = none ∧
    GetProfileByID (RestoreSoftDeletedProfile (SoftDeleteProfile s sd p.ID).2 rc p.ID).2
      none p.ID = .ok p ∧
    (RestoreSoftDeletedProfile (SoftDeleteProfile s sd p.ID).2 rc p.ID).2.platform_profiles.Perm
      s.platform_profiles ∧
    (RestoreSoftDeletedProfile (SoftDeleteProfile s sd p.ID).2 rc p.ID).2.deleted_profiles
      = s.deleted_profiles ∧
    ∀ d ∈ (RestoreSoftDeletedProfile (SoftDeleteProfile s sd p.ID).2 rc p.ID).2.deleted_profiles,
      d.profile.ID ≠ p.ID := by
  have hrest : ∀ r ∈ s.platform_profiles.filter (fun r => !(r.ID == p.ID)),
      r ∈ s.platform_profiles ∧ r.ID ≠ p.ID := by
    intro r hr
    rw [List.mem_filter] at hr
    exact ⟨hr.1, by simpa using hr.2⟩
  rw [SoftDeleteProfile_success s p sd hp hid hsd]
  rw [RestoreSoftDeletedProfile_success _ p sd.archive.now s.deleted_profiles rc rfl harchive
    (fun r hr => (hrest r hr).2)
    (fun r hr heq => (hrest r hr).2
      (congrArg (fun r => r.ID) (List.inj_on_of_nodup_map hun (hrest r hr).1 hp heq)))
    (fun r hr heq => (hrest r hr).2
      (congrArg (fun r => r.ID) (List.inj_on_of_nodup_map hem (hrest r hr).1 hp heq)))
    hrc]
  refine ⟨rfl, rfl, ?_, ?_, rfl, harchive⟩
  · have hnone : (s.platform_profiles.filter (fun r => !(r.ID == p.ID))).find?
        (fun r => r.ID == p.ID) = none := by
      rw [List.find?_eq_none]
      intro r hr
      simpa using (hrest r hr).2
    unfold GetProfileByID
    simp only [List.find?_append, hnone, Option.none_or, List.find?_cons, beq_self_eq_true]
  · have hperm := List.filter_append_perm (fun r : PlatformProfile => r.ID == p.ID)
      s.platform_profiles
    rw [filter_id_eq_singleton _ p hp hid] at hperm
    exact List.perm_append_comm.trans hperm

/-- C11 at a concrete input: `alice`, the only profile, is soft-deleted at time 150 and
restored. -/
theorem C11_soft_delete_then_restore_gives_back_the_profile_witness :
    (SoftDeleteProfile (demoStore [demoProfile .StatusActivated 0] [])
        (demoSoftDeleteCall 150) 1).1 = none ∧
    (RestoreSoftDeletedProfile (SoftDeleteProfile (demoStore [demoProfile .StatusActivated 0] [])
        (demoSoftDeleteCall 150) 1).2 demoRestoreCall 1).1 = none ∧
    GetProfileByID (RestoreSoftDeletedProfile (SoftDeleteProfile
        (demoStore [demoProfile .StatusActivated 0] []) (demoSoftDeleteCall 150) 1).2
        demoRestoreCall 1).2 none 1 = .ok (demoProfile .StatusActivated 0) ∧
    (RestoreSoftDeletedProfile (SoftDeleteProfile (demoStore [demoProfile .StatusActivated 0] [])
        (demoSoftDeleteCall 150) 1).2 demoRestoreCall 1).2.platform_profiles.Perm
      [demoProfile .StatusActivated 0] ∧
    (RestoreSoftDeletedProfile (SoftDeleteProfile (demoStore [demoProfile .StatusActivated 0] [])
        (demoSoftDeleteCall 150) 1).2 demoRestoreCall 1).2.deleted_profiles = [] ∧
    ∀ d ∈ (RestoreSoftDeletedProfile (SoftDeleteProfile
        (demoStore [demoProfile .StatusActivated 0] []) (demoSoftDeleteCall 150) 1).2
        demoRestoreCall 1).2.deleted_profiles, d.profile.ID ≠ 1 :=
  C11_soft_delete_then_restore_gives_back_the_profile
    (demoStore [demoProfile .StatusActivated 0] []) (demoProfile .StatusActivated 0)
    (demoSoftDeleteCall 150) demoRestoreCall (by decide) (by decide) (by decide) (by decide)
    (by decide) (by decide) (by decide)

/-! ## C13 - the service's view of a missing row -/

/-- C13 (the code at the failing input). On an empty store, with every driver call
succeeding, the repository reports `ErrProfileNotFound` to each of the three service methods.
`SoftDeleteProfile` answers with kind `DatabaseError`, `RestoreProfile` with the business
error `PROFILE_RESTORE_FAILED`, `HardDeleteProfile` with the business error
`PROFILE_HARD_DELETE_FAILED`; none has kind `NotFound`, and `RestoreProfile` gives the very
same answer when the transaction cannot even be started. -/
theorem C13_store_not_found_never_becomes_domain_not_found :
    (SoftDeleteProfile (demoStore [] []) (demoSoftDeleteCall 150) 1).1
      = some ErrProfileNotFound ∧
    (service.SoftDeleteProfile (demoStore [] []) (demoSoftDeleteCall 150) 1).1
      = some (NewDatabaseError "soft delete profile" ErrProfileNotFound) ∧
    (RestoreSoftDeletedProfile (demoStore [] []) demoRestoreCall 1).1
      = some ErrProfileNotFound ∧
    (RestoreProfile (demoStore [] []) demoRestoreCall 1).1
      = .returns (some (NewBusinessError "PROFILE_RESTORE_FAILED" "failed to restore profile")) ∧
    (RestoreProfile (demoStore [] []) ⟨some "connection lost", none, none, none⟩ 1).1
      = .returns (some (NewBusinessError "PROFILE_RESTORE_FAILED" "failed to restore profile")) ∧
    (HardDeleteProfile (demoStore [] []) none 1).1 = some ErrProfileNotFound ∧
    (service.HardDeleteProfile (demoStore [] []) none 1).1
      = some (NewBusinessError "PROFILE_HARD_DELETE_FAILED" "failed to hard delete profile") ∧
    ErrorTypeOf (NewDatabaseError "soft delete profile" ErrProfileNotFound) = .DatabaseError ∧
    ErrorTypeOf (NewBusinessError "PROFILE_RESTORE_FAILED" "failed to restore profile")
      = .BusinessError ∧
    ErrorTypeOf (NewBusinessError "PROFILE_HARD_DELETE_FAILED" "failed to hard delete profile")
      = .BusinessError := by
  decide

/-! ## C16 - what a status update writes -/

/-- C16 (counterexample). `UpdateStatus(1, suspended)` at time 200 on the record of `alice`,
whose user-driven update timestamp is 100, returns nil and leaves that timestamp at 200: the
statement assigns `updated_by_user_at` as well. -/
theorem C16_update_status_rewrites_user_timestamp :
    (UpdateStatus (demoStore [demoProfile .StatusActivated 0] []) ⟨200, none⟩ 1
        .StatusSuspended).1 = none ∧
    (demoStore [demoProfile .StatusActivated 0] []).platform_profiles.map
        (fun r => r.UpdatedByUserAt) = [100] ∧
    (UpdateStatus (demoStore [demoProfile .StatusActivated 0] []) ⟨200, none⟩ 1
        .StatusSuspended).2.platform_profiles.map (fun r => r.UpdatedByUserAt) = [200] := by
  decide

/-- C16 (amended). For every store with an active record for `id`, every status and every
call the driver runs without failure, `UpdateStatus` returns nil and, row by row of the active
table: id, username, email, password hash, verification and last-login timestamps,
failed-login counter and creation timestamp are unchanged; a row with the id gets the new
status and both update timestamps, user-driven and system-driven, set to the time of the
call; a row with another id is unchanged.  The other tables are unchanged. -/
theorem C16_update_status_writes_status_and_both_timestamps (s : Store) (c : EngineCall)
    (id : UUID) (status : Status)
    (hrow : ∃ r ∈ s.platform_profiles, r.ID = id) (hc : c.failure = none) :
    (UpdateStatus s c id status).1 = none ∧
    List.Forall₂
      (fun old new : PlatformProfile =>
        new.ID = old.ID ∧ new.Username = old.Username ∧ new.Email = old.Email ∧
        new.PasswordHash = old.PasswordHash ∧ new.VerifiedAt = old.VerifiedAt ∧
        new.LastLoginAt = old.LastLoginAt ∧
        new.FailedLoginAttempts = old.FailedLoginAttempts ∧ new.CreatedAt = old.CreatedAt ∧
        (old.ID = id → new.Status = status ∧ new.UpdatedByUserAt = c.now ∧
          new.UpdatedBySystemAt = c.now) ∧
        (old.ID ≠ id → new = old))
      s.platform_profiles (UpdateStatus s c id status).2.platform_profiles ∧
    (UpdateStatus s c id status).2.deleted_profiles = s.deleted_profiles ∧
    (UpdateStatus s c id status).2.password_reset_tokens = s.password_reset_tokens ∧
    (UpdateStatus s c id status).2.profile_preferences = s.profile_preferences ∧
    (UpdateStatus s c id status).2.profile_roles = s.profile_roles := by
  obtain ⟨r, hr, hrid⟩ := hrow
  have hrows : rowsAffected (fun r : PlatformProfile => r.ID == id) s.platform_profiles ≠ 0 :=
    rowsAffected_ne_zero _ _ r hr (by simp [hrid])
  unfold UpdateStatus
  simp only [hc, hrows, if_false]
  refine ⟨trivial, ?_, trivial, trivial, trivial, trivial⟩
  unfold updateWhere
  rw [List.forall₂_map_right_iff, List.forall₂_same]
  intro x _
  by_cases hx : x.ID = id
  · simp [hx]
  · simp [hx]

/-- C16 (amended) at a concrete input: `alice` is suspended at time 200. -/
theorem C16_update_status_writes_status_and_both_timestamps_witness :
    (UpdateStatus (demoStore [demoProfile .StatusActivated 0] []) ⟨200, none⟩ 1
        .StatusSuspended).1 = none ∧
    List.Forall₂
      (fun old new : PlatformProfile =>
        new.ID = old.ID ∧ new.Username = old.Username ∧ new.Email = old.Email ∧
        new.PasswordHash = old.PasswordHash ∧ new.VerifiedAt = old.VerifiedAt ∧
        new.LastLoginAt = old.LastLoginAt ∧
        new.FailedLoginAttempts = old.FailedLoginAttempts ∧ new.CreatedAt = old.CreatedAt ∧
        (old.ID = 1 → new.Status = .StatusSuspended ∧ new.UpdatedByUserAt = 200 ∧
          new.UpdatedBySystemAt = 200) ∧
        (old.ID ≠ 1 → new = old))
      (demoStore [demoProfile .StatusActivated 0] []).platform_profiles
      (UpdateStatus (demoStore [demoProfile .StatusActivated 0] []) ⟨200, none⟩ 1
        .StatusSuspended).2.platform_profiles ∧
    (UpdateStatus (demoStore [demoProfile .StatusActivated 0] []) ⟨200, none⟩ 1
        .StatusSuspended).2.deleted_profiles = [] ∧
    (UpdateStatus (demoStore [demoProfile .StatusActivated 0] []) ⟨200, none⟩ 1
        .StatusSuspended).2.password_reset_tokens = [] ∧
    (UpdateStatus (demoStore [demoProfile .StatusActivated 0] []) ⟨200, none⟩ 1
        .StatusSuspended).2.profile_preferences = [] ∧
    (UpdateStatus (demoStore [demoProfile .StatusActivated 0] []) ⟨200, none⟩ 1
        .StatusSuspended).2.profile_roles = [] :=
  C16_update_status_writes_status_and_both_timestamps
    (demoStore [demoProfile .StatusActivated 0] []) ⟨200, none⟩ 1 .StatusSuspended
    ⟨demoProfile .StatusActivated 0, by decide, rfl⟩ rfl

/-! ## C17 - C19 - registration -/

/-- The PostgreSQL `CreateProfile` returns an error on every store, for every driver outcome
and every profile, and leaves the store as it was: its `INSERT` names 11 target columns and
lists 12 value expressions. -/
theorem CreateProfile_always_fails (s : Store) (engine : Option String)
    (profile : PlatformProfile) :
    ∃ err, CreateProfile s engine profile = (.error err, s) := by
  unfold CreateProfile
  cases engine with
  | some e => exact ⟨_, rfl⟩
  | none => exact ⟨_, rfl⟩

/-- C17 (the code at the failing input). The active table is empty, every driver call and the
role service succeed, and `bob` registers.  The `INSERT` of `CreateProfile` names 11 columns
and lists 12 placeholders, so the repository call fails: `RegisterProfile` returns the
business error `PROFILE_CREATION_FAILED` and the store holds no record afterwards. -/
theorem C17_registration_fails_in_create_profile :
    RegisterProfile (NewPostgresProfileRepository (demoRegisterEngine 300 none none)) demoBcrypt
        (demoRegisterWorld (.ok 5)) (demoStore [] []) demoRegistration
      = (.error (NewBusinessError "PROFILE_CREATION_FAILED" "failed to create profile"),
         demoStore [] []) ∧
    CreateProfile.columns.length = 11 ∧
    CreateProfile.values.length = 12 :=
  ⟨rfl, rfl, rfl⟩

/-- C18. For every registration request whose username or email some active row already
carries, the two existence checks running without a driver failure, `RegisterProfile` over
the PostgreSQL repository returns an error of kind `Conflict` and leaves the whole store,
so the active table, the preferences and the role associations, as it was. -/
theorem C18_taken_username_or_email_is_a_conflict (e : RegisterEngine) (bc : Bcrypt)
    (w : RegisterWorld) (s : Store) (req : CreateProfileRequest)
    (htaken : ∃ r ∈ s.platform_profiles, r.Username = req.Username ∨ r.Email = req.Email)
    (he : e.usernameExists = none ∧ e.emailExists = none) :
    (∃ err, (RegisterProfile (NewPostgresProfileRepository e) bc w s req).1 = .error err ∧
        ErrorTypeOf err = .ConflictError) ∧
    (RegisterProfile (NewPostgresProfileRepository e) bc w s req).2 = s := by
  obtain ⟨r, hr, hru⟩ := htaken
  unfold RegisterProfile NewPostgresProfileRepository UsernameExists EmailExists
  simp only [he.1, he.2, Option.filter]
  by_cases hu : s.platform_profiles.any (fun r => r.Username == req.Username) = true
  · simp only [hu, if_true]
    exact ⟨⟨_, rfl, rfl⟩, trivial⟩
  · have hem : s.platform_profiles.any (fun r => r.Email == req.Email) = true := by
      rw [List.any_eq_true]
      rcases hru with h | h
      · exact absurd (List.any_eq_true.mpr ⟨r, hr, by simp [h]⟩) hu
      · exact ⟨r, hr, by simp [h]⟩
    simp only [hu, hem, if_true, Bool.false_eq_true, if_false]
    exact ⟨⟨_, rfl, rfl⟩, trivial⟩

/-- C18 at a concrete input: with `alice` stored, a registration reuses her email under a new
username. -/
theorem C18_taken_username_or_email_is_a_conflict_witness :
    (∃ err, (RegisterProfile (NewPostgresProfileRepository (demoRegisterEngine 300 none none))
        demoBcrypt (demoRegisterWorld (.ok 5)) (demoStore [demoProfile .StatusActivated 0] [])
        ⟨"alice2", "alice@example.org", "hunter22"⟩).1 = .error err ∧
        ErrorTypeOf err = .ConflictError) ∧
    (RegisterProfile (NewPostgresProfileRepository (demoRegisterEngine 300 none none))
        demoBcrypt (demoRegisterWorld (.ok 5)) (demoStore [demoProfile .StatusActivated 0] [])
        ⟨"alice2", "alice@example.org", "hunter22"⟩).2
      = demoStore [demoProfile .StatusActivated 0] [] :=
  C18_taken_username_or_email_is_a_conflict (demoRegisterEngine 300 none none) demoBcrypt
    (demoRegisterWorld (.ok 5)) (demoStore [demoProfile .StatusActivated 0] [])
    ⟨"alice2", "alice@example.org", "hunter22"⟩
    ⟨demoProfile .StatusActivated 0, by decide, Or.inr rfl⟩ ⟨rfl, rfl⟩

/-- C19 (the code at the failing input). `RegisterProfile` runs over a repository whose
`CreateProfile` stores the row and returns nil.  When the role service fails to name a
default role, and likewise when the role assignment fails, the call returns an error of kind
`DatabaseError` ("transaction commit") although `bob` is in the active table; only a failure
of the preference write is tolerated, and the profile is then returned. -/
theorem C19_role_failure_fails_registration :
    (RegisterProfile (demoRepository (demoRegisterEngine 300 none none)) demoBcrypt
        (demoRegisterWorld (.error (.errorsNew "role not found")))
        (demoStore [] []) demoRegistration).1
      = .error (NewDatabaseError "transaction commit" (.errorsNew "role not found")) ∧
    (RegisterProfile (demoRepository (demoRegisterEngine 300 none none)) demoBcrypt
        (demoRegisterWorld (.error (.errorsNew "role not found")))
        (demoStore [] []) demoRegistration).2.platform_profiles.map (fun r => r.Username)
      = ["bob"] ∧
    (RegisterProfile (demoRepository (demoRegisterEngine 300 none (some "connection lost")))
        demoBcrypt (demoRegisterWorld (.ok 5)) (demoStore [] []) demoRegistration).1
      = .error (NewDatabaseError "transaction commit"
          (.fmtErrorf "failed to assign role to profile" (.driverError "connection lost"))) ∧
    (RegisterProfile (demoRepository (demoRegisterEngine 300 none (some "connection lost")))
        demoBcrypt (demoRegisterWorld (.ok 5)) (demoStore [] [])
        demoRegistration).2.platform_profiles.map (fun r => r.Username)
      = ["bob"] ∧
    (∃ profile, (RegisterProfile (demoRepository (demoRegisterEngine 300
        (some "connection lost") none)) demoBcrypt (demoRegisterWorld (.ok 5))
        (demoStore [] []) demoRegistration).1 = .ok profile ∧ profile.Username = "bob") :=
  ⟨rfl, by decide, rfl, by decide, ⟨_, rfl, rfl⟩⟩

/-! ## C20 - which methods blank the hash -/

/-- C20 (the code at the failing input). The archive holds `alice` with a stored hash.
`GetSoftDeletedProfile`, by email or by username, returns nil error and the archive row as
read, hash included, while `GetProfile` on the same record in the active table returns it
with the hash blanked. -/
theorem C20_soft_deleted_profile_is_returned_with_its_hash :
    GetSoftDeletedProfile (demoArchiveStore []) none none "map[email:0x1 username:<nil>]"
        ⟨none, some "alice@example.org"⟩
      = .ok (demoProfile .StatusActivated 0) ∧
    GetSoftDeletedProfile (demoArchiveStore []) none none "map[email:<nil> username:0x1]"
        ⟨some "alice", none⟩
      = .ok (demoProfile .StatusActivated 0) ∧
    (demoProfile .StatusActivated 0).PasswordHash = "$2a$secret" ∧
    (GetProfile (demoStore [demoProfile .StatusActivated 0] []) none
        ⟨none, some "alice", none⟩).map (fun r => r.PasswordHash) = .ok "" :=
  ⟨rfl, rfl, rfl, rfl⟩

/-! ## C21 - which errors reach the caller unclassified -/

/-- C21 (the code at the failing input). On an empty store, with the driver running every
statement, `GetProfile`, `UpdateProfile` and `ChangePassword` for id 1 each return the store's
sentinel `ErrProfileNotFound` itself, which is no `*DomainError`; and when the driver fails,
`GetProfile` returns the repository's wrapped driver error, no `*DomainError` either. -/
theorem C21_lookup_failure_is_returned_raw :
    GetProfile (demoStore [] []) none ⟨some 1, none, none⟩ = .error ErrProfileNotFound ∧
    (service.UpdateProfile (demoUpdateWorld 300) (demoStore [] []) 1 ⟨some "carol", none⟩).1
      = .error ErrProfileNotFound ∧
    (ChangePassword demoBcrypt (demoChangePasswordWorld 300) (demoStore [] []) 1
        ⟨"secret", "fresh"⟩).1 = some ErrProfileNotFound ∧
    IsDomainError ErrProfileNotFound = false ∧
    GetProfile (demoStore [] []) (some "connection lost") ⟨some 1, none, none⟩
      = .error (.fmtErrorf "failed to get profile by ID" (.driverError "connection lost")) ∧
    IsDomainError (.fmtErrorf "failed to get profile by ID" (.driverError "connection lost"))
      = false :=
  ⟨rfl, rfl, rfl, rfl, rfl, rfl⟩

/-! ## C27 - the success path of `RestoreProfile` -/

/-- C27 (the code at the failing input). The archive holds `alice` and the active table is
empty.  The store's `RestoreSoftDeletedProfile(1)` returns nil and moves the row back; the
service's `RestoreProfile(1)` then evaluates `profile.ID` on its never-assigned pointer and
panics instead of returning. -/
theorem C27_restore_profile_panics_after_a_successful_restore :
    RestoreSoftDeletedProfile (demoArchiveStore []) demoRestoreCall 1
      = (none, demoStore [demoProfile .StatusActivated 0] []) ∧
    RestoreProfile (demoArchiveStore []) demoRestoreCall 1
      = (.panics "runtime error: invalid memory address or nil pointer dereference",
         demoStore [demoProfile .StatusActivated 0] []) := by
  decide

/-- Whenever the store's restore returns nil, the service's `RestoreProfile` panics. -/
theorem RestoreProfile_panics_on_success (s : Store) (c : RestoreCall) (id : UUID)
    (h : (RestoreSoftDeletedProfile s c id).1 = none) :
    (RestoreProfile s c id).1
      = .panics "runtime error: invalid memory address or nil pointer dereference" := by
  unfold RestoreProfile
  cases hr : RestoreSoftDeletedProfile s c id with
  | mk err s1 =>
    rw [hr] at h
    simp only at h
    subst h
    rfl

/-! ## C28 - a pending login whose activation write fails -/

/-- An `UPDATE` that leaves username, email and status alone does not change the status the
login lookup reads. -/
theorem lookupProfile_updateWhere_status (s : Store) (req : LoginRequest)
    (cond : PlatformProfile → Bool) (set : PlatformProfile → PlatformProfile)
    (hu : ∀ r, (set r).Username = r.Username) (he : ∀ r, (set r).Email = r.Email)
    (hs : ∀ r, (set r).Status = r.Status) :
    (lookupProfile { s with platform_profiles := updateWhere cond set s.platform_profiles }
        req).map (fun q => q.Status)
      = (lookupProfile s req).map (fun q => q.Status) := by
  rw [lookupProfile_updateWhere s req cond set hu he]
  cases lookupProfile s req with
  | none => rfl
  | some r =>
    by_cases h : cond r = true <;> simp [h, hs]

/-- Whatever its outcome, `ResetFailedLoginAttempts` leaves the status the lookup reads. -/
theorem lookup_status_ResetFailedLoginAttempts (s : Store) (c : EngineCall) (id : UUID)
    (req : LoginRequest) :
    (lookupProfile (ResetFailedLoginAttempts s c id).2 req).map (fun q => q.Status)
      = (lookupProfile s req).map (fun q => q.Status) := by
  unfold ResetFailedLoginAttempts
  cases c.failure with
  | some e => rfl
  | none =>
    simp only
    split_ifs
    · rfl
    · exact lookupProfile_updateWhere_status s req _ _ (fun r => rfl) (fun r => rfl)
        (fun r => rfl)

/-- Whatever its outcome, `RecordLogin` leaves the status the lookup reads. -/
theorem lookup_status_RecordLogin (s : Store) (c : EngineCall) (id : UUID)
    (req : LoginRequest) :
    (lookupProfile (RecordLogin s c id).2 req).map (fun q => q.Status)
      = (lookupProfile s req).map (fun q => q.Status) := by
  unfold RecordLogin
  cases c.failure with
  | some e => rfl
  | none =>
    simp only
    split_ifs
    · rfl
    · exact lookupProfile_updateWhere_status s req _ _ (fun r => rfl) (fun r => rfl)
        (fun r => rfl)

/-- An `UpdateStatus` call the driver fails leaves the store as it was. -/
theorem UpdateStatus_driver_failure (s : Store) (c : EngineCall) (id : UUID) (status : Status)
    (e : String) (h : c.failure = some e) : (UpdateStatus s c id status).2 = s := by
  unfold UpdateStatus
  rw [h]

/-- C28. For a profile found by the login lookup with stored status `pending` and a password
the stored hash accepts, when the driver fails the `UpdateStatus` call that would activate
the account (whatever the outcome of the counter reset and of the login record),
`AuthenticateProfile` still returns the profile with no error and with status `activated`,
while the row the lookup then reads still has status `pending`. -/
theorem C28_returned_status_activated_while_stored_pending (bc : Bcrypt) (w : AuthWorld)
    (s : Store) (req : LoginRequest) (p : PlatformProfile) (e : String)
    (hfound : lookupProfile s req = some p)
    (hstatus : p.Status = .StatusPending)
    (hlookup : w.lookup.failure = none)
    (hfail : w.activate.failure = some e)
    (hpw : bc.CompareHashAndPassword p.PasswordHash req.Password = true) :
    (∃ q, (AuthenticateProfile bc w s req).1 = .ok q ∧ q.ID = p.ID ∧
        q.Status = .StatusActivated) ∧
    (lookupProfile (AuthenticateProfile bc w s req).2 req).map (fun q => q.Status)
      = some .StatusPending := by
  have hd : p.Status ≠ .StatusDeactivated := by rw [hstatus]; decide
  have hs : p.Status ≠ .StatusSuspended := by rw [hstatus]; decide
  unfold AuthenticateProfile
  rw [found_of_lookupProfile _ hlookup hfound]
  simp only [hd, hs, or_self, if_false, hpw, Bool.true_eq_false]
  rw [if_pos hstatus]
  refine ⟨⟨_, rfl, rfl, rfl⟩, ?_⟩
  simp only []
  rw [UpdateStatus_driver_failure _ _ _ _ e hfail, lookup_status_RecordLogin]
  split_ifs
  · rw [lookup_status_ResetFailedLoginAttempts, hfound]
    simp [hstatus]
  · rw [hfound]
    simp [hstatus]

/-- C28 at a concrete input: the pending user `alice` logs in with her password while the
activating write fails. -/
theorem C28_returned_status_activated_while_stored_pending_witness :
    (∃ q, (AuthenticateProfile demoBcrypt
        { demoAuthWorld 200 with activate := ⟨200, some "connection lost"⟩ }
        (demoStore [demoProfile .StatusPending 0] []) ⟨"alice", "", "secret"⟩).1 = .ok q ∧
        q.ID = (demoProfile .StatusPending 0).ID ∧ q.Status = .StatusActivated) ∧
    (lookupProfile (AuthenticateProfile demoBcrypt
        { demoAuthWorld 200 with activate := ⟨200, some "connection lost"⟩ }
        (demoStore [demoProfile .StatusPending 0] []) ⟨"alice", "", "secret"⟩).2
        ⟨"alice", "", "secret"⟩).map (fun q => q.Status) = some .StatusPending :=
  C28_returned_status_activated_while_stored_pending demoBcrypt
    { demoAuthWorld 200 with activate := ⟨200, some "connection lost"⟩ }
    (demoStore [demoProfile .StatusPending 0] []) ⟨"alice", "", "secret"⟩
    (demoProfile .StatusPending 0) "connection lost" (by decide) rfl rfl rfl (by decide)

/-! ## C29 - reactivation after a lockout -/

/-- C22 (the claim at the failing input). `alice` is stored with the hash of `secret`; she
supplies `secret` as current password and a new password of 73 bytes, and every store call
would succeed.  The bcrypt library refuses a password of more than 72 bytes, so
`ChangePassword` returns the business error `PASSWORD_HASHING_FAILED` and the store, with it
the hash of `secret`, is left as it was: the call does not succeed. -/
theorem C22_change_password_fails_when_bcrypt_refuses :
    GetProfileByID (demoStore [demoProfile .StatusActivated 0] [])
        (demoChangePasswordWorld 300).fetch 1 = .ok (demoProfile .StatusActivated 0) ∧
    demoBcrypt72.CompareHashAndPassword (demoProfile .StatusActivated 0).PasswordHash "secret"
      = true ∧
    "secret" ≠ demoLongPassword ∧
    demoLongPassword.utf8ByteSize = 73 ∧
    (demoChangePasswordWorld 300).update.failure = none ∧
    ChangePassword demoBcrypt72 (demoChangePasswordWorld 300)
        (demoStore [demoProfile .StatusActivated 0] []) 1 ⟨"secret", demoLongPassword⟩
      = (some (NewBusinessError "PASSWORD_HASHING_FAILED" "failed to update password"),
         demoStore [demoProfile .StatusActivated 0] []) ∧
    demoBcrypt72.CompareHashAndPassword (demoProfile .StatusActivated 0).PasswordHash
      demoLongPassword = false := by
  refine ⟨rfl, by decide, by decide, by decide, rfl, by decide, by decide⟩

/-- C22 (amended). Let a read by id, run by the driver, find the profile `p`.
`ChangePassword` returns an error of kind `Unauthorized` when the stored hash rejects the
supplied current password, and one of kind `ValidationError` when the hash accepts it and the
new password equals it; in both cases the store is left as it was.  Otherwise, when bcrypt
refuses to hash the new password, it returns an error of kind `BusinessError` and the store
is left as it was; and when hashing the new password yields `h` and the driver runs the
update, it returns nil and a read by id then shows the hash `h`, which verifies against the
new password whenever the bcrypt library accepts what it generated. -/
theorem C22_change_password_outcomes (bc : Bcrypt) (w : ChangePasswordWorld) (s : Store)
    (id : UUID) (req : PasswordChangeRequest) (p : PlatformProfile)
    (hfetch : w.fetch = none)
    (hp : s.platform_profiles.find? (fun r => r.ID == id) = some p) :
    (bc.CompareHashAndPassword p.PasswordHash req.CurrentPassword = false →
      (∃ e, (ChangePassword bc w s id req).1 = some e ∧ ErrorTypeOf e = .UnauthorizedError) ∧
      (ChangePassword bc w s id req).2 = s) ∧
    (bc.CompareHashAndPassword p.PasswordHash req.CurrentPassword = true →
      req.CurrentPassword = req.NewPassword →
      (∃ e, (ChangePassword bc w s id req).1 = some e ∧ ErrorTypeOf e = .ValidationError) ∧
      (ChangePassword bc w s id req).2 = s) ∧
    (bc.CompareHashAndPassword p.PasswordHash req.CurrentPassword = true →
      req.CurrentPassword ≠ req.NewPassword →
      ∀ h, bc.GenerateFromPassword req.NewPassword DefaultCost w.entropy = some h →
      w.update.failure = none →
      (ChangePassword bc w s id req).1 = none ∧
      (∃ q, GetProfileByID (ChangePassword bc w s id req).2 none id = .ok q ∧
        q.PasswordHash = h) ∧
      (bc.CompareHashAndPassword h req.NewPassword = true →
        ∃ q, GetProfileByID (ChangePassword bc w s id req).2 none id = .ok q ∧
          bc.CompareHashAndPassword q.PasswordHash req.NewPassword = true)) ∧
    (bc.CompareHashAndPassword p.PasswordHash req.CurrentPassword = true →
      req.CurrentPassword ≠ req.NewPassword →
      bc.GenerateFromPassword req.NewPassword DefaultCost w.entropy = none →
      (∃ e, (ChangePassword bc w s id req).1 = some e ∧ ErrorTypeOf e = .BusinessError) ∧
      (ChangePassword bc w s id req).2 = s) := by
  have hget : GetProfileByID s w.fetch id = .ok p := by
    unfold GetProfileByID
    simp only [hfetch, hp]
  have hmem := List.mem_of_find?_eq_some hp
  have hpid : p.ID = id := by simpa using List.find?_some hp
  have hrows : rowsAffected (fun r : PlatformProfile => r.ID == id) s.platform_profiles ≠ 0 :=
    rowsAffected_ne_zero _ _ p hmem (by simp [hpid])
  refine ⟨?_, ?_, ?_, ?_⟩
  · intro hbad
    unfold ChangePassword
    simp only [hget, hbad, if_true]
    exact ⟨⟨_, rfl, rfl⟩, trivial⟩
  · intro hgood hsame
    unfold ChangePassword
    simp only [hget, hgood, Bool.true_eq_false, if_false]
    rw [if_pos hsame]
    exact ⟨⟨_, rfl, rfl⟩, rfl⟩
  · intro hgood hdiff h hhash hupd
    have hres : ChangePassword bc w s id req
        = (none, { s with
            platform_profiles := updateWhere (fun r => r.ID == id)
              (fun r => { r with PasswordHash := h, UpdatedByUserAt := w.update.now,
                                 UpdatedBySystemAt := w.update.now })
              s.platform_profiles }) := by
      unfold ChangePassword UpdatePassword
      simp only [hget, hgood, Bool.true_eq_false, if_false, hdiff, hhash, hupd, hrows]
    have hread : GetProfileByID (ChangePassword bc w s id req).2 none id
        = .ok { p with PasswordHash := h, UpdatedByUserAt := w.update.now,
                       UpdatedBySystemAt := w.update.now } := by
      rw [hres]
      unfold GetProfileByID
      simp only []
      rw [find?_id_updateWhere _ _ _ (fun r => by rfl), hp]
      rfl
    refine ⟨by rw [hres], ⟨_, hread, rfl⟩, fun hlaw => ⟨_, hread, hlaw⟩⟩
  · intro hgood hdiff hrefused
    unfold ChangePassword
    simp only [hget, hgood, Bool.true_eq_false, if_false, hdiff, hrefused]
    exact ⟨⟨_, rfl, rfl⟩, trivial⟩

/-- C22 at concrete inputs: `alice` (password `secret`) supplies a wrong current password,
then repeats her current password as the new one, then changes it to `fresh`, then asks for
a new password of 73 bytes, which bcrypt refuses. -/
theorem C22_change_password_outcomes_witness :
    ((∃ e, (ChangePassword demoBcrypt (demoChangePasswordWorld 300)
        (demoStore [demoProfile .StatusActivated 0] []) 1 ⟨"bad", "fresh"⟩).1 = some e ∧
        ErrorTypeOf e = .UnauthorizedError) ∧
      (ChangePassword demoBcrypt (demoChangePasswordWorld 300)
        (demoStore [demoProfile .StatusActivated 0] []) 1 ⟨"bad", "fresh"⟩).2
        = demoStore [demoProfile .StatusActivated 0] []) ∧
    ((∃ e, (ChangePassword demoBcrypt (demoChangePasswordWorld 300)
        (demoStore [demoProfile .StatusActivated 0] []) 1 ⟨"secret", "secret"⟩).1 = some e ∧
        ErrorTypeOf e = .ValidationError) ∧
      (ChangePassword demoBcrypt (demoChangePasswordWorld 300)
        (demoStore [demoProfile .StatusActivated 0] []) 1 ⟨"secret", "secret"⟩).2
        = demoStore [demoProfile .StatusActivated 0] []) ∧
    ((ChangePassword demoBcrypt (demoChangePasswordWorld 300)
        (demoStore [demoProfile .StatusActivated 0] []) 1 ⟨"secret", "fresh"⟩).1 = none ∧
      (∃ q, GetProfileByID (ChangePassword demoBcrypt (demoChangePasswordWorld 300)
        (demoStore [demoProfile .StatusActivated 0] []) 1 ⟨"secret", "fresh"⟩).2 none 1
          = .ok q ∧ q.PasswordHash = "$2a$fresh") ∧
      (∃ q, GetProfileByID (ChangePassword demoBcrypt (demoChangePasswordWorld 300)
        (demoStore [demoProfile .StatusActivated 0] []) 1 ⟨"secret", "fresh"⟩).2 none 1
          = .ok q ∧ demoBcrypt.CompareHashAndPassword q.PasswordHash "fresh" = true)) ∧
    ((∃ e, (ChangePassword demoBcrypt72 (demoChangePasswordWorld 300)
        (demoStore [demoProfile .StatusActivated 0] []) 1 ⟨"secret", demoLongPassword⟩).1
          = some e ∧ ErrorTypeOf e = .BusinessError) ∧
      (ChangePassword demoBcrypt72 (demoChangePasswordWorld 300)
        (demoStore [demoProfile .StatusActivated 0] []) 1 ⟨"secret", demoLongPassword⟩).2
        = demoStore [demoProfile .StatusActivated 0] []) :=
  ⟨(C22_change_password_outcomes demoBcrypt (demoChangePasswordWorld 300)
      (demoStore [demoProfile .StatusActivated 0] []) 1 ⟨"bad", "fresh"⟩
      (demoProfile .StatusActivated 0) rfl (by decide)).1 (by decide),
   (C22_change_password_outcomes demoBcrypt (demoChangePasswordWorld 300)
      (demoStore [demoProfile .StatusActivated 0] []) 1 ⟨"secret", "secret"⟩
      (demoProfile .StatusActivated 0) rfl (by decide)).2.1 (by decide) rfl,
   ⟨((C22_change_password_outcomes demoBcrypt (demoChangePasswordWorld 300)
      (demoStore [demoProfile .StatusActivated 0] []) 1 ⟨"secret", "fresh"⟩
      (demoProfile .StatusActivated 0) rfl (by decide)).2.2.1 (by decide) (by decide)
      "$2a$fresh" rfl rfl).1,
    ((C22_change_password_outcomes demoBcrypt (demoChangePasswordWorld 300)
      (demoStore [demoProfile .StatusActivated 0] []) 1 ⟨"secret", "fresh"⟩
      (demoProfile .StatusActivated 0) rfl (by decide)).2.2.1 (by decide) (by decide)
      "$2a$fresh" rfl rfl).2.1,
    ((C22_change_password_outcomes demoBcrypt (demoChangePasswordWorld 300)
      (demoStore [demoProfile .StatusActivated 0] []) 1 ⟨"secret", "fresh"⟩
      (demoProfile .StatusActivated 0) rfl (by decide)).2.2.1 (by decide) (by decide)
      "$2a$fresh" rfl rfl).2.2 (by decide)⟩,
   (C22_change_password_outcomes demoBcrypt72 (demoChangePasswordWorld 300)
      (demoStore [demoProfile .StatusActivated 0] []) 1 ⟨"secret", demoLongPassword⟩
      (demoProfile .StatusActivated 0) rfl (by decide)).2.2.2 (by decide) (by decide)
      (by decide)⟩

/-! ## C25 - uniqueness of usernames and emails among active profiles -/

theorem SameNames.refl (s : Store) : SameNames s s := ⟨rfl, rfl⟩

theorem SameNames.trans {a b c : Store} (h1 : SameNames a b) (h2 : SameNames b c) :
    SameNames a c := ⟨h2.1.trans h1.1, h2.2.trans h1.2⟩

theorem UniqueNames.of_sameNames {s s' : Store} (h : UniqueNames s) (hs : SameNames s s') :
    UniqueNames s' := by
  unfold UniqueNames
  rw [hs.1, hs.2]
  exact h

/-- A store that differs in its active table by an `UPDATE` leaving usernames and emails
alone carries the same names. -/
theorem SameNames.of_updateWhere (s s' : Store)
    (cond : PlatformProfile → Bool) (set : PlatformProfile → PlatformProfile)
    (hs : s'.platform_profiles = updateWhere cond set s.platform_profiles)
    (hu : ∀ r, (set r).Username = r.Username) (he : ∀ r, (set r).Email = r.Email) :
    SameNames s s' := by
  unfold SameNames
  rw [hs]
  unfold updateWhere
  simp only [List.map_map]
  constructor
  · apply List.map_congr_left
    intro r _
    by_cases h : cond r = true <;> simp [h, hu]
  · apply List.map_congr_left
    intro r _
    by_cases h : cond r = true <;> simp [h, he]

theorem SameNames.after_UpdateStatus {a s : Store} (c : EngineCall) (id : UUID)
    (status : Status) (h : SameNames a s) : SameNames a (UpdateStatus s c id status).2 := by
  refine h.trans ?_
  unfold UpdateStatus
  cases c.failure with
  | some e => exact SameNames.refl s
  | none =>
    simp only
    split_ifs
    · exact SameNames.refl s
    · exact SameNames.of_updateWhere s _ _ _ rfl (fun r => rfl) (fun r => rfl)

theorem SameNames.after_UpdatePassword {a s : Store} (c : EngineCall) (id : UUID)
    (hash : String) (h : SameNames a s) : SameNames a (UpdatePassword s c id hash).2 := by
  refine h.trans ?_
  unfold UpdatePassword
  cases c.failure with
  | some e => exact SameNames.refl s
  | none =>
    simp only
    split_ifs
    · exact SameNames.refl s
    · exact SameNames.of_updateWhere s _ _ _ rfl (fun r => rfl) (fun r => rfl)

theorem SameNames.after_RecordLogin {a s : Store} (c : EngineCall) (id : UUID)
    (h : SameNames a s) : SameNames a (RecordLogin s c id).2 := by
  refine h.trans ?_
  unfold RecordLogin
  cases c.failure with
  | some e => exact SameNames.refl s
  | none =>
    simp only
    split_ifs
    · exact SameNames.refl s
    · exact SameNames.of_updateWhere s _ _ _ rfl (fun r => rfl) (fun r => rfl)

theorem SameNames.after_IncrementFailedLoginAttempts {a s : Store} (c : EngineCall)
    (id : UUID) (h : SameNames a s) :
    SameNames a (IncrementFailedLoginAttempts s c id).2 := by
  refine h.trans ?_
  unfold IncrementFailedLoginAttempts
  cases c.failure with
  | some e => exact SameNames.refl s
  | none =>
    simp only
    split_ifs
    · exact SameNames.refl s
    · exact SameNames.of_updateWhere s _ _ _ rfl (fun r => rfl) (fun r => rfl)

theorem SameNames.after_ResetFailedLoginAttempts {a s : Store} (c : EngineCall)
    (id : UUID) (h : SameNames a s) :
    SameNames a (ResetFailedLoginAttempts s c id).2 := by
  refine h.trans ?_
  unfold ResetFailedLoginAttempts
  cases c.failure with
  | some e => exact SameNames.refl s
  | none =>
    simp only
    split_ifs
    · exact SameNames.refl s
    · exact SameNames.of_updateWhere s _ _ _ rfl (fun r => rfl) (fun r => rfl)

theorem SameNames.after_VerifyProfile {a s : Store} (c : EngineCall) (id : UUID)
    (h : SameNames a s) : SameNames a (VerifyProfile s c id).2 := by
  refine h.trans ?_
  unfold VerifyProfile
  cases c.failure with
  | some e => exact SameNames.refl s
  | none =>
    simp only
    split_ifs
    · exact SameNames.refl s
    · exact SameNames.of_updateWhere s _ _ _ rfl (fun r => rfl) (fun r => rfl)

theorem SameNames.after_CreatePasswordResetToken {a s : Store} (engine : Option String)
    (token : PasswordResetToken) (h : SameNames a s) :
    SameNames a (CreatePasswordResetToken s engine token).2 := by
  refine h.trans ?_
  unfold CreatePasswordResetToken
  cases engine <;> exact ⟨rfl, rfl⟩

theorem SameNames.after_MarkPasswordResetTokenUsed {a s : Store} (engine : Option String)
    (token : String) (h : SameNames a s) :
    SameNames a (MarkPasswordResetTokenUsed s engine token).2 := by
  refine h.trans ?_
  unfold SameNames
  rw [MarkPasswordResetTokenUsed_platform_profiles]
  exact ⟨rfl, rfl⟩

theorem SameNames.after_DeleteOtherPasswordResetTokens {a s : Store}
    (engine : Option String) (id : UUID) (h : SameNames a s) :
    SameNames a (DeleteOtherPasswordResetTokens s engine id).2 := by
  refine h.trans ?_
  unfold DeleteOtherPasswordResetTokens
  cases engine <;> exact ⟨rfl, rfl⟩

theorem SameNames.after_HardDeleteProfile {a s : Store} (engine : Option String) (id : UUID)
    (h : SameNames a s) : SameNames a (HardDeleteProfile s engine id).2 := by
  refine h.trans ?_
  unfold HardDeleteProfile
  cases engine with
  | some e => exact SameNames.refl s
  | none =>
    simp only
    split_ifs <;> exact ⟨rfl, rfl⟩

theorem SameNames.of_AuthenticateProfile (bc : Bcrypt) (w : AuthWorld) (s : Store)
    (req : LoginRequest) : SameNames s (AuthenticateProfile bc w s req).2 := by
  unfold AuthenticateProfile
  simp only []
  repeat' split
  all_goals
    repeat
      first
      | exact SameNames.refl _
      | apply SameNames.after_UpdateStatus
      | apply SameNames.after_RecordLogin
      | apply SameNames.after_IncrementFailedLoginAttempts
      | apply SameNames.after_ResetFailedLoginAttempts

theorem SameNames.of_UpdatePassword_eq {s s1 : Store} {r : Option GoError} {c : EngineCall}
    {id : UUID} {hash : String} (h : UpdatePassword s c id hash = (r, s1)) :
    SameNames s s1 := by
  have key := SameNames.after_UpdatePassword c id hash (SameNames.refl s)
  rw [h] at key
  exact key

theorem SameNames.of_CreatePasswordResetToken_eq {s s1 : Store} {r : Option GoError}
    {engine : Option String} {token : PasswordResetToken}
    (h : CreatePasswordResetToken s engine token = (r, s1)) : SameNames s s1 := by
  have key := SameNames.after_CreatePasswordResetToken engine token (SameNames.refl s)
  rw [h] at key
  exact key

theorem SameNames.of_ChangePassword (bc : Bcrypt) (w : ChangePasswordWorld) (s : Store)
    (id : UUID) (req : PasswordChangeRequest) :
    SameNames s (ChangePassword bc w s id req).2 := by
  unfold ChangePassword
  repeat' split
  all_goals
    first
    | exact SameNames.refl _
    | exact SameNames.of_UpdatePassword_eq (by assumption)

theorem SameNames.of_RequestPasswordReset (w : RequestWorld) (s : Store)
    (req : PasswordResetRequest) : SameNames s (RequestPasswordReset w s req).2.1 := by
  unfold RequestPasswordReset
  cases GetProfileByEmail s w.lookup req.Email with
  | error err => exact SameNames.refl s
  | ok profile =>
    cases w.token with
    | none => exact SameNames.refl s
    | some token =>
      simp only []
      cases h : CreatePasswordResetToken s w.create
          { ProfileID := profile.ID, Token := token, ExpiresAt := w.expiresNow + 1 * Hour,
            IsUsed := false, CreatedAt := w.createdNow } with
      | mk r s1 =>
        have key := SameNames.of_CreatePasswordResetToken_eq h
        cases r <;> cases w.mail <;> exact key

theorem SameNames.of_ConfirmPasswordReset (bc : Bcrypt) (w : ConfirmWorld) (s : Store)
    (req : PasswordResetConfirmation) : SameNames s (ConfirmPasswordReset bc w s req).2 := by
  unfold ConfirmPasswordReset
  repeat' split
  all_goals
    first
    | exact SameNames.refl _
    | exact SameNames.of_UpdatePassword_eq (by assumption)
    | exact SameNames.after_DeleteOtherPasswordResetTokens _ _
        (SameNames.after_MarkPasswordResetTokenUsed _ _
          (SameNames.of_UpdatePassword_eq (by assumption)))

theorem SameNames.of_UpdateStatus_eq {s s1 : Store} {r : Option GoError} {c : EngineCall}
    {id : UUID} {status : Status} (h : UpdateStatus s c id status = (r, s1)) :
    SameNames s s1 := by
  have key := SameNames.after_UpdateStatus c id status (SameNames.refl s)
  rw [h] at key
  exact key

theorem SameNames.of_VerifyProfile_eq {s s1 : Store} {r : Option GoError} {c : EngineCall}
    {id : UUID} (h : VerifyProfile s c id = (r, s1)) : SameNames s s1 := by
  have key := SameNames.after_VerifyProfile c id (SameNames.refl s)
  rw [h] at key
  exact key

theorem SameNames.of_HardDeleteProfile_eq {s s1 : Store} {r : Option GoError}
    {engine : Option String} {id : UUID} (h : HardDeleteProfile s engine id = (r, s1)) :
    SameNames s s1 := by
  have key := SameNames.after_HardDeleteProfile engine id (SameNames.refl s)
  rw [h] at key
  exact key

theorem SameNames.of_ActivateProfile (s : Store) (c : EngineCall) (id : UUID) :
    SameNames s (ActivateProfile s c id).2 := by
  unfold ActivateProfile
  repeat' split
  all_goals exact SameNames.of_UpdateStatus_eq (by assumption)

theorem SameNames.of_SuspendProfile (s : Store) (c : EngineCall) (id : UUID) :
    SameNames s (SuspendProfile s c id).2 := by
  unfold SuspendProfile
  repeat' split
  all_goals exact SameNames.of_UpdateStatus_eq (by assumption)

theorem SameNames.of_DeactivateProfile (s : Store) (c : EngineCall) (id : UUID) :
    SameNames s (DeactivateProfile s c id).2 := by
  unfold DeactivateProfile
  repeat' split
  all_goals exact SameNames.of_UpdateStatus_eq (by assumption)

theorem SameNames.of_service_VerifyProfile (s : Store) (verify activate : EngineCall)
    (id : UUID) : SameNames s (service.VerifyProfile s verify activate id).2 := by
  unfold service.VerifyProfile
  repeat' split
  all_goals
    first
    | exact SameNames.of_VerifyProfile_eq (by assumption)
    | exact (SameNames.of_VerifyProfile_eq (by assumption)).trans
        (SameNames.of_UpdateStatus_eq (by assumption))

theorem SameNames.of_service_HardDeleteProfile (s : Store) (engine : Option String)
    (id : UUID) : SameNames s (service.HardDeleteProfile s engine id).2 := by
  unfold service.HardDeleteProfile
  repeat' split
  all_goals exact SameNames.of_HardDeleteProfile_eq (by assumption)

/-- Over the PostgreSQL repository `RegisterProfile` never changes the store: it returns
before any write, or its `CreateProfile` call fails. -/
theorem RegisterProfile_postgres_store (e : RegisterEngine) (bc : Bcrypt) (w : RegisterWorld)
    (s : Store) (req : CreateProfileRequest) :
    (RegisterProfile (NewPostgresProfileRepository e) bc w s req).2 = s := by
  obtain ⟨err, herr⟩ := CreateProfile_always_fails s e.create
    { ID := w.profileID, Username := req.Username, Email := req.Email,
      PasswordHash := (bc.GenerateFromPassword req.Password DefaultCost w.entropy).getD "",
      Status := .StatusPending, VerifiedAt := none, LastLoginAt := none,
      FailedLoginAttempts := 0, CreatedAt := w.now, UpdatedByUserAt := w.now,
      UpdatedBySystemAt := w.now }
  unfold RegisterProfile NewPostgresProfileRepository
  simp only []
  split
  · rfl
  · split
    · rfl
    · split
      · rfl
      · split
        · rfl
        · cases hh : bc.GenerateFromPassword req.Password DefaultCost w.entropy with
          | none => rfl
          | some h =>
            rw [hh] at herr
            simp only [Option.getD_some] at herr
            simp only [herr]

/-- The repository's `UpdateProfile` keeps usernames and emails unique: its statement is
aborted when the table it would leave breaks either constraint. -/
theorem UniqueNames.after_UpdateProfile {s : Store} (engine : Option String)
    (profile : PlatformProfile) (h : UniqueNames s) :
    UniqueNames (UpdateProfile s engine profile).2 := by
  unfold UpdateProfile
  cases engine with
  | some e => exact h
  | none =>
    simp only
    split_ifs
    all_goals
      first
      | exact h
      | exact ⟨by assumption, by assumption⟩

theorem UniqueNames.of_UpdateProfile_eq {s s1 : Store} {r : Option GoError}
    {engine : Option String} {profile : PlatformProfile}
    (heq : UpdateProfile s engine profile = (r, s1)) (h : UniqueNames s) : UniqueNames s1 := by
  have key := UniqueNames.after_UpdateProfile engine profile h
  rw [heq] at key
  exact key

theorem UniqueNames.of_service_UpdateProfile {s : Store} (w : UpdateWorld) (id : UUID)
    (req : UpdateProfileRequest) (h : UniqueNames s) :
    UniqueNames (service.UpdateProfile w s id req).2 := by
  unfold service.UpdateProfile
  simp only []
  repeat' split
  all_goals
    first
    | exact h
    | exact UniqueNames.of_UpdateProfile_eq (by assumption) h

/-- Deleting rows keeps usernames and emails unique. -/
theorem UniqueNames.after_SoftDeleteProfile {s : Store} (c : SoftDeleteCall) (id : UUID)
    (h : UniqueNames s) : UniqueNames (SoftDeleteProfile s c id).2 := by
  have hfilter : UniqueNames { s with
      platform_profiles := s.platform_profiles.filter (fun r => !(r.ID == id)),
      deleted_profiles := s.deleted_profiles ++
        (s.platform_profiles.filter (fun r => r.ID == id)).map
          (fun r => { profile := r, deleted_at := c.archive.now }) } :=
    ⟨h.1.sublist ((List.filter_sublist _).map _), h.2.sublist ((List.filter_sublist _).map _)⟩
  unfold SoftDeleteProfile
  simp only []
  repeat' split
  all_goals
    first
    | exact h
    | exact hfilter

theorem UniqueNames.of_service_SoftDeleteProfile {s : Store} (c : SoftDeleteCall) (id : UUID)
    (h : UniqueNames s) : UniqueNames (service.SoftDeleteProfile s c id).2 := by
  have key := UniqueNames.after_SoftDeleteProfile c id h
  unfold service.SoftDeleteProfile
  split <;> (rename_i heq; rw [heq] at key; exact key)

/-- A row added by `ON CONFLICT (id) DO NOTHING` carries a username and an email that no row
of the table has, so the statement keeps both columns free of duplicates. -/
theorem insertOnConflictDoNothing_nodup (cs : List PlatformProfile) :
    ∀ (rows rows1 : List PlatformProfile) (ids : List UUID),
      insertOnConflictDoNothing cs rows = .ok (rows1, ids) →
      (rows.map (fun r => r.Username)).Nodup → (rows.map (fun r => r.Email)).Nodup →
      (rows1.map (fun r => r.Username)).Nodup ∧ (rows1.map (fun r => r.Email)).Nodup := by
  induction cs with
  | nil =>
    intro rows rows1 ids h hU hE
    simp only [insertOnConflictDoNothing, Except.ok.injEq, Prod.mk.injEq] at h
    rw [← h.1]
    exact ⟨hU, hE⟩
  | cons c cs ih =>
    intro rows rows1 ids h hU hE
    unfold insertOnConflictDoNothing at h
    split_ifs at h with h1 h2 h3
    · exact ih rows rows1 ids h hU hE
    · cases hrec : insertOnConflictDoNothing cs (rows ++ [c]) with
      | error name => rw [hrec] at h; cases h
      | ok r =>
        obtain ⟨rows2, ids2⟩ := r
        rw [hrec] at h
        simp only [Except.ok.injEq, Prod.mk.injEq] at h
        rw [← h.1]
        refine ih (rows ++ [c]) rows2 ids2 hrec ?_ ?_
        · rw [List.map_append, List.nodup_append]
          refine ⟨hU, List.nodup_singleton _, ?_⟩
          intro a ha hb
          simp only [List.map_cons, List.map_nil, List.mem_singleton] at hb
          subst hb
          apply h2
          obtain ⟨r, hr, hru⟩ := List.mem_map.mp ha
          exact List.any_eq_true.mpr ⟨r, hr, by simp [hru]⟩
        · rw [List.map_append, List.nodup_append]
          refine ⟨hE, List.nodup_singleton _, ?_⟩
          intro a ha hb
          simp only [List.map_cons, List.map_nil, List.mem_singleton] at hb
          subst hb
          apply h3
          obtain ⟨r, hr, hru⟩ := List.mem_map.mp ha
          exact List.any_eq_true.mpr ⟨r, hr, by simp [hru]⟩

theorem UniqueNames.after_RestoreSoftDeletedProfile {s : Store} (c : RestoreCall) (id : UUID)
    (h : UniqueNames s) : UniqueNames (RestoreSoftDeletedProfile s c id).2 := by
  unfold RestoreSoftDeletedProfile
  simp only []
  repeat' split
  all_goals
    first
    | exact h
    | exact insertOnConflictDoNothing_nodup _ _ _ _ (by assumption) h.1 h.2

theorem UniqueNames.of_RestoreProfile {s : Store} (c : RestoreCall) (id : UUID)
    (h : UniqueNames s) : UniqueNames (RestoreProfile s c id).2 := by
  have key := UniqueNames.after_RestoreSoftDeletedProfile c id h
  unfold RestoreProfile
  split
  · rename_i heq
    rw [heq] at key
    split <;> exact key
  · rename_i heq
    rw [heq] at key
    exact key


/-- Claim C25.  Uniqueness invariant: in every store state reachable by calls of the lifecycle
service (registration, profile update, authentication, the status transitions, password change
and reset, soft delete, restore, hard delete; any arguments, any driver outcomes) from a store
whose active table has no two rows with one username and no two with one email, the active
table again has no two rows with one username and no two with one email.  The empty store is
such a start.  The two writes that can put a username or an email into the active table, the
`UPDATE` of `UpdateProfile` and the `INSERT` of the restore, are kept from doing harm by the
table's two unique constraints (`uniqueKeyHolds`, `uniqueKeyTaken`), not by the service's
availability lookups. -/
theorem C25_reachable_stores_keep_usernames_and_emails_unique (s0 s : Store)
    (h0 : UniqueNames s0) (h : ReachableFrom s0 s) : UniqueNames s := by
  induction h with
  | start => exact h0
  | register e bc w req _ ih =>
    rw [RegisterProfile_postgres_store]
    exact ih
  | update w id req _ ih => exact UniqueNames.of_service_UpdateProfile w id req ih
  | authenticate bc w req _ ih =>
    exact UniqueNames.of_sameNames ih (SameNames.of_AuthenticateProfile bc w _ req)
  | verify v a id _ ih =>
    exact UniqueNames.of_sameNames ih (SameNames.of_service_VerifyProfile _ v a id)
  | activate c id _ ih => exact UniqueNames.of_sameNames ih (SameNames.of_ActivateProfile _ c id)
  | suspend c id _ ih => exact UniqueNames.of_sameNames ih (SameNames.of_SuspendProfile _ c id)
  | deactivate c id _ ih =>
    exact UniqueNames.of_sameNames ih (SameNames.of_DeactivateProfile _ c id)
  | changePassword bc w id req _ ih =>
    exact UniqueNames.of_sameNames ih (SameNames.of_ChangePassword bc w _ id req)
  | requestReset w req _ ih =>
    exact UniqueNames.of_sameNames ih (SameNames.of_RequestPasswordReset w _ req)
  | confirmReset bc w req _ ih =>
    exact UniqueNames.of_sameNames ih (SameNames.of_ConfirmPasswordReset bc w _ req)
  | softDelete c id _ ih => exact UniqueNames.of_service_SoftDeleteProfile c id ih
  | restore c id _ ih => exact UniqueNames.of_RestoreProfile c id ih
  | hardDelete engine id _ ih =>
    exact UniqueNames.of_sameNames ih (SameNames.of_service_HardDeleteProfile _ engine id)

/-- Instances of C25 on a store with `alice`, `bob` and `carol`.  First `bob` asks for the
username `alice` while the availability lookup is down: the service lets the change through,
the `UPDATE` breaks the username constraint and the three rows stay as they were.  Second
`alice` is soft-deleted, `bob` takes her username, and her restore breaks the username
constraint: the active table keeps `bob` (now `alice`) and `carol`. -/
theorem C25_reachable_stores_keep_usernames_and_emails_unique_witness :
    (UniqueNames demoThreeUsers ∧
      ReachableFrom demoThreeUsers demoAfterTakenRename ∧
      (service.UpdateProfile (demoUpdateWorldLookupDown 300) demoThreeUsers 2
          ⟨some "alice", none⟩).1
        = .error (NewDatabaseError "updating profile" ErrUsernameAlreadyExists) ∧
      demoAfterTakenRename.platform_profiles.map (fun r => r.Username)
        = ["alice", "bob", "carol"] ∧
      UniqueNames demoAfterTakenRename) ∧
    (ReachableFrom demoThreeUsers demoAfterDeleteRenameRestore ∧
      demoAfterDeleteRenameRestore.platform_profiles.map (fun r => (r.ID, r.Username))
        = [(2, "alice"), (3, "carol")] ∧
      demoAfterDeleteRenameRestore.deleted_profiles.map (fun d => d.profile.Username)
        = ["alice"] ∧
      UniqueNames demoAfterDeleteRenameRestore) :=
  ⟨⟨by decide, .update _ _ _ .start, by rfl, by decide,
     C25_reachable_stores_keep_usernames_and_emails_unique _ _ (by decide)
       (.update _ _ _ .start)⟩,
   ⟨.restore _ _ (.update _ _ _ (.softDelete _ _ .start)), by decide, by decide,
     C25_reachable_stores_keep_usernames_and_emails_unique demoThreeUsers _ (by decide)
       (.restore _ _ (.update _ _ _ (.softDelete _ _ .start)))⟩⟩

/-! ## Password hashing: base64, splitting, round trip -/

theorem RawStdEncoding.decodeMap_encode :
    ∀ v, v < 64 → RawStdEncoding.decodeMap (RawStdEncoding.encode v) = some v := by
  decide

theorem RawStdEncoding.encode_ne_dollar :
    ∀ v, v < 64 → RawStdEncoding.encode v ≠ ascii '$' := by
  decide

theorem RawStdEncoding.sextets_encode_cons (offset v : Nat) (hv : v < 64) (cs : List Byte) :
    RawStdEncoding.sextets offset (RawStdEncoding.encode v :: cs) =
      match RawStdEncoding.sextets (offset + 1) cs with
      | .error bad => .error bad
      | .ok values => .ok (v :: values) := by
  rw [RawStdEncoding.sextets, RawStdEncoding.decodeMap_encode v hv]

/-- Decoding what the encoder wrote gives the bytes back. -/
theorem RawStdEncoding.decode_encode : ∀ (src : List Byte) (offset : Nat),
    ∃ values, RawStdEncoding.sextets offset (RawStdEncoding.EncodeToString src) = .ok values ∧
      RawStdEncoding.assemble values = some src
  | [], _ => ⟨[], rfl, rfl⟩
  | [a], offset => by
    refine ⟨[a.val * 65536 / 262144 % 64, a.val * 65536 / 4096 % 64], ?_, ?_⟩
    · simp only [RawStdEncoding.EncodeToString]
      rw [RawStdEncoding.sextets_encode_cons _ _ (Nat.mod_lt _ (by decide)),
        RawStdEncoding.sextets_encode_cons _ _ (Nat.mod_lt _ (by decide))]
      rfl
    · simp only [RawStdEncoding.assemble, Option.some.injEq, List.cons.injEq, and_true]
      apply Fin.ext
      have := a.isLt
      simp only
      omega
  | [a, b], offset => by
    refine ⟨[(a.val * 65536 + b.val * 256) / 262144 % 64,
      (a.val * 65536 + b.val * 256) / 4096 % 64, (a.val * 65536 + b.val * 256) / 64 % 64],
      ?_, ?_⟩
    · simp only [RawStdEncoding.EncodeToString]
      rw [RawStdEncoding.sextets_encode_cons _ _ (Nat.mod_lt _ (by decide)),
        RawStdEncoding.sextets_encode_cons _ _ (Nat.mod_lt _ (by decide)),
        RawStdEncoding.sextets_encode_cons _ _ (Nat.mod_lt _ (by decide))]
      rfl
    · simp only [RawStdEncoding.assemble, Option.some.injEq, List.cons.injEq, and_true]
      have := a.isLt
      have := b.isLt
      constructor <;> (apply Fin.ext; simp only; omega)
  | a :: b :: c :: rest, offset => by
    obtain ⟨values, h1, h2⟩ := RawStdEncoding.decode_encode rest (offset + 1 + 1 + 1 + 1)
    refine ⟨(a.val * 65536 + b.val * 256 + c.val) / 262144 % 64 ::
      (a.val * 65536 + b.val * 256 + c.val) / 4096 % 64 ::
      (a.val * 65536 + b.val * 256 + c.val) / 64 % 64 ::
      (a.val * 65536 + b.val * 256 + c.val) % 64 :: values, ?_, ?_⟩
    · simp only [RawStdEncoding.EncodeToString]
      rw [RawStdEncoding.sextets_encode_cons _ _ (Nat.mod_lt _ (by decide)),
        RawStdEncoding.sextets_encode_cons _ _ (Nat.mod_lt _ (by decide)),
        RawStdEncoding.sextets_encode_cons _ _ (Nat.mod_lt _ (by decide)),
        RawStdEncoding.sextets_encode_cons _ _ (Nat.mod_lt _ (by decide)), h1]
    · simp only [RawStdEncoding.assemble, h2, Option.some.injEq, List.cons.injEq, and_true]
      have := a.isLt
      have := b.isLt
      have := c.isLt
      refine ⟨?_, ?_, ?_⟩ <;> (apply Fin.ext; simp only; omega)

theorem RawStdEncoding.DecodeString_EncodeToString (src : List Byte) :
    RawStdEncoding.DecodeString (RawStdEncoding.EncodeToString src) = .ok src := by
  obtain ⟨values, h1, h2⟩ := RawStdEncoding.decode_encode src 0
  unfold RawStdEncoding.DecodeString
  rw [h1]
  simp only [h2]

/-- The encoder writes characters of the alphabet only, so never a `$`. -/
theorem RawStdEncoding.dollar_not_mem_EncodeToString :
    ∀ src : List Byte, ascii '$' ∉ RawStdEncoding.EncodeToString src
  | [] => by simp [RawStdEncoding.EncodeToString]
  | [a] => by
    simp only [RawStdEncoding.EncodeToString, List.mem_cons, List.mem_nil_iff, or_false, not_or]
    exact ⟨fun h => RawStdEncoding.encode_ne_dollar _ (Nat.mod_lt _ (by decide)) h.symm,
      fun h => RawStdEncoding.encode_ne_dollar _ (Nat.mod_lt _ (by decide)) h.symm⟩
  | [a, b] => by
    simp only [RawStdEncoding.EncodeToString, List.mem_cons, List.mem_nil_iff, or_false, not_or]
    exact ⟨fun h => RawStdEncoding.encode_ne_dollar _ (Nat.mod_lt _ (by decide)) h.symm,
      fun h => RawStdEncoding.encode_ne_dollar _ (Nat.mod_lt _ (by decide)) h.symm,
      fun h => RawStdEncoding.encode_ne_dollar _ (Nat.mod_lt _ (by decide)) h.symm⟩
  | a :: b :: c :: rest => by
    simp only [RawStdEncoding.EncodeToString, List.mem_cons, not_or]
    exact ⟨fun h => RawStdEncoding.encode_ne_dollar _ (Nat.mod_lt _ (by decide)) h.symm,
      fun h => RawStdEncoding.encode_ne_dollar _ (Nat.mod_lt _ (by decide)) h.symm,
      fun h => RawStdEncoding.encode_ne_dollar _ (Nat.mod_lt _ (by decide)) h.symm,
      fun h => RawStdEncoding.encode_ne_dollar _ (Nat.mod_lt _ (by decide)) h.symm,
      RawStdEncoding.dollar_not_mem_EncodeToString rest⟩

theorem stringsSplit_of_not_mem (sep : Byte) :
    ∀ s : List Byte, sep ∉ s → stringsSplit s sep = [s]
  | [], _ => rfl
  | c :: cs, h => by
    have hc : c ≠ sep := fun e => h (e ▸ List.mem_cons_self _ _)
    have hcs : sep ∉ cs := fun e => h (List.mem_cons_of_mem _ e)
    rw [stringsSplit, if_neg hc, stringsSplit_of_not_mem sep cs hcs]

theorem stringsSplit_append_sep (sep : Byte) (tail : List Byte) :
    ∀ s : List Byte, sep ∉ s →
      stringsSplit (s ++ sep :: tail) sep = s :: stringsSplit tail sep
  | [], _ => by rw [List.nil_append, stringsSplit, if_pos rfl]
  | c :: cs, h => by
    have hc : c ≠ sep := fun e => h (e ▸ List.mem_cons_self _ _)
    have hcs : sep ∉ cs := fun e => h (List.mem_cons_of_mem _ e)
    rw [List.cons_append, stringsSplit, if_neg hc, stringsSplit_append_sep sep tail cs hcs]

/-! ### `HashPassword`, `decodeHash`, `VerifyPassword` -/

/-- What `HashPassword` returns when the random source and the key derivation return. -/
theorem HashPassword_returns (kdf : Argon2) (rand : Nat → Except GoError (List Byte))
    (password salt key : List Byte) (hrand : rand 16 = .ok salt)
    (hkey : kdf.IDKey password salt 1 65536 4 32 = .returns key) :
    HashPassword kdf rand password =
      .returns (.ok (bytes "$argon2id$v=19$m=65536,t=1,p=4$" ++
        RawStdEncoding.EncodeToString salt ++ bytes "$" ++ RawStdEncoding.EncodeToString key)) := by
  have hrand1 : rand DefaultArgonParams.SaltLength = .ok salt := hrand
  have hkey1 : kdf.IDKey password salt DefaultArgonParams.Iterations DefaultArgonParams.Memory
      DefaultArgonParams.Parallelism DefaultArgonParams.KeyLength = .returns key := hkey
  have hprefix : bytes "$argon2id$v=19$m=" ++ bytes (toString DefaultArgonParams.Memory) ++
      bytes ",t=" ++ bytes (toString DefaultArgonParams.Iterations) ++
      bytes ",p=" ++ bytes (toString DefaultArgonParams.Parallelism) ++ bytes "$" =
      bytes "$argon2id$v=19$m=65536,t=1,p=4$" := by decide
  unfold HashPassword GenerateRandomBytes
  simp only [hrand1, hkey1, hprefix]

theorem stringsSplit_encoded (b64Salt b64Hash : List Byte)
    (hs : ascii '$' ∉ b64Salt) (hh : ascii '$' ∉ b64Hash) :
    stringsSplit (bytes "$argon2id$v=19$m=65536,t=1,p=4$" ++ b64Salt ++ bytes "$" ++ b64Hash)
        (ascii '$') =
      [[], bytes "argon2id", bytes "v=19", bytes "m=65536,t=1,p=4", b64Salt, b64Hash] := by
  have hshape : bytes "$argon2id$v=19$m=65536,t=1,p=4$" ++ b64Salt ++ bytes "$" ++ b64Hash =
      [] ++ ascii '$' :: (bytes "argon2id" ++ ascii '$' :: (bytes "v=19" ++ ascii '$' ::
        (bytes "m=65536,t=1,p=4" ++ ascii '$' :: (b64Salt ++ ascii '$' :: b64Hash)))) := by
    have h1 : bytes "$argon2id$v=19$m=65536,t=1,p=4$" =
        [] ++ ascii '$' :: (bytes "argon2id" ++ ascii '$' :: (bytes "v=19" ++ ascii '$' ::
          (bytes "m=65536,t=1,p=4" ++ [ascii '$']))) := by decide
    have h2 : bytes "$" = [ascii '$'] := by decide
    rw [h1, h2]
    simp only [List.append_assoc, List.cons_append, List.nil_append, List.singleton_append]
  rw [hshape, stringsSplit_append_sep _ _ _ (List.not_mem_nil _),
    stringsSplit_append_sep _ _ _ (by decide), stringsSplit_append_sep _ _ _ (by decide),
    stringsSplit_append_sep _ _ _ (by decide), stringsSplit_append_sep _ _ _ hs,
    stringsSplit_of_not_mem _ _ hh]

theorem decodeHash_parameters_default :
    decodeHash.parameters (stringsSplit (bytes "m=65536,t=1,p=4") (ascii ','))
        { Memory := 0, Iterations := 0, Parallelism := 0, SaltLength := 0, KeyLength := 0 } =
      .ok { Memory := 65536, Iterations := 1, Parallelism := 4, SaltLength := 0,
            KeyLength := 0 } := by
  rfl

/-- Function `decodeHash` recovers what `HashPassword` encoded. -/
theorem decodeHash_encoded (salt key : List Byte) :
    decodeHash (bytes "$argon2id$v=19$m=65536,t=1,p=4$" ++
        RawStdEncoding.EncodeToString salt ++ bytes "$" ++ RawStdEncoding.EncodeToString key) =
      .ok ({ Memory := 65536, Iterations := 1, Parallelism := 4,
             SaltLength := salt.length % 4294967296, KeyLength := key.length % 4294967296 },
        salt, key) := by
  unfold decodeHash
  simp only [stringsSplit_encoded _ _ (RawStdEncoding.dollar_not_mem_EncodeToString salt)
    (RawStdEncoding.dollar_not_mem_EncodeToString key)]
  simp only [List.length_cons, List.length_nil, List.getD_cons_succ, List.getD_cons_zero,
    decodeHash_parameters_default, RawStdEncoding.DecodeString_EncodeToString]
  rfl

theorem ConstantTimeCompare_self (x : List Byte) : ConstantTimeCompare x x = 1 := by
  simp [ConstantTimeCompare]

theorem ConstantTimeCompare_of_ne {x y : List Byte} (h : x ≠ y) :
    ConstantTimeCompare x y = 0 := by
  unfold ConstantTimeCompare
  split_ifs <;> rfl

/-- What `VerifyPassword` returns once `decodeHash` and the key derivation have returned. -/
theorem VerifyPassword_returns (kdf : Argon2) (password encodedHash : List Byte)
    (params : ArgonParams) (salt hash otherHash : List Byte)
    (hdecode : decodeHash encodedHash = .ok (params, salt, hash))
    (hkey : kdf.IDKey password salt params.Iterations params.Memory params.Parallelism
      params.KeyLength = .returns otherHash) :
    VerifyPassword kdf password encodedHash =
      .returns (ConstantTimeCompare hash otherHash == 1, none) := by
  unfold VerifyPassword
  simp only [hdecode, hkey]

/-! ## C23 - hashing then verifying -/

/-- C23. Let the random source fill in the 16-byte salt `salt`, and let the key derivation,
run with the default parameters and this salt, return the 32-byte key `key` for the password
`p` and the key `other` for the password `q`, where `other` is `key` only if `q` is `p` (the
derivation does not collide on the two passwords).  Then `HashPassword p` returns an encoded
string and no error; `decodeHash` recovers from that string exactly the default parameters,
the salt and the key; and `VerifyPassword q` on it returns `(true, nil)` when `q = p` and
`(false, nil)` when `q` differs from `p`.  The passwords are byte strings of any length and
content. -/
theorem C23_verify_password_round_trips_hash_password (kdf : Argon2)
    (rand : Nat → Except GoError (List Byte)) (p q salt key other : List Byte)
    (hrand : rand 16 = .ok salt) (hsalt : salt.length = 16)
    (hp : kdf.IDKey p salt 1 65536 4 32 = .returns key) (hkey : key.length = 32)
    (hq : kdf.IDKey q salt 1 65536 4 32 = .returns other)
    (hinj : other = key → q = p) :
    ∃ encodedHash,
      HashPassword kdf rand p = .returns (.ok encodedHash) ∧
      decodeHash encodedHash = .ok (DefaultArgonParams, salt, key) ∧
      (q = p → VerifyPassword kdf q encodedHash = .returns (true, none)) ∧
      (q ≠ p → VerifyPassword kdf q encodedHash = .returns (false, none)) := by
  have hdecode : decodeHash (bytes "$argon2id$v=19$m=65536,t=1,p=4$" ++
      RawStdEncoding.EncodeToString salt ++ bytes "$" ++ RawStdEncoding.EncodeToString key) =
      .ok (DefaultArgonParams, salt, key) := by
    rw [decodeHash_encoded, hsalt, hkey]
    rfl
  have hverify := VerifyPassword_returns kdf q _ DefaultArgonParams salt key other hdecode hq
  refine ⟨_, HashPassword_returns kdf rand p salt key hrand hp, hdecode, ?_, ?_⟩
  · intro hqp
    subst hqp
    have hsame : other = key := Completion.returns.inj (hq.symm.trans hp)
    rw [hverify, hsame, ConstantTimeCompare_self]
    rfl
  · intro hqp
    have hdiff : key ≠ other := fun e => hqp (hinj e.symm)
    rw [hverify, ConstantTimeCompare_of_ne hdiff]
    rfl

/-- C23 at concrete inputs: the stand-in derivation, the salt 0..15, the password `secret`,
verified against itself and against `Secret`. -/
theorem C23_verify_password_round_trips_hash_password_witness :
    (∃ encodedHash,
      HashPassword demoArgon2 (fun _ => .ok demoSalt) (bytes "secret") =
        .returns (.ok encodedHash) ∧
      decodeHash encodedHash =
        .ok (DefaultArgonParams, demoSalt,
          (bytes "secret" ++ demoSalt ++ List.replicate 32 0).take 32) ∧
      VerifyPassword demoArgon2 (bytes "secret") encodedHash = .returns (true, none)) ∧
    (∃ encodedHash,
      HashPassword demoArgon2 (fun _ => .ok demoSalt) (bytes "secret") =
        .returns (.ok encodedHash) ∧
      VerifyPassword demoArgon2 (bytes "Secret") encodedHash = .returns (false, none)) :=
  ⟨(C23_verify_password_round_trips_hash_password demoArgon2 (fun _ => .ok demoSalt)
      (bytes "secret") (bytes "secret") demoSalt
      ((bytes "secret" ++ demoSalt ++ List.replicate 32 0).take 32)
      ((bytes "secret" ++ demoSalt ++ List.replicate 32 0).take 32)
      (by rfl) (by decide) (by rfl) (by decide) (by rfl) (fun _ => rfl)).imp
      (fun _ h => ⟨h.1, h.2.1, h.2.2.1 rfl⟩),
   (C23_verify_password_round_trips_hash_password demoArgon2 (fun _ => .ok demoSalt)
      (bytes "secret") (bytes "Secret") demoSalt
      ((bytes "secret" ++ demoSalt ++ List.replicate 32 0).take 32)
      ((bytes "Secret" ++ demoSalt ++ List.replicate 32 0).take 32)
      (by rfl) (by decide) (by rfl) (by decide) (by rfl) (by decide)).imp
      (fun _ h => ⟨h.1, h.2.2.2 (by decide)⟩)⟩

/-! ## C24 - malformed hashes and wrong passwords -/

/-- C24. For every password and every encoded string: when the split of the string on `$`
does not have exactly 6 fields, or its algorithm field is not `argon2id`, `VerifyPassword`
returns an error ("invalid hash format" or "unsupported algorithm") next to `false`; when
`decodeHash` accepts the string (a well-formed hash) and the key derived from the password
with the decoded salt and parameters differs from the decoded key (a wrong password),
`VerifyPassword` returns `false` and no error. -/
theorem C24_malformed_hash_errors_wrong_password_is_false (kdf : Argon2)
    (password encodedHash : List Byte) :
    (((stringsSplit encodedHash (ascii '$')).length ≠ 6 ∨
        (stringsSplit encodedHash (ascii '$')).getD 1 [] ≠ bytes "argon2id") →
      ∃ err, VerifyPassword kdf password encodedHash = .returns (false, some err) ∧
        (err = .errorsNew "invalid hash format" ∨ err = .errorsNew "unsupported algorithm")) ∧
    (∀ params salt hash otherHash,
      decodeHash encodedHash = .ok (params, salt, hash) →
      kdf.IDKey password salt params.Iterations params.Memory params.Parallelism
        params.KeyLength = .returns otherHash →
      otherHash ≠ hash →
      VerifyPassword kdf password encodedHash = .returns (false, none)) := by
  constructor
  · intro hbad
    by_cases hlen : (stringsSplit encodedHash (ascii '$')).length ≠ 6
    · refine ⟨.errorsNew "invalid hash format", ?_, .inl rfl⟩
      unfold VerifyPassword decodeHash
      simp only []
      rw [if_pos hlen]
    · have halgo : (stringsSplit encodedHash (ascii '$')).getD 1 [] ≠ bytes "argon2id" :=
        hbad.resolve_left hlen
      refine ⟨.errorsNew "unsupported algorithm", ?_, .inr rfl⟩
      unfold VerifyPassword decodeHash
      simp only []
      rw [if_neg hlen, if_pos halgo]
  · intro params salt hash otherHash hdecode hkey hwrong
    rw [VerifyPassword_returns kdf password encodedHash params salt hash otherHash hdecode hkey,
      ConstantTimeCompare_of_ne (Ne.symm hwrong)]
    rfl

/-- C24 at concrete inputs: a string without `$`, a hash tagged `argon2i`, and the hash of
`secret` (stand-in derivation, salt 0..15) checked against the password `Secret`. -/
theorem C24_malformed_hash_errors_wrong_password_is_false_witness :
    (∃ err, VerifyPassword demoArgon2 (bytes "secret") (bytes "not-a-hash") =
        .returns (false, some err) ∧
      (err = .errorsNew "invalid hash format" ∨ err = .errorsNew "unsupported algorithm")) ∧
    (∃ err, VerifyPassword demoArgon2 (bytes "secret")
        (bytes "$argon2i$v=19$m=65536,t=1,p=4$c2FsdA$aGFzaA") = .returns (false, some err) ∧
      (err = .errorsNew "invalid hash format" ∨ err = .errorsNew "unsupported algorithm")) ∧
    VerifyPassword demoArgon2 (bytes "Secret")
      (bytes ("$argon2id$v=19$m=65536,t=1,p=4$AAECAwQFBgcICQoLDA0ODw$" ++
        "c2VjcmV0AAECAwQFBgcICQoLDA0ODwAAAAAAAAAAAAA")) = .returns (false, none) :=
  ⟨(C24_malformed_hash_errors_wrong_password_is_false demoArgon2 (bytes "secret")
      (bytes "not-a-hash")).1 (.inl (by decide)),
   (C24_malformed_hash_errors_wrong_password_is_false demoArgon2 (bytes "secret")
      (bytes "$argon2i$v=19$m=65536,t=1,p=4$c2FsdA$aGFzaA")).1 (.inr (by decide)),
   (C24_malformed_hash_errors_wrong_password_is_false demoArgon2 (bytes "Secret")
      (bytes ("$argon2id$v=19$m=65536,t=1,p=4$AAECAwQFBgcICQoLDA0ODw$" ++
        "c2VjcmV0AAECAwQFBgcICQoLDA0ODwAAAAAAAAAAAAA"))).2
      DefaultArgonParams demoSalt ((bytes "secret" ++ demoSalt ++ List.replicate 32 0).take 32)
      ((bytes "Secret" ++ demoSalt ++ List.replicate 32 0).take 32) (by rfl) (by rfl)
      (by decide)⟩

/-! ## C30 - what `decodeHash` does not check -/

/-- C30. Three strings of six fields with the tag `argon2id` that `decodeHash` accepts
without error: one with the version `v=18` and the single unknown parameter `x=1`, one whose
`m`, `t` and `p` have no number as value, one that carries `m` alone.  Each missing or
unparsable parameter is decoded as 0; and on the first string `VerifyPassword` reports no
malformed hash but runs the key derivation with 0 iterations, 0 memory and 0 threads, its
outcome being what that call returns or panics with. -/
theorem C30_decode_hash_accepts_missing_and_unparsable_parameters (kdf : Argon2)
    (password : List Byte) :
    decodeHash (bytes "$argon2id$v=18$x=1$c2FsdA$aGFzaA") =
      .ok ({ Memory := 0, Iterations := 0, Parallelism := 0, SaltLength := 4, KeyLength := 4 },
        bytes "salt", bytes "hash") ∧
    decodeHash (bytes "$argon2id$v=19$m=abc,t=,p=-$c2FsdA$aGFzaA") =
      .ok ({ Memory := 0, Iterations := 0, Parallelism := 0, SaltLength := 4, KeyLength := 4 },
        bytes "salt", bytes "hash") ∧
    decodeHash (bytes "$argon2id$v=19$m=65536$c2FsdA$aGFzaA") =
      .ok ({ Memory := 65536, Iterations := 0, Parallelism := 0, SaltLength := 4,
             KeyLength := 4 }, bytes "salt", bytes "hash") ∧
    VerifyPassword kdf password (bytes "$argon2id$v=18$x=1$c2FsdA$aGFzaA") =
      (match kdf.IDKey password (bytes "salt") 0 0 0 4 with
       | .panics reason => .panics reason
       | .returns otherHash =>
         .returns (ConstantTimeCompare (bytes "hash") otherHash == 1, none)) := by
  have h1 : decodeHash (bytes "$argon2id$v=18$x=1$c2FsdA$aGFzaA") =
      .ok ({ Memory := 0, Iterations := 0, Parallelism := 0, SaltLength := 4, KeyLength := 4 },
        bytes "salt", bytes "hash") := by rfl
  refine ⟨h1, by rfl, by rfl, ?_⟩
  unfold VerifyPassword
  rw [h1]

end ING
